import Mathlib

/-!
# LiveText redundant messaging core: a shallow embedding

Embedding of the message codec (`src/common/TextMessage.{h,cpp}`), the UDP
transport (`src/network/UdpNetworkLayer.{h,cpp}`), the Aeron publisher and subscriber
(`src/common/AeronConnection.cpp`, `src/testing/AeronStub.cpp`), the health aggregator
(`src/common/HealthMonitor.{h,cpp}`), the channel adapter
(`src/network/NetworkAdapter.cpp`), the receiver's message handler
(`src/receiver/ReceiverApp.cpp`, `src/receiver/TextRenderer.cpp`) and the sender's
text memory (`src/sender/TextMemory.{h,cpp}`).

Conventions.
* Machine integers are `Nat` (unsigned) or `Int` (signed), reduced explicitly
  where the width matters.  A byte is a `Nat` read modulo 256.
* A `(pointer, length)` pair is an `Option (List Nat)`: `none` is `nullptr`,
  `some buf` is a readable region of `buf.length` bytes.
* The wall clock and the outcome of system calls are parameters.
-/

namespace LiveText

/-! ## TextMessage.h -/

/-- Enumerator `TextSize::SMALL` of `enum class TextSize : uint8_t`. -/
@[reducible] def TextSize.SMALL : Nat := 0
/-- Enumerator `TextSize::BIG`. -/
@[reducible] def TextSize.BIG : Nat := 1

/-- Enumerator `MessageType::TEXT_UPDATE` of `enum class MessageType : uint8_t`. -/
@[reducible] def MessageType.TEXT_UPDATE : Nat := 1
/-- Enumerator `MessageType::CLEAR_TEXT`. -/
@[reducible] def MessageType.CLEAR_TEXT : Nat := 2
/-- Enumerator `MessageType::HEARTBEAT`. -/
@[reducible] def MessageType.HEARTBEAT : Nat := 3

/-- The struct `TextMessage`.  The two enum fields are kept as their underlying
`uint8_t` value, since `deserialize` copies raw bytes into them and the code
itself tests them against the enumerators. -/
structure TextMessage where
  /-- Field `MessageType type` (one byte). -/
  type : Nat
  /-- Field `TextSize size` (one byte). -/
  size : Nat
  /-- Field `uint32_t textLength`. -/
  textLength : Nat
  /-- Field `uint64_t timestamp`, milliseconds since the epoch. -/
  timestamp : Nat
  /-- Field `char text[512]`. -/
  text : List Nat
deriving DecidableEq, Repr

/-- The value of `sizeof(text)`. -/
@[reducible] def sizeofText : Nat := 512

/-- The value of `sizeof(TextMessage)` = `getMaxSerializedSize()`: one byte `type`,
one byte `size`, two bytes of padding, four bytes `textLength`, eight bytes
`timestamp`, 512 bytes `text` (the layout of the LP64 ABIs the project builds
for). -/
@[reducible] def getMaxSerializedSize : Nat := 528

/-- The values a `TextMessage` object can hold: every field within the range of
its C++ type. -/
def TextMessage.WellFormed (m : TextMessage) : Prop :=
  m.type < 256 ∧ m.size < 256 ∧ m.textLength < 2 ^ 32 ∧ m.timestamp < 2 ^ 64 ∧
    m.text.length = sizeofText ∧ ∀ b ∈ m.text, b < 256

instance (m : TextMessage) : Decidable m.WellFormed := by
  unfold TextMessage.WellFormed; infer_instance

/-! ## TextMessage.cpp -/

/-- The default constructor `TextMessage::TextMessage()`; `now` is the reading of
`system_clock` in milliseconds. -/
def TextMessage.ctor (now : Nat) : TextMessage :=
  { type := MessageType.TEXT_UPDATE
    size := TextSize.SMALL
    textLength := 0
    timestamp := now
    text := List.replicate sizeofText 0 }

/-- The member `TextMessage::setText`: `min`, `memcpy` of `textLength` bytes,
then the terminator. -/
def TextMessage.setText (self : TextMessage) (newText : List Nat) : TextMessage :=
  let textLength := min newText.length (sizeofText - 1)
  let text := newText.take textLength ++ self.text.drop textLength
  { self with textLength := textLength, text := text.set textLength 0 }

/-- The constructor `TextMessage::TextMessage(const std::string&, TextSize)`.  It
does not initialise `textLength` or `text` before calling `setText`; `uninitLength`
and `uninitText` are whatever the storage held. -/
def TextMessage.ctorText (newText : List Nat) (size : Nat) (now : Nat)
    (uninitLength : Nat) (uninitText : List Nat) : TextMessage :=
  TextMessage.setText
    { type := MessageType.TEXT_UPDATE
      size := size
      textLength := uninitLength
      timestamp := now
      text := uninitText } newText

/-- The static member `TextMessage::createClearMessage`. -/
def TextMessage.createClearMessage (now : Nat) : TextMessage :=
  let msg := TextMessage.ctor now
  { msg with type := MessageType.CLEAR_TEXT, textLength := 0,
             text := List.replicate sizeofText 0 }

/-- The static member `TextMessage::createHeartbeat`. -/
def TextMessage.createHeartbeat (now : Nat) : TextMessage :=
  let msg := TextMessage.ctor now
  { msg with type := MessageType.HEARTBEAT, textLength := 0,
             text := List.replicate sizeofText 0 }

/-- The member `TextMessage::getText`: `std::string(text, textLength)`. -/
def TextMessage.getText (self : TextMessage) : List Nat :=
  self.text.take self.textLength

/-- The 512 bytes of the `text` field as they lie in memory. -/
def TextMessage.textBytes (m : TextMessage) : List Nat :=
  (List.range sizeofText).map fun i => m.text.getD i 0 % 256

/-- The object representation of a `TextMessage`, the `sizeof(TextMessage)` bytes
that `memcpy(buffer, this, requiredSize)` reads: little-endian integers, the two
padding bytes written as 0. -/
def TextMessage.toBytes (m : TextMessage) : List Nat :=
  m.type % 256 :: m.size % 256 :: 0 :: 0 ::
  m.textLength % 256 :: m.textLength / 256 % 256 ::
  m.textLength / 65536 % 256 :: m.textLength / 16777216 % 256 ::
  m.timestamp % 256 :: m.timestamp / 2 ^ 8 % 256 ::
  m.timestamp / 2 ^ 16 % 256 :: m.timestamp / 2 ^ 24 % 256 ::
  m.timestamp / 2 ^ 32 % 256 :: m.timestamp / 2 ^ 40 % 256 ::
  m.timestamp / 2 ^ 48 % 256 :: m.timestamp / 2 ^ 56 % 256 ::
  m.textBytes

/-- The object that `memcpy(this, buffer, sizeof(TextMessage))` leaves in `*this`:
the inverse reading of the same layout. -/
def TextMessage.fromBytes (buf : List Nat) : TextMessage :=
  let b := fun i => buf.getD i 0 % 256
  { type := b 0
    size := b 1
    textLength := b 4 + 256 * b 5 + 65536 * b 6 + 16777216 * b 7
    timestamp := b 8 + 2 ^ 8 * b 9 + 2 ^ 16 * b 10 + 2 ^ 24 * b 11 +
      2 ^ 32 * b 12 + 2 ^ 40 * b 13 + 2 ^ 48 * b 14 + 2 ^ 56 * b 15
    text := ((buf.drop 16).take sizeofText).map (· % 256) }

/-- The member `TextMessage::serialize`.  Returns the `size_t` result and the
buffer after the call (`bufferSize` is the length of the region). -/
def TextMessage.serialize (self : TextMessage) (buffer : Option (List Nat)) :
    Nat × Option (List Nat) :=
  let requiredSize := getMaxSerializedSize
  match buffer with
  | none => (0, none)
  | some buf =>
    if buf.length < requiredSize then (0, some buf)
    else if self.textLength ≥ sizeofText then (0, some buf)
    else if self.type ≠ MessageType.TEXT_UPDATE ∧
        self.type ≠ MessageType.CLEAR_TEXT ∧
        self.type ≠ MessageType.HEARTBEAT then (0, some buf)
    else (requiredSize, some (self.toBytes ++ buf.drop requiredSize))

/-- The member `TextMessage::deserialize`.  Returns the `bool` result and `*this`
after the call; `now` is the reading of `system_clock` in milliseconds. -/
def TextMessage.deserialize (self : TextMessage) (buffer : Option (List Nat))
    (now : Nat) : Bool × TextMessage :=
  match buffer with
  | none => (false, self)
  | some buf =>
    if buf.length < getMaxSerializedSize then (false, self)
    else
      let m := TextMessage.fromBytes buf
      let m := if m.textLength ≥ sizeofText then { m with textLength := sizeofText - 1 } else m
      if m.type ≠ MessageType.TEXT_UPDATE ∧
          m.type ≠ MessageType.CLEAR_TEXT ∧
          m.type ≠ MessageType.HEARTBEAT then (false, m)
      else
        let m := if m.size ≠ TextSize.SMALL ∧ m.size ≠ TextSize.BIG
          then { m with size := TextSize.SMALL } else m
        let m := { m with text := m.text.set m.textLength 0 }
        let m := if m.timestamp = 0 then { m with timestamp := now } else m
        (true, m)

/-- The invariant of the data model: `textLength <= 511`, `type` one of the three
enumerators, `text[textLength]` the terminator. -/
def TextMessage.Invariant (m : TextMessage) : Prop :=
  m.textLength ≤ 511 ∧
  (m.type = MessageType.TEXT_UPDATE ∨ m.type = MessageType.CLEAR_TEXT ∨
    m.type = MessageType.HEARTBEAT) ∧
  m.text.getD m.textLength 1 = 0

/-- The composition the round-trip property speaks of: serialize `m` into the
region `buf`, then deserialize that region into the message `fresh`. -/
def roundTrip (m fresh : TextMessage) (buf : List Nat) (now : Nat) : Bool × TextMessage :=
  fresh.deserialize (m.serialize (some buf)).2 now

/-! ## UdpNetworkLayer.h -/

/-- The struct `NetworkStats`.  The counters are `uint64_t`; the smoothed latency
`avgLatencyMs` is a `double` that no decision of the code reads and is left out. -/
structure NetworkStats where
  messagesSent : Nat := 0
  messagesReceived : Nat := 0
  bytesSent : Nat := 0
  bytesReceived : Nat := 0
  errors : Nat := 0
  gaps : Nat := 0
  connected : Bool := false
  lastError : String := ""
deriving DecidableEq, Repr

/-- The statement `counter++` / `counter += n` on a `uint64_t`. -/
def u64add (a b : Nat) : Nat := (a + b) % 2 ^ 64

/-- The private state of class `UdpPublisher` (the destination address is
derived from `multicastAddress` and `port` and is not kept). -/
structure UdpPublisher where
  multicastAddress : String
  port : Int
  socket : Int := -1
  stats : NetworkStats := {}
  initialized : Bool := false
deriving DecidableEq, Repr

/-- The nested struct `UdpSubscriber::FeedInfo`; `lastMessage` is a
`steady_clock::time_point`, counted in ticks. -/
structure FeedInfo where
  address : String
  socket : Int := -1
  stats : NetworkStats := {}
  lastMessage : Int
deriving DecidableEq, Repr

/-- The private state of class `UdpSubscriber`.  `messageCallback` records whether
a callback is registered; the calls made to it are returned by the step that makes
them.  `receiverThreads` is the vector `receiverThreads_`, each thread named by the
index of the feed whose loop it runs. -/
structure UdpSubscriber where
  feeds : List FeedInfo
  port : Int
  running : Bool := false
  activeFeed : Nat := 0
  messageCallback : Bool := false
  receiverThreads : List Nat := []
deriving DecidableEq, Repr

/-- The private state of class `DualUdpPublisher`: the two owned publishers. -/
structure DualUdpPublisher where
  primary : UdpPublisher
  secondary : UdpPublisher
deriving DecidableEq, Repr

/-! ## UdpNetworkLayer.cpp -/

/-- What one call of `UdpPublisher::publish` does: its `bool` result, the
publisher afterwards, and the payload it passed to `sendto` (`none` when it did
not call `sendto`). -/
structure PublishOutcome where
  result : Bool
  publisher : UdpPublisher
  sendto : Option (List Nat)
deriving DecidableEq, Repr

/-- The member `UdpPublisher::publish`.  `sent` is the value `sendto` returns for
this call and `strerror` the text of `errno` when it fails. -/
def UdpPublisher.publish (self : UdpPublisher) (message : TextMessage) (sent : Int)
    (strerror : String) : PublishOutcome :=
  if !self.initialized || self.socket < 0 then
    { result := false, publisher := self, sendto := none }
  else
    let buffer := List.replicate 1024 0
    let r := message.serialize (some buffer)
    let size := r.1
    let datagram := (r.2.getD []).take size
    if sent < 0 then
      { result := false
        publisher := { self with stats := { self.stats with
          lastError := "Send failed: " ++ strerror
          errors := u64add self.stats.errors 1 } }
        sendto := some datagram }
    else
      { result := true
        publisher := { self with stats := { self.stats with
          messagesSent := u64add self.stats.messagesSent 1
          bytesSent := u64add self.stats.bytesSent sent.toNat } }
        sendto := some datagram }

/-- What one call of `DualUdpPublisher::publish` does: its result and what the
two endpoint calls did. -/
structure DualPublishOutcome where
  result : Bool
  publisher : DualUdpPublisher
  primarySendto : Option (List Nat)
  secondarySendto : Option (List Nat)
deriving DecidableEq, Repr

/-- The member `DualUdpPublisher::publish`; `sent1`, `err1` are the outcome of the
primary endpoint's `sendto`, `sent2`, `err2` that of the secondary's. -/
def DualUdpPublisher.publish (self : DualUdpPublisher) (message : TextMessage)
    (sent1 : Int) (err1 : String) (sent2 : Int) (err2 : String) : DualPublishOutcome :=
  let p := self.primary.publish message sent1 err1
  let primarySuccess := p.result
  let s := self.secondary.publish message sent2 err2
  let secondarySuccess := s.result
  { result := primarySuccess || secondarySuccess
    publisher := { primary := p.publisher, secondary := s.publisher }
    primarySendto := p.sendto
    secondarySendto := s.sendto }

/-- The results of the system calls that one `UdpSubscriber::setupSocket` makes:
`socket`, the two `setsockopt` calls, `bind`, and the text of `errno`. -/
structure SetupEnv where
  socket : Int
  reuseAddr : Int
  reusePort : Int
  bind : Int
  strerror : String
deriving DecidableEq, Repr

/-- The member `UdpSubscriber::setupSocket`, on the feed it indexes. -/
def setupSocket (feed : FeedInfo) (env : SetupEnv) : Bool × FeedInfo :=
  let feed := { feed with socket := env.socket }
  let fail := fun (what : String) (f : FeedInfo) =>
    { f with stats := { f.stats with lastError := what ++ env.strerror
                                     errors := u64add f.stats.errors 1 } }
  if feed.socket < 0 then
    (false, fail "Failed to create socket: " feed)
  else if env.reuseAddr < 0 then
    (false, fail "Failed to set SO_REUSEADDR: " { feed with socket := -1 })
  else if env.reusePort < 0 then
    (false, fail "Failed to set SO_REUSEPORT: " { feed with socket := -1 })
  else if env.bind < 0 then
    (false, fail "Failed to bind socket: " { feed with socket := -1 })
  else (true, feed)

/-- The `for` loop of `UdpSubscriber::initialize` from index `i` on, with the
current value of `allSuccess`; `env i` is what the system calls for feed `i`
return. -/
def initializeLoop (env : Nat → SetupEnv) : List FeedInfo → Nat → Bool → Bool × List FeedInfo
  | [], _, allSuccess => (allSuccess, [])
  | feed :: rest, i, allSuccess =>
    let r := setupSocket feed (env i)
    if !r.1 then
      let t := initializeLoop env rest (i + 1) false
      (t.1, r.2 :: t.2)
    else
      let t := initializeLoop env rest (i + 1) allSuccess
      (t.1, { r.2 with stats := { r.2.stats with connected := true } } :: t.2)

/-- The member `UdpSubscriber::initialize`. -/
def UdpSubscriber.initialize (self : UdpSubscriber) (env : Nat → SetupEnv) :
    Bool × UdpSubscriber :=
  let r := initializeLoop env self.feeds 0 true
  (r.1, { self with feeds := r.2 })

/-- The `for` loop of `UdpSubscriber::updateActiveFeed` from index `i` on, on the
pair `(bestFeed, bestTime)`. -/
def updateActiveFeedLoop : List FeedInfo → Nat → Nat × Int → Nat × Int
  | [], _, best => best
  | feed :: rest, i, best =>
    if feed.stats.connected && feed.lastMessage > best.2 then
      updateActiveFeedLoop rest (i + 1) (i, feed.lastMessage)
    else
      updateActiveFeedLoop rest (i + 1) best

/-- The member `UdpSubscriber::updateActiveFeed`; `none` when
`feeds_[bestFeed]` would index outside the vector. -/
def UdpSubscriber.updateActiveFeed (self : UdpSubscriber) : Option UdpSubscriber :=
  let bestFeed := self.activeFeed
  match self.feeds[bestFeed]? with
  | none => none
  | some feed =>
    let best := updateActiveFeedLoop self.feeds 0 (bestFeed, feed.lastMessage)
    some { self with activeFeed := best.1 }

/-- The member `UdpSubscriber::getActiveFeed`. -/
def UdpSubscriber.getActiveFeed (self : UdpSubscriber) : Nat := self.activeFeed

/-- What `recv` returns to one iteration of the receive loop: a datagram, the
would-block condition, or another error with the text of `errno`. -/
inductive RecvOutcome where
  | data (bytes : List Nat)
  | wouldBlock
  | error (strerror : String)
deriving DecidableEq, Repr

/-- One iteration of the `while (running_)` loop of `UdpSubscriber::receiveLoop`
for feed `feedIndex`: the subscriber afterwards and the calls made to the message
callback, in order.  `steadyNow` and `systemNow` are the clock readings; a datagram
is cut to the 1024 bytes of the receive buffer; `none` when a vector would be
indexed outside its bounds.  The callback is taken not to throw. -/
def UdpSubscriber.receiveLoop (self : UdpSubscriber) (feedIndex : Nat) (recv : RecvOutcome)
    (steadyNow : Int) (systemNow : Nat) : Option (UdpSubscriber × List (TextMessage × Nat)) :=
  match self.feeds[feedIndex]? with
  | none => none
  | some feed =>
    match recv with
    | RecvOutcome.data bytes =>
      let buffer := bytes.take 1024
      let received := buffer.length
      if received > 0 then
        let feed := { feed with
          stats := { feed.stats with
            messagesReceived := u64add feed.stats.messagesReceived 1
            bytesReceived := u64add feed.stats.bytesReceived received }
          lastMessage := steadyNow }
        let message := TextMessage.ctor systemNow
        let d := message.deserialize (some buffer) systemNow
        let calls := if d.1 then (if self.messageCallback then [(d.2, feedIndex)] else []) else []
        let feed := if d.1 then feed
          else { feed with stats := { feed.stats with errors := u64add feed.stats.errors 1 } }
        let self := { self with feeds := self.feeds.set feedIndex feed }
        match self.updateActiveFeed with
        | none => none
        | some self => some (self, calls)
      else some (self, [])
    | RecvOutcome.error strerror =>
      let feed := { feed with stats := { feed.stats with
        errors := u64add feed.stats.errors 1
        lastError := "Receive error: " ++ strerror } }
      some ({ self with feeds := self.feeds.set feedIndex feed }, [])
    | RecvOutcome.wouldBlock => some (self, [])

/-! ## AeronConnection.h, AeronConnection.cpp -/

/-- The struct `ConnectionStats`. -/
structure ConnectionStats where
  messagesReceived : Nat := 0
  messagesPublished : Nat := 0
  bytesReceived : Nat := 0
  bytesPublished : Nat := 0
  lastHeartbeat : Nat := 0
  isConnected : Bool := false
  hasErrors : Bool := false
  lastError : String := ""
deriving DecidableEq, Repr

/-- The state of class `AeronPublisher` that `publish` reads and writes:
whether `publication_` is set, and the statistics. -/
structure AeronPublisher where
  hasPublication : Bool := false
  stats : ConnectionStats := {}
  running : Bool := false
deriving DecidableEq, Repr

/-- What `publication_->offer` does in one call: it returns a `long`, or throws
a `std::exception` with the given text. -/
inductive OfferOutcome where
  | returned (result : Int)
  | threw (what : String)
deriving DecidableEq, Repr

/-- The member `AeronPublisher::publish` of `AeronConnection.cpp`.  `connected` is
the value of `publication_->isConnected()`, `offer` what the `offer` call does. -/
def AeronPublisher.publish (self : AeronPublisher) (message : TextMessage)
    (connected : Bool) (offer : OfferOutcome) : Bool × AeronPublisher :=
  if !self.hasPublication || !connected then (false, self)
  else
    let buffer := List.replicate getMaxSerializedSize 0
    let length := (message.serialize (some buffer)).1
    if length = 0 then (false, self)
    else
      match offer with
      | OfferOutcome.returned result =>
        if result > 0 then
          (true, { self with stats := { self.stats with
            messagesPublished := u64add self.stats.messagesPublished 1
            bytesPublished := u64add self.stats.bytesPublished length } })
        else (false, self)
      | OfferOutcome.threw what =>
        (false, { self with stats := { self.stats with hasErrors := true, lastError := what } })

/-- The two publishers owned by class `DualAeronPublisher`. -/
structure DualAeronPublisher where
  primary : AeronPublisher
  secondary : AeronPublisher
deriving DecidableEq, Repr

/-- The member `DualAeronPublisher::publish`; `c1`, `o1` are the environment of
the primary's call and `c2`, `o2` that of the secondary's. -/
def DualAeronPublisher.publish (self : DualAeronPublisher) (message : TextMessage)
    (c1 : Bool) (o1 : OfferOutcome) (c2 : Bool) (o2 : OfferOutcome) :
    Bool × DualAeronPublisher :=
  let p := self.primary.publish message c1 o1
  let primarySuccess := p.1
  let s := self.secondary.publish message c2 o2
  let secondarySuccess := s.1
  (primarySuccess || secondarySuccess, { primary := p.2, secondary := s.2 })

/-- The state of class `AeronSubscriber` that `initialize` and `handleFragment`
read and write. -/
structure AeronSubscriber where
  stats : List ConnectionStats
  activeFeed : Int := -1
  messageCallback : Bool := false
deriving DecidableEq, Repr

/-- The `for` loop of `AeronSubscriber::initialize` from channel `i` on, when no
call throws; `connected i` is `subscription->isConnected()` after the wait. -/
def AeronSubscriber.initializeLoop (connected : Nat → Bool) :
    List ConnectionStats → Nat → Int → List ConnectionStats × Int
  | [], _, activeFeed => ([], activeFeed)
  | stat :: rest, i, activeFeed =>
    if connected i then
      let activeFeed := if activeFeed = -1 then (i : Int) else activeFeed
      let t := AeronSubscriber.initializeLoop connected rest (i + 1) activeFeed
      ({ stat with isConnected := true } :: t.1, t.2)
    else
      let t := AeronSubscriber.initializeLoop connected rest (i + 1) activeFeed
      ({ stat with hasErrors := true, lastError := "Failed to connect subscription" } :: t.1,
        t.2)

/-- The member `AeronSubscriber::initialize` of `AeronConnection.cpp`, when no
call throws. -/
def AeronSubscriber.initialize (self : AeronSubscriber) (connected : Nat → Bool) :
    Bool × AeronSubscriber :=
  let r := AeronSubscriber.initializeLoop connected self.stats 0 self.activeFeed
  (decide (r.2 ≥ 0), { self with stats := r.1, activeFeed := r.2 })

/-- The member `AeronSubscriber::handleFragment` of `AeronConnection.cpp` on the
fragment `buffer.buffer() + offset` of `length` bytes: the subscriber afterwards and
the calls made to the message callback; `none` when `stats_[feedId]` would index
outside the vector. -/
def AeronSubscriber.handleFragment (self : AeronSubscriber) (fragment : List Nat)
    (feedId : Nat) (systemNow : Nat) : Option (AeronSubscriber × List (TextMessage × Nat)) :=
  if self.messageCallback then
    let message := TextMessage.ctor systemNow
    let d := message.deserialize (some fragment) systemNow
    if d.1 then
      match self.stats[feedId]? with
      | none => none
      | some stat =>
        let stat := { stat with
          messagesReceived := u64add stat.messagesReceived 1
          bytesReceived := u64add stat.bytesReceived fragment.length }
        if d.2.type = MessageType.HEARTBEAT then
          let stat := { stat with lastHeartbeat := systemNow }
          some ({ self with stats := self.stats.set feedId stat }, [])
        else
          some ({ self with stats := self.stats.set feedId stat }, [(d.2, feedId)])
    else some (self, [])
  else some (self, [])

/-! ## HealthMonitor.h, HealthMonitor.cpp -/

/-- The enumeration `enum class HealthStatus`, in declaration order. -/
inductive HealthStatus where
  | HEALTHY
  | WARNING
  | CRITICAL
  | DISCONNECTED
deriving DecidableEq, Repr

/-- The underlying value of a `HealthStatus` enumerator. -/
def HealthStatus.toNat : HealthStatus → Nat
  | HEALTHY => 0
  | WARNING => 1
  | CRITICAL => 2
  | DISCONNECTED => 3

/-- The call `std::max(a, b)` on two `HealthStatus` values: `(a < b) ? b : a`. -/
def HealthStatus.max (a b : HealthStatus) : HealthStatus :=
  if a.toNat < b.toNat then b else a

/-- The struct `HealthMetric`; the two `double` fields are carried as rationals,
the code does no arithmetic on them. -/
structure HealthMetric where
  name : String
  status : HealthStatus := HealthStatus.DISCONNECTED
  details : String := ""
  lastUpdate : Nat := 0
  value : Rat := 0
  threshold : Rat := 0
deriving DecidableEq, Repr

/-- The state of class `HealthMonitor`: the vector `metrics_`. -/
structure HealthMonitor where
  metrics : List HealthMetric := []
deriving DecidableEq, Repr

/-- The expression `now - metric.lastUpdate` on `uint64_t`. -/
def metricAge (now : Nat) (metric : HealthMetric) : Nat :=
  (now + 2 ^ 64 - metric.lastUpdate % 2 ^ 64) % 2 ^ 64

/-- The `for` loop of `HealthMonitor::getOverallStatus` over the metrics that
remain, on the current value of `overall`. -/
def getOverallStatusLoop (now : Nat) : List HealthMetric → HealthStatus → HealthStatus
  | [], overall => overall
  | metric :: rest, overall =>
    let age := metricAge now metric
    let overall := if age > 10000 then HealthStatus.max overall HealthStatus.WARNING
      else HealthStatus.max overall metric.status
    if overall = HealthStatus.CRITICAL then overall
    else getOverallStatusLoop now rest overall

/-- The member `HealthMonitor::getOverallStatus`; `now` is `getCurrentTimestamp()`. -/
def HealthMonitor.getOverallStatus (self : HealthMonitor) (now : Nat) : HealthStatus :=
  if self.metrics.isEmpty then HealthStatus.DISCONNECTED
  else getOverallStatusLoop now self.metrics HealthStatus.HEALTHY

/-- The effective severity of a metric as the specification words it: Warning when
`now - lastUpdate > 10000`, the stored status otherwise. -/
def effectiveSeverity (now : Nat) (metric : HealthMetric) : HealthStatus :=
  if metricAge now metric > 10000 then HealthStatus.WARNING else metric.status

/-- The overall status as the specification words it: the maximum, under
Healthy < Warning < Critical < Disconnected, of the effective severities of all
metrics. -/
def maxEffectiveSeverity (now : Nat) (metrics : List HealthMetric) : HealthStatus :=
  (metrics.map (effectiveSeverity now)).foldl HealthStatus.max HealthStatus.HEALTHY

/-- The constructor `HealthMetric(const std::string& name)`. -/
def HealthMetric.ctor (name : String) : HealthMetric :=
  { name := name, status := HealthStatus.DISCONNECTED, details := "", lastUpdate := 0,
    value := 0, threshold := 0 }

/-- The member `HealthMonitor::findMetric`: `std::find_if` over `metrics_` for the
first metric with the given name, as the index of the element it points to
(`none` for `nullptr`). -/
def findMetric : List HealthMetric → String → Option Nat
  | [], _ => none
  | m :: rest, name =>
    if m.name = name then some 0 else (findMetric rest name).map (· + 1)

/-- The member `HealthMonitor::updateMetric`; `now` is `getCurrentTimestamp()`. -/
def HealthMonitor.updateMetric (self : HealthMonitor) (name : String) (value : Rat)
    (status : HealthStatus) (details : String) (now : Nat) : HealthMonitor :=
  let write := fun (metric : HealthMetric) =>
    { metric with value := value, status := status, details := details, lastUpdate := now }
  match findMetric self.metrics name with
  | none => { self with metrics := self.metrics ++ [write (HealthMetric.ctor name)] }
  | some i =>
    match self.metrics[i]? with
    | none => self
    | some metric => { self with metrics := self.metrics.set i (write metric) }

/-- The member `HealthMonitor::updateConnectionStatus`. -/
def HealthMonitor.updateConnectionStatus (self : HealthMonitor) (connectionName : String)
    (connected : Bool) (error : String) (now : Nat) : HealthMonitor :=
  let status := if connected then HealthStatus.HEALTHY else HealthStatus.CRITICAL
  let details := if connected then "Connected" else "Disconnected: " ++ error
  self.updateMetric connectionName (if connected then 1 else 0) status details now

/-- A call made to a `HealthMonitor` that changes its table. -/
inductive HealthCall where
  | updateMetric (name : String) (value : Rat) (status : HealthStatus) (details : String)
      (now : Nat)
  | updateConnectionStatus (connectionName : String) (connected : Bool) (error : String)
      (now : Nat)
deriving DecidableEq, Repr

/-- The monitor after one call. -/
def HealthMonitor.call (self : HealthMonitor) : HealthCall → HealthMonitor
  | HealthCall.updateMetric name value status details now =>
    self.updateMetric name value status details now
  | HealthCall.updateConnectionStatus name connected error now =>
    self.updateConnectionStatus name connected error now

/-- The monitor after a sequence of calls on a freshly constructed
`HealthMonitor` (whose table is empty). -/
def HealthMonitor.afterCalls (calls : List HealthCall) : HealthMonitor :=
  calls.foldl HealthMonitor.call {}

/-- The effective severity is Critical or Disconnected. -/
def HealthStatus.atLeastCritical (s : HealthStatus) : Bool :=
  decide (s = HealthStatus.CRITICAL) || decide (s = HealthStatus.DISCONNECTED)

/-! ## UdpNetworkLayer.cpp, TextMessage.cpp: further members -/

/-- The member `UdpSubscriber::isHealthy`. -/
def UdpSubscriber.isHealthy (self : UdpSubscriber) : Bool :=
  self.feeds.any fun feed => feed.stats.connected

/-- The member `AeronSubscriber::isHealthy` of `AeronConnection.cpp`; `now` is the
reading of `system_clock` in milliseconds, the subtraction is on `uint64_t`. -/
def AeronSubscriber.isHealthy (self : AeronSubscriber) (now : Nat) : Bool :=
  self.stats.any fun stat =>
    stat.isConnected && !stat.hasErrors &&
      decide ((now + 2 ^ 64 - stat.lastHeartbeat % 2 ^ 64) % 2 ^ 64 < 10000)

/-- The member `AeronSubscriber::isHealthy` of `testing/AeronStub.cpp`. -/
def AeronSubscriber.isHealthyStub (self : AeronSubscriber) : Bool :=
  self.stats.any fun stat => stat.isConnected && !stat.hasErrors

/-- The text field is NUL from index `textLength` to the end of its 512 bytes. -/
def TextMessage.NulPadded (m : TextMessage) : Prop :=
  ∀ i, m.textLength ≤ i → i < sizeofText → m.text.getD i 1 = 0

/-! ## NetworkAdapter.cpp -/

/-- Matching a literal at the start of a string: the rest of the string after the
literal, or `none`. -/
def matchLiteral : List Char → List Char → Option (List Char)
  | [], s => some s
  | _ :: _, [] => none
  | p :: ps, c :: cs => if p = c then matchLiteral ps cs else none

/-- A match of the pattern `endpoint=([^:]+):(\d+)` that starts at the first
character of `s`: the two captured groups.  After the literal, `[^:]+` can only end
where the run of non-colon characters ends (any shorter choice is followed by a
non-colon character, not by `:`), and the greedy `\d+` takes the whole run of
digits. -/
def matchEndpointHere (s : List Char) : Option (List Char × List Char) :=
  match matchLiteral "endpoint=".data s with
  | none => none
  | some rest =>
    let address := rest.takeWhile fun c => decide (c ≠ ':')
    match rest.dropWhile fun c => decide (c ≠ ':') with
    | [] => none
    | _ :: afterColon =>
      let port := afterColon.takeWhile Char.isDigit
      if address ≠ [] ∧ port ≠ [] then some (address, port) else none

/-- The call `std::regex_search(channel, match, regex)` for the pattern
`endpoint=([^:]+):(\d+)` (the pattern of `extractPort` differs only in not
capturing the first group): the captured groups of the leftmost match. -/
def regexSearchEndpoint : List Char → Option (List Char × List Char)
  | [] => none
  | c :: cs =>
    match matchEndpointHere (c :: cs) with
    | some groups => some groups
    | none => regexSearchEndpoint cs

/-- The value of a string of decimal digits. -/
def digitsValue (p : List Char) : Nat :=
  p.foldl (fun acc c => 10 * acc + (c.toNat - 48)) 0

/-- The call `std::stoi(str)` on a non-empty string of decimal digits, as the
pattern captures: its value, or `none` when it throws `std::out_of_range`
because the value does not fit in an `int`. -/
def stoi (p : List Char) : Option Int :=
  if digitsValue p ≤ 2147483647 then some (digitsValue p : Int) else none

/-- The function `extractAddress`. -/
def extractAddress (channel : String) : String :=
  match regexSearchEndpoint channel.data with
  | some groups => String.mk groups.1
  | none => "224.0.1.1"

/-- The function `extractPort`; `none` when `std::stoi` throws. -/
def extractPort (channel : String) : Option Int :=
  match regexSearchEndpoint channel.data with
  | some groups => stoi groups.2
  | none => some 9999

/-- The constructor `UdpPublisher::UdpPublisher`. -/
def UdpPublisher.ctor (multicastAddress : String) (port : Int) : UdpPublisher :=
  { multicastAddress := multicastAddress, port := port, socket := -1 }

/-- The constructor `DualUdpPublisher::DualUdpPublisher`. -/
def DualUdpPublisher.ctor (primaryAddress secondaryAddress : String) (port : Int) :
    DualUdpPublisher :=
  { primary := UdpPublisher.ctor primaryAddress port
    secondary := UdpPublisher.ctor secondaryAddress port }

/-- The state of class `UdpAeronPublisher`: the publisher it owns. -/
structure UdpAeronPublisher where
  udpPublisher : UdpPublisher
deriving DecidableEq, Repr

/-- The constructor `UdpAeronPublisher::UdpAeronPublisher`; `none` when
`extractPort` throws. -/
def UdpAeronPublisher.ctor (channel : String) (_streamId : Int) : Option UdpAeronPublisher :=
  let address := extractAddress channel
  match extractPort channel with
  | none => none
  | some port => some { udpPublisher := UdpPublisher.ctor address port }

/-- The state of class `UdpDualAeronPublisher`: the dual publisher it owns. -/
structure UdpDualAeronPublisher where
  dualUdpPublisher : DualUdpPublisher
deriving DecidableEq, Repr

/-- The constructor `UdpDualAeronPublisher::UdpDualAeronPublisher`; `none` when
`extractPort` throws. -/
def UdpDualAeronPublisher.ctor (primaryChannel secondaryChannel : String) (_streamId : Int) :
    Option UdpDualAeronPublisher :=
  let primaryAddress := extractAddress primaryChannel
  let secondaryAddress := extractAddress secondaryChannel
  match extractPort primaryChannel with
  | none => none
  | some port =>
    some { dualUdpPublisher := DualUdpPublisher.ctor primaryAddress secondaryAddress port }

/-- A string contains a match of `endpoint=<non-colon chars>:<digits>`. -/
def ContainsEndpoint (s : List Char) : Prop :=
  ∃ before address port after,
    s = before ++ "endpoint=".data ++ address ++ ':' :: port ++ after ∧
    address ≠ [] ∧ (∀ c ∈ address, c ≠ ':') ∧ port ≠ [] ∧ ∀ c ∈ port, c.isDigit = true

/-! ## TextRenderer.cpp, ReceiverApp.cpp -/

/-- The state of class `TextRenderer` that `updateText` and `clearText` read and
write.  A `std::string` is its list of bytes; the `float` `fadeAlpha_` is carried as
the rational it stands for. -/
structure TextRenderer where
  currentText : List Nat
  currentSize : Nat
  fadeAlpha : Rat
  isFading : Bool
  fadeStartTime : Int
  cachedTextIsDirty : Bool
deriving DecidableEq, Repr

/-- The member `TextRenderer::updateText`. -/
def TextRenderer.updateText (self : TextRenderer) (text : List Nat) (size : Nat) :
    TextRenderer :=
  let self := if self.currentText ≠ text ∨ self.currentSize ≠ size
    then { self with currentText := text, currentSize := size, cachedTextIsDirty := true }
    else self
  { self with fadeAlpha := 1, isFading := false }

/-- The member `TextRenderer::clearText`; the literal `0.01f` is the `float`
10737418 / 2^30. -/
def TextRenderer.clearText (self : TextRenderer) (steadyNow : Int) : TextRenderer :=
  if self.currentText ≠ [] ∨ self.fadeAlpha > 10737418 / 1073741824
  then { self with isFading := true, fadeStartTime := steadyNow }
  else self

/-- The application state of class `ReceiverApp` that `onMessageReceived` reads
and writes, with the renderer it owns. -/
structure ReceiverApp where
  textRenderer : TextRenderer
  currentText : List Nat
  currentSize : Nat
  needsClearOldOutput : Bool
  outputToClear : Nat
  needsClearInactiveAfterFade : Bool
  isFading : Bool
  fadeAlpha : Rat
  fadeStartTime : Int
  fadingText : List Nat
deriving DecidableEq, Repr

/-- The member `ReceiverApp::onMessageReceived`; `steadyNow` is the reading of
`steady_clock` (the CLEAR_TEXT branch reads it here and again in `clearText`; both
readings are `steadyNow`).  The feed id is only printed. -/
def ReceiverApp.onMessageReceived (self : ReceiverApp) (message : TextMessage)
    (_feedId : Int) (steadyNow : Int) : ReceiverApp :=
  if message.type = MessageType.TEXT_UPDATE then
    let previousSize := self.currentSize
    let self := { self with currentText := message.getText, currentSize := message.size }
    let self := if previousSize ≠ self.currentSize
      then { self with needsClearOldOutput := true, outputToClear := previousSize }
      else self
    { self with textRenderer := self.textRenderer.updateText self.currentText self.currentSize }
  else if message.type = MessageType.CLEAR_TEXT then
    let self := if self.currentText ≠ []
      then { self with fadingText := self.currentText, isFading := true, fadeAlpha := 1,
                       fadeStartTime := steadyNow, needsClearInactiveAfterFade := true }
      else self
    { self with textRenderer := self.textRenderer.clearText steadyNow, currentText := [] }
  else self

/-! ## UdpNetworkLayer.cpp: open, health and shutdown -/

/-- The results of the system calls that one `UdpPublisher::initialize` makes:
`socket`, `inet_aton`, and the text of `errno`. -/
structure PublisherEnv where
  socket : Int
  inetAton : Int
  strerror : String
deriving DecidableEq, Repr

/-- The member `UdpPublisher::initialize`. -/
def UdpPublisher.initialize (self : UdpPublisher) (env : PublisherEnv) : Bool × UdpPublisher :=
  if self.initialized then (true, self)
  else
    let self := { self with socket := env.socket }
    if self.socket < 0 then
      (false, { self with stats := { self.stats with
        lastError := "Failed to create socket: " ++ env.strerror
        errors := u64add self.stats.errors 1 } })
    else if env.inetAton = 0 then
      (false, { self with
        socket := -1
        stats := { self.stats with
          lastError := "Invalid multicast address: " ++ self.multicastAddress
          errors := u64add self.stats.errors 1 } })
    else
      (true, { self with
        initialized := true
        stats := { self.stats with connected := true, lastError := "" } })

/-- The member `DualUdpPublisher::initialize`; `env1` is the environment of the
primary's call and `env2` that of the secondary's. -/
def DualUdpPublisher.initialize (self : DualUdpPublisher) (env1 env2 : PublisherEnv) :
    Bool × DualUdpPublisher :=
  let p := UdpPublisher.initialize self.primary env1
  let primaryOk := p.1
  let s := UdpPublisher.initialize self.secondary env2
  let secondaryOk := s.1
  (primaryOk || secondaryOk, { primary := p.2, secondary := s.2 })

/-- The member `UdpPublisher::isHealthy`. -/
def UdpPublisher.isHealthy (self : UdpPublisher) : Bool :=
  self.initialized && self.stats.connected

/-- The member `DualUdpPublisher::isHealthy` (both owned pointers are set by the
constructor). -/
def DualUdpPublisher.isHealthy (self : DualUdpPublisher) : Bool :=
  self.primary.isHealthy || self.secondary.isHealthy

/-- The member `AeronPublisher::isHealthy` of `AeronConnection.cpp`; `now` is the
reading of `system_clock` in milliseconds, the subtraction is on `uint64_t`. -/
def AeronPublisher.isHealthy (self : AeronPublisher) (now : Nat) : Bool :=
  self.stats.isConnected && !self.stats.hasErrors &&
    decide ((now + 2 ^ 64 - self.stats.lastHeartbeat % 2 ^ 64) % 2 ^ 64 < 5000)

/-- The member `UdpPublisher::shutdown`: the publisher afterwards and the
descriptors it passed to `close`. -/
def UdpPublisher.shutdown (self : UdpPublisher) : UdpPublisher × List Int :=
  let closed := if self.socket ≥ 0 then [self.socket] else []
  let self := if self.socket ≥ 0 then { self with socket := -1 } else self
  ({ self with initialized := false, stats := { self.stats with connected := false } }, closed)

/-- The constructor `UdpSubscriber::UdpSubscriber`; `now i` is the reading of
`steady_clock` taken for feed `i`. -/
def UdpSubscriber.ctor (multicastAddresses : List String) (port : Int) (now : Nat → Int) :
    UdpSubscriber :=
  { feeds := (List.range multicastAddresses.length).map fun i =>
      { address := multicastAddresses.getD i "", lastMessage := now i }
    port := port }

/-- The member `UdpSubscriber::start`: one receiver thread for each feed that has
a socket. -/
def UdpSubscriber.start (self : UdpSubscriber) : UdpSubscriber :=
  { self with
    running := true
    receiverThreads := (List.range self.feeds.length).filter fun i =>
      decide ((self.feeds.getD i { address := "", lastMessage := 0 }).socket ≥ 0) }

/-- What one call of `UdpSubscriber::shutdown` does: the subscriber afterwards,
the threads it joined and the descriptors it passed to `close`. -/
structure ShutdownOutcome where
  subscriber : UdpSubscriber
  joined : List Nat
  closed : List Int
deriving DecidableEq, Repr

/-- The member `UdpSubscriber::shutdown` (every thread in the vector is joinable
until it is joined). -/
def UdpSubscriber.shutdown (self : UdpSubscriber) : ShutdownOutcome :=
  { subscriber := { self with
      running := false
      receiverThreads := []
      feeds := self.feeds.map fun feed =>
        { feed with
          socket := if feed.socket ≥ 0 then -1 else feed.socket
          stats := { feed.stats with connected := false } } }
    joined := self.receiverThreads
    closed := (self.feeds.filter fun feed => decide (feed.socket ≥ 0)).map fun feed =>
      feed.socket }

/-! ## NetworkAdapter.cpp: the subscriber adapter -/

/-- The `for` loop of `UdpAeronSubscriber::UdpAeronSubscriber` on the variable
`port`: each channel overwrites it, so the last channel's port stays; `none` when
`extractPort` throws. -/
def subscriberPortLoop : List String → Int → Option Int
  | [], port => some port
  | channel :: rest, _ =>
    match extractPort channel with
    | none => none
    | some port => subscriberPortLoop rest port

/-- The state of class `UdpAeronSubscriber`: the subscriber it owns. -/
structure UdpAeronSubscriber where
  udpSubscriber : UdpSubscriber
deriving DecidableEq, Repr

/-- The constructor `UdpAeronSubscriber::UdpAeronSubscriber`. -/
def UdpAeronSubscriber.ctor (channels : List String) (_streamId : Int) (now : Nat → Int) :
    Option UdpAeronSubscriber :=
  let addresses := channels.map extractAddress
  match subscriberPortLoop channels 9999 with
  | none => none
  | some port => some { udpSubscriber := UdpSubscriber.ctor addresses port now }

/-! ## HealthMonitor.cpp: the members with their locking

Each member is run by one thread; `held` says whether that thread already owns
`metricsMutex_` when it reaches the member's `std::lock_guard`.  Locking a
`std::mutex` the thread owns does not return (the behaviour is undefined, in
practice the thread blocks on itself): the result is `none`.  The lock guard
releases the mutex when the member returns. -/

/-- The member `HealthMonitor::getOverallStatus` with its lock guard. -/
def HealthMonitor.getOverallStatusLocking (self : HealthMonitor) (held : Bool) (now : Nat) :
    Option HealthStatus :=
  if held then none else some (self.getOverallStatus now)

/-- The `switch` of `HealthMonitor::getStatusString`. -/
def HealthStatus.statusString : HealthStatus → String
  | HEALTHY => "HEALTHY"
  | WARNING => "WARNING"
  | CRITICAL => "CRITICAL"
  | DISCONNECTED => "DISCONNECTED"

/-- The member `HealthMonitor::getStatusString`: it takes no lock itself and
calls `getOverallStatus`. -/
def HealthMonitor.getStatusStringLocking (self : HealthMonitor) (held : Bool) (now : Nat) :
    Option String :=
  (self.getOverallStatusLocking held now).map HealthStatus.statusString

/-- The member `HealthMonitor::isHealthy`: it takes no lock itself and calls
`getOverallStatus`. -/
def HealthMonitor.isHealthyLocking (self : HealthMonitor) (held : Bool) (now : Nat) :
    Option Bool :=
  (self.getOverallStatusLocking held now).map fun status =>
    decide (status = HealthStatus.HEALTHY)

/-- The member `HealthMonitor::updateMetric` with its lock guard (`findMetric`
takes no lock). -/
def HealthMonitor.updateMetricLocking (self : HealthMonitor) (held : Bool) (name : String)
    (value : Rat) (status : HealthStatus) (details : String) (now : Nat) :
    Option HealthMonitor :=
  if held then none else some (self.updateMetric name value status details now)

/-- The member `HealthMonitor::updateConnectionStatus`: it takes no lock itself
and calls `updateMetric`. -/
def HealthMonitor.updateConnectionStatusLocking (self : HealthMonitor) (held : Bool)
    (connectionName : String) (connected : Bool) (error : String) (now : Nat) :
    Option HealthMonitor :=
  let status := if connected then HealthStatus.HEALTHY else HealthStatus.CRITICAL
  let details := if connected then "Connected" else "Disconnected: " ++ error
  self.updateMetricLocking held connectionName (if connected then 1 else 0) status details now

/-- The member `HealthMonitor::getAllMetrics` with its lock guard. -/
def HealthMonitor.getAllMetricsLocking (self : HealthMonitor) (held : Bool) :
    Option (List HealthMetric) :=
  if held then none else some self.metrics

/-- The member `HealthMonitor::getMetric` with its lock guard. -/
def HealthMonitor.getMetricLocking (self : HealthMonitor) (held : Bool) (name : String) :
    Option HealthMetric :=
  if held then none
  else
    match findMetric self.metrics name with
    | none => some (HealthMetric.ctor name)
    | some i => some (self.metrics.getD i (HealthMetric.ctor name))

/-- The lines that the `for` loop of `HealthMonitor::getDetailedReport` writes;
`showValue` is the stream formatting of a `double`. -/
def reportLines (now : Nat) (showValue : Rat → String) : List HealthMetric → String
  | [] => ""
  | metric :: rest =>
    "  " ++ metric.name ++ ": " ++
    (if metricAge now metric > 10000 then "STALE"
      else match metric.status with
        | HealthStatus.HEALTHY => "OK"
        | HealthStatus.WARNING => "WARN"
        | HealthStatus.CRITICAL => "CRIT"
        | HealthStatus.DISCONNECTED => "DISC") ++
    " (" ++ showValue metric.value ++ ")" ++
    (if metric.details ≠ "" then " - " ++ metric.details else "") ++ "\n" ++
    reportLines now showValue rest

/-- The member `HealthMonitor::getDetailedReport`: it takes the lock guard, reads
the clock, and then calls `getStatusString` while it owns the mutex. -/
def HealthMonitor.getDetailedReportLocking (self : HealthMonitor) (held : Bool) (now : Nat)
    (showValue : Rat → String) : Option String :=
  if held then none
  else
    match self.getStatusStringLocking true now with
    | none => none
    | some status =>
      some ("Health Status: " ++ status ++ "\n" ++ "Metrics:\n" ++
        reportLines now showValue self.metrics)

/-! ## TextMemory.h, TextMemory.cpp -/

/-- The struct `TextMemoryEntry`. -/
structure TextMemoryEntry where
  text : String
  displayedAt : Nat
  displayDuration : Nat
deriving DecidableEq, Repr

/-- The state of class `TextMemory`, as its constructor leaves it. -/
structure TextMemory where
  entries : List TextMemoryEntry := []
  currentText : String := ""
  textDisplayStartTime : Nat := 0
  currentTextAddedToMemory : Bool := false
deriving DecidableEq, Repr

/-- The constant `MIN_DISPLAY_DURATION_MS`. -/
@[reducible] def MIN_DISPLAY_DURATION_MS : Nat := 3000

/-- The subtraction `getCurrentTimestamp() - textDisplayStartTime_` on `uint64_t`. -/
def u64sub (a b : Nat) : Nat := (a + 2 ^ 64 - b % 2 ^ 64) % 2 ^ 64

/-- The statements `entries_.insert(entries_.begin(), entry)` and
`if (entries_.size() > 100) entries_.resize(100)` that the three members share. -/
def insertEntry (entries : List TextMemoryEntry) (entry : TextMemoryEntry) :
    List TextMemoryEntry :=
  let entries := entry :: entries
  if entries.length > 100 then entries.take 100 else entries

/-- The member `TextMemory::recordText`; `now` and `now2` are its two readings of
`getCurrentTimestamp()`. -/
def TextMemory.recordText (self : TextMemory) (text : String) (now now2 : Nat) : TextMemory :=
  if text = "" then self
  else if text ≠ self.currentText then
    let self :=
      if self.currentText ≠ "" ∧ self.textDisplayStartTime > 0 then
        let displayDuration := u64sub now self.textDisplayStartTime
        if displayDuration ≥ MIN_DISPLAY_DURATION_MS then
          let entry : TextMemoryEntry :=
            ⟨self.currentText, self.textDisplayStartTime, displayDuration⟩
          { self with entries := insertEntry self.entries entry }
        else self
      else self
    { self with currentText := text, textDisplayStartTime := now2,
                currentTextAddedToMemory := false }
  else self

/-- The member `TextMemory::onTextCleared`. -/
def TextMemory.onTextCleared (self : TextMemory) (now : Nat) : TextMemory :=
  let self :=
    if self.currentText ≠ "" ∧ self.textDisplayStartTime > 0 then
      let displayDuration := u64sub now self.textDisplayStartTime
      if displayDuration ≥ MIN_DISPLAY_DURATION_MS then
        let entry : TextMemoryEntry :=
          ⟨self.currentText, self.textDisplayStartTime, displayDuration⟩
        { self with entries := insertEntry self.entries entry }
      else self
    else self
  { self with currentText := "", textDisplayStartTime := 0, currentTextAddedToMemory := false }

/-- The member `TextMemory::checkForStaticText`. -/
def TextMemory.checkForStaticText (self : TextMemory) (now : Nat) : TextMemory :=
  if self.currentText ≠ "" ∧ self.textDisplayStartTime > 0 ∧
      self.currentTextAddedToMemory = false then
    let displayDuration := u64sub now self.textDisplayStartTime
    if displayDuration ≥ MIN_DISPLAY_DURATION_MS then
      let entry : TextMemoryEntry :=
        ⟨self.currentText, self.textDisplayStartTime, displayDuration⟩
      { self with entries := insertEntry self.entries entry, currentTextAddedToMemory := true }
    else self
  else self

/-- A call made to a `TextMemory` that changes its state. -/
inductive TextMemoryCall where
  | recordText (text : String) (now now2 : Nat)
  | onTextCleared (now : Nat)
  | checkForStaticText (now : Nat)
deriving DecidableEq, Repr

/-- The text memory after one call. -/
def TextMemory.call (self : TextMemory) : TextMemoryCall → TextMemory
  | TextMemoryCall.recordText text now now2 => self.recordText text now now2
  | TextMemoryCall.onTextCleared now => self.onTextCleared now
  | TextMemoryCall.checkForStaticText now => self.checkForStaticText now

/-- The text memory after a sequence of calls on a freshly constructed
`TextMemory`. -/
def TextMemory.afterCalls (calls : List TextMemoryCall) : TextMemory :=
  calls.foldl TextMemory.call {}

/-! ## testing/AeronStub.cpp: the publishers over UDP -/

/-- The state of class `AeronPublisher` as `testing/AeronStub.cpp` defines it with
`USE_REAL_NETWORK` at its default 1: the channel, the flag `running_`, the endpoint
`realPublisher_` that the constructor creates, and the statistics. -/
structure AeronStub.AeronPublisher where
  channel : String
  streamId : Int
  running : Bool := false
  realPublisher : UdpAeronPublisher
  stats : ConnectionStats := {}
deriving DecidableEq, Repr

/-- The constructor `AeronPublisher::AeronPublisher` of `testing/AeronStub.cpp`;
`none` when `extractPort` throws. -/
def AeronStub.AeronPublisher.ctor (channel : String) (streamId : Int) :
    Option AeronStub.AeronPublisher :=
  match UdpAeronPublisher.ctor channel streamId with
  | none => none
  | some realPublisher =>
    some { channel := channel, streamId := streamId, running := false,
           realPublisher := realPublisher,
           stats := { isConnected := false, hasErrors := false } }

/-- The state of class `DualAeronPublisher` as `testing/AeronStub.cpp` defines it:
the two owned publishers and the vector `combinedStats_`. -/
structure AeronStub.DualAeronPublisher where
  primary : AeronStub.AeronPublisher
  secondary : AeronStub.AeronPublisher
  combinedStats : List ConnectionStats
deriving DecidableEq, Repr

/-- The constructor `DualAeronPublisher::DualAeronPublisher` of
`testing/AeronStub.cpp`, which `SenderApp::initialize` calls with the two shipped
descriptors; `none` when `extractPort` throws. -/
def AeronStub.DualAeronPublisher.ctor (primaryChannel secondaryChannel : String)
    (streamId : Int) : Option AeronStub.DualAeronPublisher :=
  match AeronStub.AeronPublisher.ctor primaryChannel streamId with
  | none => none
  | some primary =>
    match AeronStub.AeronPublisher.ctor secondaryChannel streamId with
    | none => none
    | some secondary =>
      some { primary := primary, secondary := secondary, combinedStats := [{}, {}] }

/-! ## Concrete inputs -/

/-- A TEXT_UPDATE message with empty text whose `timestamp` field is 0. -/
def zeroTimestampMessage : TextMessage :=
  { type := MessageType.TEXT_UPDATE, size := TextSize.SMALL, textLength := 0,
    timestamp := 0, text := List.replicate sizeofText 0 }

/-- A TEXT_UPDATE message with empty text whose `size` byte is 7, a value of
`uint8_t` that is neither enumerator of `TextSize`. -/
def oddSizeMessage : TextMessage :=
  { type := MessageType.TEXT_UPDATE, size := 7, textLength := 0,
    timestamp := 1, text := List.replicate sizeofText 0 }

/-- A record whose `textLength` field is 600, above the capacity of `text`. -/
def oversizeLengthMessage : TextMessage :=
  { type := MessageType.TEXT_UPDATE, size := TextSize.SMALL, textLength := 600,
    timestamp := 1, text := List.replicate sizeofText 0 }

/-- A redundant publisher whose two endpoints are open (sockets 3 and 4). -/
def openDualPublisher : DualUdpPublisher :=
  { primary := { multicastAddress := "127.0.0.1", port := 9999, socket := 3,
                 stats := { connected := true }, initialized := true }
    secondary := { multicastAddress := "127.0.0.1", port := 9999, socket := 4,
                   stats := { connected := true }, initialized := true } }

/-- The datagram of a heartbeat created at time 7. -/
def heartbeatDatagram : List Nat := (TextMessage.createHeartbeat 7).toBytes

/-- A subscriber with one open feed, a registered callback, and feed 0 active. -/
def oneFeedSubscriber : UdpSubscriber :=
  { feeds := [{ address := "127.0.0.1", socket := 3, stats := { connected := true },
                lastMessage := 0 }]
    port := 9999, running := true, activeFeed := 0, messageCallback := true }

/-- A subscriber with three open feeds constructed at time 0, feed 0 active. -/
def threeFeedSubscriber : UdpSubscriber :=
  { feeds := [{ address := "127.0.0.1", socket := 3, stats := { connected := true },
                lastMessage := 0 },
              { address := "127.0.0.2", socket := 4, stats := { connected := true },
                lastMessage := 0 },
              { address := "127.0.0.3", socket := 5, stats := { connected := true },
                lastMessage := 0 }]
    port := 9999, running := true, activeFeed := 0, messageCallback := false }

/-- The subscriber `threeFeedSubscriber` after feed 0 received one heartbeat
datagram at time 50. -/
def threeFeedSubscriberAfterFeed0 : UdpSubscriber :=
  { feeds := [{ address := "127.0.0.1", socket := 3,
                stats := { connected := true, messagesReceived := 1, bytesReceived := 528 },
                lastMessage := 50 },
              { address := "127.0.0.2", socket := 4, stats := { connected := true },
                lastMessage := 0 },
              { address := "127.0.0.3", socket := 5, stats := { connected := true },
                lastMessage := 0 }]
    port := 9999, running := true, activeFeed := 0, messageCallback := false }

/-- A subscriber configured with two feeds, before `initialize`. -/
def twoFeedSubscriber : UdpSubscriber :=
  { feeds := [{ address := "127.0.0.1", lastMessage := 0 },
              { address := "127.0.0.2", lastMessage := 0 }]
    port := 9999 }

/-- A subscriber configured with no feed. -/
def noFeedSubscriber : UdpSubscriber := { feeds := [], port := 9999 }

/-- System-call results under which the socket of feed 0 opens (descriptor 3) and
`socket()` fails for every other feed. -/
def onlyFeed0Opens (i : Nat) : SetupEnv :=
  if i = 0 then { socket := 3, reuseAddr := 0, reusePort := 0, bind := 0, strerror := "" }
  else { socket := -1, reuseAddr := 0, reusePort := 0, bind := 0,
         strerror := "Too many open files" }

/-- A metrics table with a fresh Critical metric followed by a fresh
Disconnected metric, both updated at time 0. -/
def criticalThenDisconnected : HealthMonitor :=
  { metrics := [{ name := "primary", status := HealthStatus.CRITICAL },
                { name := "secondary", status := HealthStatus.DISCONNECTED }] }

/-- A metrics table with one Healthy and one Warning metric updated at time 0. -/
def healthyAndWarning : HealthMonitor :=
  { metrics := [{ name := "primary", status := HealthStatus.HEALTHY },
                { name := "secondary", status := HealthStatus.WARNING }] }

/-- A metrics table whose only metric was stored as Disconnected at time 0. -/
def oneDisconnectedMetric : HealthMonitor :=
  ({} : HealthMonitor).updateMetric "feed" 0 HealthStatus.DISCONNECTED "" 0

/-- A subscriber whose only feed is open and has counted one error. -/
def erroredFeedSubscriber : UdpSubscriber :=
  { feeds := [{ address := "127.0.0.1", socket := 3,
                stats := { connected := true, messagesReceived := 1, bytesReceived := 3,
                           errors := 1 },
                lastMessage := 50 }]
    port := 9999, running := true, activeFeed := 0, messageCallback := true }

/-- A default-constructed message after `setText("Hello")` and then
`setText("Hi")`. -/
def helloThenHi : TextMessage :=
  ((TextMessage.ctor 0).setText [72, 101, 108, 108, 111]).setText [72, 105]

/-- The channel descriptor `PRIMARY_CHANNEL` of `SenderApp.h` and `ReceiverApp.h`. -/
def PRIMARY_CHANNEL : String := "aeron:udp?endpoint=127.0.0.1:9999"

/-- The channel descriptor `SECONDARY_CHANNEL` of `SenderApp.h` and `ReceiverApp.h`. -/
def SECONDARY_CHANNEL : String := "aeron:udp?endpoint=127.0.0.1:9998"

/-- A receiver showing the small text "Hi", nothing pending, with a clean cache. -/
def receiverShowingHi : ReceiverApp :=
  { textRenderer := { currentText := [72, 105], currentSize := TextSize.SMALL, fadeAlpha := 1,
                      isFading := false, fadeStartTime := 0, cachedTextIsDirty := false }
    currentText := [72, 105], currentSize := TextSize.SMALL, needsClearOldOutput := false,
    outputToClear := TextSize.SMALL, needsClearInactiveAfterFade := false, isFading := false,
    fadeAlpha := 1, fadeStartTime := 0, fadingText := [] }

/-- The message `TextMessage("Yo", TextSize::BIG)` built at time 7 in zeroed
storage. -/
def bigYoMessage : TextMessage :=
  TextMessage.ctorText [89, 111] TextSize.BIG 7 0 (List.replicate sizeofText 0)

/-- System-call results under which an endpoint opens on descriptor 3. -/
def opensOn3 : PublisherEnv := { socket := 3, inetAton := 1, strerror := "" }

/-- System-call results under which `socket()` fails. -/
def socketFails : PublisherEnv :=
  { socket := -1, inetAton := 1, strerror := "Too many open files" }

/-- A redundant publisher as its constructor leaves it. -/
def freshDualPublisher : DualUdpPublisher := DualUdpPublisher.ctor "127.0.0.1" "127.0.0.2" 9999

/-- The subscriber `threeFeedSubscriber` after `start()`. -/
def startedThreeFeedSubscriber : UdpSubscriber := threeFeedSubscriber.start

/-- The text memory after `recordText("Hello")` at time 1000,
`checkForStaticText()` at time 5000 and `onTextCleared()` at time 6000. -/
def helloCheckedThenCleared : TextMemory :=
  TextMemory.afterCalls [TextMemoryCall.recordText "Hello" 1000 1000,
    TextMemoryCall.checkForStaticText 5000, TextMemoryCall.onTextCleared 6000]

/-- The text memory after `recordText("Hello")` at time 1000,
`checkForStaticText()` at time 5000 and `recordText("World")` at time 6000. -/
def helloCheckedThenReplaced : TextMemory :=
  TextMemory.afterCalls [TextMemoryCall.recordText "Hello" 1000 1000,
    TextMemoryCall.checkForStaticText 5000, TextMemoryCall.recordText "World" 6000 6000]

/-- The text memory after `recordText("Hello")` at time 1000 and
`checkForStaticText()` at time 5000. -/
def helloChecked : TextMemory :=
  TextMemory.afterCalls [TextMemoryCall.recordText "Hello" 1000 1000,
    TextMemoryCall.checkForStaticText 5000]

/-- An Aeron endpoint that is connected and error-free, with its last heartbeat
at time 1000. -/
def aeronHeartbeatAt1000 : AeronPublisher :=
  { hasPublication := true, running := true
    stats := { isConnected := true, hasErrors := false, lastHeartbeat := 1000 } }

/-! ## Theorems -/

set_option maxRecDepth 10000

theorem textBytes_length (m : TextMessage) : m.textBytes.length = 512 := by
  simp [TextMessage.textBytes]

theorem textBytes_eq (m : TextMessage) (hl : m.text.length = sizeofText)
    (hb : ∀ b ∈ m.text, b < 256) : m.textBytes = m.text := by
  apply List.ext_getElem
  · simp [TextMessage.textBytes, hl]
  · intro i h1 h2
    simp only [TextMessage.textBytes, List.getElem_map, List.getElem_range]
    rw [List.getD_eq_getElem _ _ h2]
    exact Nat.mod_eq_of_lt (hb _ (List.getElem_mem h2))

theorem fromBytes_toBytes (m : TextMessage) (h : m.WellFormed) (rest : List Nat) :
    TextMessage.fromBytes (m.toBytes ++ rest) = m := by
  obtain ⟨h1, h2, h3, h4, h5, h6⟩ := h
  have ht := textBytes_eq m h5 h6
  have hmap : List.map (· % 256) m.text = m.text := by
    conv_rhs => rw [← List.map_id m.text]
    apply List.map_congr_left
    intro b hb
    exact Nat.mod_eq_of_lt (h6 b hb)
  cases m with
  | mk type size textLength timestamp text =>
    simp only [TextMessage.fromBytes, TextMessage.toBytes, List.cons_append, List.getD_cons_zero,
      List.getD_cons_succ, List.drop_succ_cons, List.drop_zero] at *
    rw [ht]
    simp only [TextMessage.mk.injEq]
    refine ⟨by omega, by omega, by omega, by omega, ?_⟩
    rw [List.take_append_of_le_length (by omega), List.take_of_length_le (by omega)]
    exact hmap


theorem toBytes_length (m : TextMessage) : m.toBytes.length = getMaxSerializedSize := by
  simp [TextMessage.toBytes, textBytes_length]

theorem serialize_accepts (m : TextMessage) (buf : List Nat)
    (hbuf : getMaxSerializedSize ≤ buf.length) (hlen : m.textLength ≤ 511)
    (htype : m.type = MessageType.TEXT_UPDATE ∨ m.type = MessageType.CLEAR_TEXT ∨
      m.type = MessageType.HEARTBEAT) :
    m.serialize (some buf) =
      (getMaxSerializedSize, some (m.toBytes ++ buf.drop getMaxSerializedSize)) := by
  unfold TextMessage.serialize
  simp only
  have h1 : ¬ (buf.length < getMaxSerializedSize) := by omega
  have h2 : ¬ (m.textLength ≥ sizeofText) := by simp only [sizeofText]; omega
  have h3 : ¬ (m.type ≠ MessageType.TEXT_UPDATE ∧ m.type ≠ MessageType.CLEAR_TEXT ∧
      m.type ≠ MessageType.HEARTBEAT) := by
    intro h; rcases htype with h' | h' | h'
    · exact h.1 h'
    · exact h.2.1 h'
    · exact h.2.2 h'
  simp only [h1, h2, h3, if_false]

/-- What `deserialize` returns on a region that starts with the object
representation of a well-formed message with a valid type and a length below 512. -/
theorem deserialize_toBytes (m fresh : TextMessage) (rest : List Nat) (now : Nat)
    (hwf : m.WellFormed) (hlen : m.textLength ≤ 511)
    (htype : m.type = MessageType.TEXT_UPDATE ∨ m.type = MessageType.CLEAR_TEXT ∨
      m.type = MessageType.HEARTBEAT) :
    fresh.deserialize (some (m.toBytes ++ rest)) now =
      (true,
        { type := m.type
          size := if m.size ≠ TextSize.SMALL ∧ m.size ≠ TextSize.BIG then TextSize.SMALL
            else m.size
          textLength := m.textLength
          timestamp := if m.timestamp = 0 then now else m.timestamp
          text := m.text.set m.textLength 0 }) := by
  have h1 : ¬ ((m.toBytes ++ rest).length < getMaxSerializedSize) := by
    rw [List.length_append, toBytes_length]; omega
  have h2 : ¬ (m.textLength ≥ sizeofText) := by simp only [sizeofText]; omega
  have h3 : ¬ (m.type ≠ MessageType.TEXT_UPDATE ∧ m.type ≠ MessageType.CLEAR_TEXT ∧
      m.type ≠ MessageType.HEARTBEAT) := by
    intro h; rcases htype with h' | h' | h'
    · exact h.1 h'
    · exact h.2.1 h'
    · exact h.2.2 h'
  unfold TextMessage.deserialize
  simp only [h1, if_false, fromBytes_toBytes m hwf rest, h2, h3]
  by_cases hs : m.size ≠ TextSize.SMALL ∧ m.size ≠ TextSize.BIG <;>
    by_cases ht : m.timestamp = 0 <;> simp [hs, ht]

/-- A region that is exactly the object representation of a well-formed message
with a valid type and a length below 512 decodes. -/
theorem deserialize_record (m fresh : TextMessage) (now : Nat)
    (hwf : m.WellFormed) (hlen : m.textLength ≤ 511)
    (htype : m.type = MessageType.TEXT_UPDATE ∨ m.type = MessageType.CLEAR_TEXT ∨
      m.type = MessageType.HEARTBEAT) :
    fresh.deserialize (some m.toBytes) now =
      (true,
        { type := m.type
          size := if m.size ≠ TextSize.SMALL ∧ m.size ≠ TextSize.BIG then TextSize.SMALL
            else m.size
          textLength := m.textLength
          timestamp := if m.timestamp = 0 then now else m.timestamp
          text := m.text.set m.textLength 0 }) := by
  have := deserialize_toBytes m fresh [] now hwf hlen htype
  rwa [List.append_nil] at this

theorem roundTrip_eq (m fresh : TextMessage) (buf : List Nat) (now : Nat)
    (hwf : m.WellFormed) (hbuf : getMaxSerializedSize ≤ buf.length)
    (hlen : m.textLength ≤ 511)
    (htype : m.type = MessageType.TEXT_UPDATE ∨ m.type = MessageType.CLEAR_TEXT ∨
      m.type = MessageType.HEARTBEAT) :
    roundTrip m fresh buf now =
      (true,
        { type := m.type
          size := if m.size ≠ TextSize.SMALL ∧ m.size ≠ TextSize.BIG then TextSize.SMALL
            else m.size
          textLength := m.textLength
          timestamp := if m.timestamp = 0 then now else m.timestamp
          text := m.text.set m.textLength 0 }) := by
  unfold roundTrip
  rw [serialize_accepts m buf hbuf hlen htype, deserialize_toBytes m fresh _ now hwf hlen htype]

theorem fromBytes_text_length (buf : List Nat) (h : getMaxSerializedSize ≤ buf.length) :
    (TextMessage.fromBytes buf).text.length = sizeofText := by
  simp only [TextMessage.fromBytes, List.length_map, List.length_take, List.length_drop,
    getMaxSerializedSize, sizeofText] at h ⊢
  omega

/-- The result of `deserialize` on a region of at least the record size, in
terms of the raw copy `fromBytes buf`. -/
theorem deserialize_some (self : TextMessage) (buf : List Nat) (now : Nat)
    (h : getMaxSerializedSize ≤ buf.length) :
    self.deserialize (some buf) now =
      if (TextMessage.fromBytes buf).type ≠ MessageType.TEXT_UPDATE ∧
          (TextMessage.fromBytes buf).type ≠ MessageType.CLEAR_TEXT ∧
          (TextMessage.fromBytes buf).type ≠ MessageType.HEARTBEAT then
        (false, { TextMessage.fromBytes buf with
          textLength := min (TextMessage.fromBytes buf).textLength 511 })
      else
        (true,
          { type := (TextMessage.fromBytes buf).type
            size := if (TextMessage.fromBytes buf).size ≠ TextSize.SMALL ∧
                (TextMessage.fromBytes buf).size ≠ TextSize.BIG then TextSize.SMALL
              else (TextMessage.fromBytes buf).size
            textLength := min (TextMessage.fromBytes buf).textLength 511
            timestamp := if (TextMessage.fromBytes buf).timestamp = 0 then now
              else (TextMessage.fromBytes buf).timestamp
            text := (TextMessage.fromBytes buf).text.set
              (min (TextMessage.fromBytes buf).textLength 511) 0 }) := by
  have h1 : ¬ (buf.length < getMaxSerializedSize) := by omega
  unfold TextMessage.deserialize
  simp only [h1, if_false]
  generalize TextMessage.fromBytes buf = r
  by_cases ht : r.type ≠ MessageType.TEXT_UPDATE ∧ r.type ≠ MessageType.CLEAR_TEXT ∧
      r.type ≠ MessageType.HEARTBEAT
  · by_cases hl : r.textLength ≥ sizeofText
    · have hmin : min r.textLength 511 = 511 := by simp only [sizeofText] at hl; omega
      rw [if_pos ht, if_pos hl, if_pos ht, hmin]
      rfl
    · have hmin : min r.textLength 511 = r.textLength := by simp only [sizeofText] at hl; omega
      rw [if_pos ht, if_neg hl, if_pos ht, hmin]
  · by_cases hl : r.textLength ≥ sizeofText
    · have hmin : min r.textLength 511 = 511 := by simp only [sizeofText] at hl; omega
      rw [if_neg ht, if_pos hl, if_neg ht, hmin]
      by_cases hs : r.size ≠ TextSize.SMALL ∧ r.size ≠ TextSize.BIG <;>
        by_cases hz : r.timestamp = 0 <;> simp [hs, hz]
    · have hmin : min r.textLength 511 = r.textLength := by simp only [sizeofText] at hl; omega
      rw [if_neg ht, if_neg hl, if_neg ht, hmin]
      by_cases hs : r.size ≠ TextSize.SMALL ∧ r.size ≠ TextSize.BIG <;>
        by_cases hz : r.timestamp = 0 <;> simp [hs, hz]

theorem getD_set_self_zero (l : List Nat) (i : Nat) (h : i < l.length) :
    (l.set i 0).getD i 1 = 0 := by
  rw [List.getD_eq_getElem _ _ (by rw [List.length_set]; exact h)]
  exact List.getElem_set_self _

theorem getD_replicate_zero (n i : Nat) (h : i < n) : (List.replicate n 0).getD i 1 = 0 := by
  rw [List.getD_eq_getElem _ _ (by rw [List.length_replicate]; exact h)]
  exact List.getElem_replicate _ _

theorem wellFormed_zeros (type size textLength timestamp : Nat) (h1 : type < 256)
    (h2 : size < 256) (h3 : textLength < 2 ^ 32) (h4 : timestamp < 2 ^ 64) :
    TextMessage.WellFormed
      (TextMessage.mk type size textLength timestamp (List.replicate sizeofText 0)) := by
  refine ⟨h1, h2, h3, h4, List.length_replicate _ _, ?_⟩
  intro b hb
  rw [List.eq_of_mem_replicate hb]; decide

theorem setText_invariant (m : TextMessage) (newText : List Nat)
    (hlen : m.text.length = sizeofText)
    (htype : m.type = MessageType.TEXT_UPDATE ∨ m.type = MessageType.CLEAR_TEXT ∨
      m.type = MessageType.HEARTBEAT) :
    (m.setText newText).Invariant := by
  have hmin : min newText.length (sizeofText - 1) ≤ 511 := by
    simp only [sizeofText]; omega
  refine ⟨hmin, htype, ?_⟩
  simp only [TextMessage.setText]
  apply getD_set_self_zero
  simp only [List.length_append, List.length_take, List.length_drop, hlen, sizeofText] at hmin ⊢
  omega

theorem deserialize_invariant (self : TextMessage) (buffer : Option (List Nat)) (now : Nat)
    (h : (self.deserialize buffer now).1 = true) :
    (self.deserialize buffer now).2.Invariant := by
  cases buffer with
  | none => simp [TextMessage.deserialize] at h
  | some buf =>
    by_cases hb : buf.length < getMaxSerializedSize
    · simp [TextMessage.deserialize, hb] at h
    · have hb' : getMaxSerializedSize ≤ buf.length := by omega
      have hlen := fromBytes_text_length buf hb'
      rw [deserialize_some self buf now hb'] at h ⊢
      by_cases ht : (TextMessage.fromBytes buf).type ≠ MessageType.TEXT_UPDATE ∧
          (TextMessage.fromBytes buf).type ≠ MessageType.CLEAR_TEXT ∧
          (TextMessage.fromBytes buf).type ≠ MessageType.HEARTBEAT
      · rw [if_pos ht] at h; cases h
      · rw [if_neg ht]
        refine ⟨Nat.min_le_right _ _, ?_, ?_⟩
        · by_contra hc
          exact ht ⟨fun e => hc (Or.inl e), fun e => hc (Or.inr (Or.inl e)),
            fun e => hc (Or.inr (Or.inr e))⟩
        · apply getD_set_self_zero
          rw [hlen]
          exact Nat.lt_of_le_of_lt (Nat.min_le_right _ _) (by decide)

/-- Claim C1, as it holds.  Serializing a well-formed message with a valid type
and `textLength <= 511` into a region of at least the record size and
deserializing that region into a fresh message succeeds and keeps the type, the
`textLength` and the first `textLength` bytes of text; it keeps the size when that
is SMALL or BIG (any other value comes back as SMALL) and the timestamp when that
is not 0 (a zero timestamp comes back as the decoder's clock reading). -/
theorem roundTrip_fields (m fresh : TextMessage) (buf : List Nat) (now : Nat)
    (hwf : m.WellFormed) (hbuf : getMaxSerializedSize ≤ buf.length)
    (hlen : m.textLength ≤ 511)
    (htype : m.type = MessageType.TEXT_UPDATE ∨ m.type = MessageType.CLEAR_TEXT ∨
      m.type = MessageType.HEARTBEAT) :
    (roundTrip m fresh buf now).1 = true ∧
    (roundTrip m fresh buf now).2.type = m.type ∧
    (roundTrip m fresh buf now).2.textLength = m.textLength ∧
    (roundTrip m fresh buf now).2.getText = m.getText ∧
    (roundTrip m fresh buf now).2.size =
      (if m.size = TextSize.SMALL ∨ m.size = TextSize.BIG then m.size else TextSize.SMALL) ∧
    (roundTrip m fresh buf now).2.timestamp =
      (if m.timestamp = 0 then now else m.timestamp) := by
  rw [roundTrip_eq m fresh buf now hwf hbuf hlen htype]
  refine ⟨rfl, rfl, rfl, ?_, ?_, rfl⟩
  · simp only [TextMessage.getText]
    rw [List.set_take, List.set_eq_of_length_le (by simp)]
  · by_cases h0 : m.size = TextSize.SMALL <;> by_cases h1 : m.size = TextSize.BIG <;>
      simp [h0, h1]

/-- Witness for `roundTrip_fields`: a heartbeat created at time 7, sent through a
zeroed 528-byte region. -/
theorem roundTrip_fields_witness :
    (roundTrip (TextMessage.createHeartbeat 7) (TextMessage.ctor 0)
        (List.replicate 528 0) 9).1 = true ∧
    (roundTrip (TextMessage.createHeartbeat 7) (TextMessage.ctor 0)
        (List.replicate 528 0) 9).2.type = (TextMessage.createHeartbeat 7).type ∧
    (roundTrip (TextMessage.createHeartbeat 7) (TextMessage.ctor 0)
        (List.replicate 528 0) 9).2.textLength = (TextMessage.createHeartbeat 7).textLength ∧
    (roundTrip (TextMessage.createHeartbeat 7) (TextMessage.ctor 0)
        (List.replicate 528 0) 9).2.getText = (TextMessage.createHeartbeat 7).getText ∧
    (roundTrip (TextMessage.createHeartbeat 7) (TextMessage.ctor 0)
        (List.replicate 528 0) 9).2.size =
      (if (TextMessage.createHeartbeat 7).size = TextSize.SMALL ∨
          (TextMessage.createHeartbeat 7).size = TextSize.BIG
        then (TextMessage.createHeartbeat 7).size else TextSize.SMALL) ∧
    (roundTrip (TextMessage.createHeartbeat 7) (TextMessage.ctor 0)
        (List.replicate 528 0) 9).2.timestamp =
      (if (TextMessage.createHeartbeat 7).timestamp = 0 then 9
        else (TextMessage.createHeartbeat 7).timestamp) :=
  roundTrip_fields (TextMessage.createHeartbeat 7) (TextMessage.ctor 0) (List.replicate 528 0) 9
    (wellFormed_zeros 3 0 0 7 (by decide) (by decide) (by decide) (by decide))
    (by rw [List.length_replicate]) (by decide) (by decide)

/-- Claim C1 as stated fails.  A well-formed TEXT_UPDATE message with
`textLength = 0` and `timestamp = 0` comes back with the decoder's clock reading
as its timestamp, and one with the size byte 7 comes back with size SMALL. -/
theorem roundTrip_not_identity :
    (zeroTimestampMessage.WellFormed ∧ zeroTimestampMessage.type = MessageType.TEXT_UPDATE ∧
      zeroTimestampMessage.textLength ≤ 511 ∧
      (roundTrip zeroTimestampMessage (TextMessage.ctor 0) (List.replicate 528 0)
        1700000000000).1 = true ∧
      (roundTrip zeroTimestampMessage (TextMessage.ctor 0) (List.replicate 528 0)
        1700000000000).2.timestamp ≠ zeroTimestampMessage.timestamp) ∧
    (oddSizeMessage.WellFormed ∧ oddSizeMessage.type = MessageType.TEXT_UPDATE ∧
      oddSizeMessage.textLength ≤ 511 ∧
      (roundTrip oddSizeMessage (TextMessage.ctor 0) (List.replicate 528 0)
        1700000000000).1 = true ∧
      (roundTrip oddSizeMessage (TextMessage.ctor 0) (List.replicate 528 0)
        1700000000000).2.size ≠ oddSizeMessage.size) := by
  have w0 : zeroTimestampMessage.WellFormed :=
    wellFormed_zeros 1 0 0 0 (by decide) (by decide) (by decide) (by decide)
  have w1 : oddSizeMessage.WellFormed :=
    wellFormed_zeros 1 7 0 1 (by decide) (by decide) (by decide) (by decide)
  have hl : getMaxSerializedSize ≤ (List.replicate 528 0).length := by
    rw [List.length_replicate]
  refine ⟨⟨w0, rfl, by decide, ?_, ?_⟩, ⟨w1, rfl, by decide, ?_, ?_⟩⟩
  · rw [roundTrip_eq _ _ _ _ w0 hl (by decide) (by decide)]
  · rw [roundTrip_eq _ _ _ _ w0 hl (by decide) (by decide)]; decide
  · rw [roundTrip_eq _ _ _ _ w1 hl (by decide) (by decide)]
  · rw [roundTrip_eq _ _ _ _ w1 hl (by decide) (by decide)]; decide

/-- Claim C2.  On a non-null region of at least the record size, `deserialize`
returns true exactly when the kind byte (byte 0) is 1, 2 or 3, whatever the other
bytes of the region are. -/
theorem deserialize_true_iff_kind (self : TextMessage) (buf : List Nat) (now : Nat)
    (h : getMaxSerializedSize ≤ buf.length) :
    (self.deserialize (some buf) now).1 = true ↔
      (buf.getD 0 0 % 256 = 1 ∨ buf.getD 0 0 % 256 = 2 ∨ buf.getD 0 0 % 256 = 3) := by
  rw [deserialize_some self buf now h]
  have ht : (TextMessage.fromBytes buf).type = buf.getD 0 0 % 256 := rfl
  rw [ht]
  generalize buf.getD 0 0 % 256 = k
  by_cases hk : k ≠ MessageType.TEXT_UPDATE ∧ k ≠ MessageType.CLEAR_TEXT ∧
      k ≠ MessageType.HEARTBEAT
  · rw [if_pos hk]
    constructor
    · intro hf; cases hf
    · intro hv; rcases hv with hv | hv | hv
      · exact absurd hv hk.1
      · exact absurd hv hk.2.1
      · exact absurd hv hk.2.2
  · rw [if_neg hk]
    constructor
    · intro _
      by_contra hc
      exact hk ⟨fun e => hc (Or.inl e), fun e => hc (Or.inr (Or.inl e)),
        fun e => hc (Or.inr (Or.inr e))⟩
    · intro _; rfl

/-- Witness for `deserialize_true_iff_kind`: the bytes of a heartbeat. -/
theorem deserialize_true_iff_kind_witness :
    ((TextMessage.ctor 0).deserialize
        (some (TextMessage.toBytes (TextMessage.createHeartbeat 7))) 9).1 = true ↔
      ((TextMessage.toBytes (TextMessage.createHeartbeat 7)).getD 0 0 % 256 = 1 ∨
        (TextMessage.toBytes (TextMessage.createHeartbeat 7)).getD 0 0 % 256 = 2 ∨
        (TextMessage.toBytes (TextMessage.createHeartbeat 7)).getD 0 0 % 256 = 3) :=
  deserialize_true_iff_kind (TextMessage.ctor 0)
    (TextMessage.toBytes (TextMessage.createHeartbeat 7)) 9 (by rw [toBytes_length])

/-- Claim C3.  On a region of at least the record size with a valid kind byte,
`deserialize` succeeds; a `textLength` field above 511 is decoded as 511 with
`text[511] == 0`, and a field of 511 or less is kept. -/
theorem deserialize_sanitizes_textLength (self : TextMessage) (buf : List Nat) (now : Nat)
    (h : getMaxSerializedSize ≤ buf.length)
    (hk : buf.getD 0 0 % 256 = 1 ∨ buf.getD 0 0 % 256 = 2 ∨ buf.getD 0 0 % 256 = 3) :
    (self.deserialize (some buf) now).1 = true ∧
    (511 < (TextMessage.fromBytes buf).textLength →
      (self.deserialize (some buf) now).2.textLength = 511 ∧
      (self.deserialize (some buf) now).2.text.getD 511 1 = 0) ∧
    ((TextMessage.fromBytes buf).textLength ≤ 511 →
      (self.deserialize (some buf) now).2.textLength = (TextMessage.fromBytes buf).textLength) := by
  have hlen := fromBytes_text_length buf h
  have ht : (TextMessage.fromBytes buf).type = buf.getD 0 0 % 256 := rfl
  have hv : ¬ ((TextMessage.fromBytes buf).type ≠ MessageType.TEXT_UPDATE ∧
      (TextMessage.fromBytes buf).type ≠ MessageType.CLEAR_TEXT ∧
      (TextMessage.fromBytes buf).type ≠ MessageType.HEARTBEAT) := by
    rw [ht]; intro hc
    rcases hk with hk | hk | hk
    · exact hc.1 hk
    · exact hc.2.1 hk
    · exact hc.2.2 hk
  rw [deserialize_some self buf now h, if_neg hv]
  refine ⟨rfl, ?_, ?_⟩
  · intro hgt
    have hmin : min (TextMessage.fromBytes buf).textLength 511 = 511 := by omega
    simp only [hmin]
    refine ⟨trivial, ?_⟩
    rw [List.getD_eq_getElem _ _ (by rw [List.length_set, hlen]; decide)]
    exact List.getElem_set_self _
  · intro hle
    exact Nat.min_eq_left hle

/-- Claim C4.  `serialize` returns the record size when the buffer is non-null
and holds at least that many bytes, `textLength <= 511` and the type is one of the
three enumerators; in every other case it returns 0 and leaves the buffer as it
was. -/
theorem serialize_returns_recordSize_or_zero (m : TextMessage) (buffer : Option (List Nat)) :
    (∀ buf, buffer = some buf → getMaxSerializedSize ≤ buf.length → m.textLength ≤ 511 →
      (m.type = MessageType.TEXT_UPDATE ∨ m.type = MessageType.CLEAR_TEXT ∨
        m.type = MessageType.HEARTBEAT) →
      (m.serialize buffer).1 = getMaxSerializedSize) ∧
    ((¬ ∃ buf, buffer = some buf ∧ getMaxSerializedSize ≤ buf.length ∧ m.textLength ≤ 511 ∧
      (m.type = MessageType.TEXT_UPDATE ∨ m.type = MessageType.CLEAR_TEXT ∨
        m.type = MessageType.HEARTBEAT)) →
      m.serialize buffer = (0, buffer)) := by
  constructor
  · intro buf hb hl ht hv
    subst hb
    rw [serialize_accepts m buf hl ht hv]
  · intro hn
    cases buffer with
    | none => rfl
    | some buf =>
      unfold TextMessage.serialize
      simp only
      by_cases h1 : buf.length < getMaxSerializedSize
      · rw [if_pos h1]
      · rw [if_neg h1]
        by_cases h2 : m.textLength ≥ sizeofText
        · rw [if_pos h2]
        · rw [if_neg h2]
          by_cases h3 : m.type ≠ MessageType.TEXT_UPDATE ∧ m.type ≠ MessageType.CLEAR_TEXT ∧
              m.type ≠ MessageType.HEARTBEAT
          · rw [if_pos h3]
          · exfalso
            apply hn
            refine ⟨buf, rfl, by omega, by simp only [sizeofText] at h2; omega, ?_⟩
            by_contra hc
            exact h3 ⟨fun e => hc (Or.inl e), fun e => hc (Or.inr (Or.inl e)),
              fun e => hc (Or.inr (Or.inr e))⟩

/-- Witness for `deserialize_sanitizes_textLength`: the bytes of a record whose
`textLength` field is 600. -/
theorem deserialize_sanitizes_textLength_witness :
    ((TextMessage.ctor 0).deserialize (some oversizeLengthMessage.toBytes) 9).1 = true ∧
    (511 < (TextMessage.fromBytes oversizeLengthMessage.toBytes).textLength →
      ((TextMessage.ctor 0).deserialize (some oversizeLengthMessage.toBytes) 9).2.textLength
        = 511 ∧
      ((TextMessage.ctor 0).deserialize (some oversizeLengthMessage.toBytes) 9).2.text.getD
        511 1 = 0) ∧
    ((TextMessage.fromBytes oversizeLengthMessage.toBytes).textLength ≤ 511 →
      ((TextMessage.ctor 0).deserialize (some oversizeLengthMessage.toBytes) 9).2.textLength
        = (TextMessage.fromBytes oversizeLengthMessage.toBytes).textLength) :=
  deserialize_sanitizes_textLength (TextMessage.ctor 0) oversizeLengthMessage.toBytes 9
    (by rw [toBytes_length]) (Or.inl rfl)

/-- Witness for `serialize_returns_recordSize_or_zero`: a heartbeat is accepted
into a zeroed 528-byte region, and rejected without a write when the region is
`nullptr`. -/
theorem serialize_returns_recordSize_or_zero_witness :
    ((TextMessage.createHeartbeat 7).serialize (some (List.replicate 528 0))).1
      = getMaxSerializedSize ∧
    (TextMessage.createHeartbeat 7).serialize none = (0, none) :=
  ⟨(serialize_returns_recordSize_or_zero (TextMessage.createHeartbeat 7)
      (some (List.replicate 528 0))).1 (List.replicate 528 0) rfl
      (by rw [List.length_replicate]) (by decide) (by decide),
   (serialize_returns_recordSize_or_zero (TextMessage.createHeartbeat 7) none).2
      (by rintro ⟨buf, hb, _⟩; cases hb)⟩

/-- Claim C5.  The message invariant (`textLength <= 511`, a valid type,
`text[textLength] == 0`) holds for every message produced by the default
constructor, the (text, size) constructor, `createClearMessage`, `createHeartbeat`,
`setText` on a message that satisfies it, and a `deserialize` call that returns
true. -/
theorem message_invariant :
    (∀ now, (TextMessage.ctor now).Invariant) ∧
    (∀ newText size now uninitLength uninitText, uninitText.length = sizeofText →
      (TextMessage.ctorText newText size now uninitLength uninitText).Invariant) ∧
    (∀ now, (TextMessage.createClearMessage now).Invariant) ∧
    (∀ now, (TextMessage.createHeartbeat now).Invariant) ∧
    (∀ (m : TextMessage) newText, m.text.length = sizeofText → m.Invariant →
      (m.setText newText).Invariant) ∧
    (∀ (self : TextMessage) buffer now, (self.deserialize buffer now).1 = true →
      (self.deserialize buffer now).2.Invariant) := by
  refine ⟨?_, ?_, ?_, ?_, ?_, ?_⟩
  · intro now
    exact ⟨Nat.zero_le _, Or.inl rfl, getD_replicate_zero _ _ (Nat.zero_lt_succ _)⟩
  · intro newText size now uninitLength uninitText hlen
    exact setText_invariant _ newText hlen (Or.inl rfl)
  · intro now
    exact ⟨Nat.zero_le _, Or.inr (Or.inl rfl), getD_replicate_zero _ _ (Nat.zero_lt_succ _)⟩
  · intro now
    exact ⟨Nat.zero_le _, Or.inr (Or.inr rfl), getD_replicate_zero _ _ (Nat.zero_lt_succ _)⟩
  · intro m newText hlen hinv
    exact setText_invariant m newText hlen hinv.2.1
  · intro self buffer now h
    exact deserialize_invariant self buffer now h

/-- Witness for `message_invariant`: `setText "Hi"` on a default-constructed
message, and the decoding of a heartbeat record. -/
theorem message_invariant_witness :
    ((TextMessage.ctor 7).setText [72, 105]).Invariant ∧
    ((TextMessage.ctor 0).deserialize
      (some (TextMessage.toBytes (TextMessage.createHeartbeat 7))) 9).2.Invariant :=
  ⟨message_invariant.2.2.2.2.1 (TextMessage.ctor 7) [72, 105] (List.length_replicate _ _)
      (message_invariant.1 7),
   message_invariant.2.2.2.2.2 (TextMessage.ctor 0)
      (some (TextMessage.toBytes (TextMessage.createHeartbeat 7))) 9
      (congrArg Prod.fst (deserialize_record (TextMessage.createHeartbeat 7)
        (TextMessage.ctor 0) 9
        (wellFormed_zeros 3 0 0 7 (by decide) (by decide) (by decide) (by decide))
        (by decide) (by decide)))⟩

/-- An open endpoint (initialised, with a socket) always calls `sendto`, and its
`publish` succeeds exactly when `sendto` does not return a negative value. -/
theorem UdpPublisher.publish_open (p : UdpPublisher) (message : TextMessage) (sent : Int)
    (strerror : String) (hi : p.initialized = true) (hs : 0 ≤ p.socket) :
    (p.publish message sent strerror).sendto.isSome = true ∧
    ((p.publish message sent strerror).result = true ↔ 0 ≤ sent) := by
  have hc : (!p.initialized || decide (p.socket < 0)) = false := by
    rw [hi]; simp; exact hs
  unfold UdpPublisher.publish
  rw [hc]
  simp only [Bool.false_eq_true, if_false]
  by_cases h : sent < 0
  · rw [if_pos h]
    refine ⟨rfl, ?_⟩
    constructor
    · intro h'; cases h'
    · intro h'; omega
  · rw [if_neg h]
    refine ⟨rfl, ?_⟩
    constructor
    · intro _; omega
    · intro _; rfl

/-- Claim C6.  `DualUdpPublisher::publish` and `DualAeronPublisher::publish` call
`publish` on the primary and on the secondary endpoint, each with the message and
whatever the other's outcome, and return true exactly when at least one of the two
calls returned true: true when the primary fails and the secondary succeeds, false
when both fail.  With both UDP endpoints open, each one issues its datagram and the
result is true exactly when at least one `sendto` succeeded. -/
theorem dual_publish_redundant (d : DualUdpPublisher) (a : DualAeronPublisher)
    (message : TextMessage) (sent1 : Int) (err1 : String) (sent2 : Int) (err2 : String)
    (c1 : Bool) (o1 : OfferOutcome) (c2 : Bool) (o2 : OfferOutcome) :
    ((d.publish message sent1 err1 sent2 err2).publisher.primary
        = (d.primary.publish message sent1 err1).publisher ∧
      (d.publish message sent1 err1 sent2 err2).primarySendto
        = (d.primary.publish message sent1 err1).sendto) ∧
    ((d.publish message sent1 err1 sent2 err2).publisher.secondary
        = (d.secondary.publish message sent2 err2).publisher ∧
      (d.publish message sent1 err1 sent2 err2).secondarySendto
        = (d.secondary.publish message sent2 err2).sendto) ∧
    ((d.publish message sent1 err1 sent2 err2).result = true ↔
      ((d.primary.publish message sent1 err1).result = true ∨
        (d.secondary.publish message sent2 err2).result = true)) ∧
    ((d.primary.publish message sent1 err1).result = false →
      (d.secondary.publish message sent2 err2).result = true →
      (d.publish message sent1 err1 sent2 err2).result = true) ∧
    ((d.primary.publish message sent1 err1).result = false →
      (d.secondary.publish message sent2 err2).result = false →
      (d.publish message sent1 err1 sent2 err2).result = false) ∧
    (d.primary.initialized = true → 0 ≤ d.primary.socket →
      d.secondary.initialized = true → 0 ≤ d.secondary.socket →
      (d.publish message sent1 err1 sent2 err2).primarySendto.isSome = true ∧
      (d.publish message sent1 err1 sent2 err2).secondarySendto.isSome = true ∧
      ((d.publish message sent1 err1 sent2 err2).result = true ↔ (0 ≤ sent1 ∨ 0 ≤ sent2))) ∧
    ((a.publish message c1 o1 c2 o2).2.primary = (a.primary.publish message c1 o1).2 ∧
      (a.publish message c1 o1 c2 o2).2.secondary = (a.secondary.publish message c2 o2).2) ∧
    ((a.publish message c1 o1 c2 o2).1 = true ↔
      ((a.primary.publish message c1 o1).1 = true ∨
        (a.secondary.publish message c2 o2).1 = true)) ∧
    ((a.primary.publish message c1 o1).1 = false →
      (a.secondary.publish message c2 o2).1 = true →
      (a.publish message c1 o1 c2 o2).1 = true) ∧
    ((a.primary.publish message c1 o1).1 = false →
      (a.secondary.publish message c2 o2).1 = false →
      (a.publish message c1 o1 c2 o2).1 = false) := by
  refine ⟨⟨rfl, rfl⟩, ⟨rfl, rfl⟩, ?_, ?_, ?_, ?_, ⟨rfl, rfl⟩, ?_, ?_, ?_⟩
  · simp only [DualUdpPublisher.publish, Bool.or_eq_true]
  · intro h1 h2
    simp only [DualUdpPublisher.publish, h1, h2, Bool.false_or]
  · intro h1 h2
    simp only [DualUdpPublisher.publish, h1, h2, Bool.false_or]
  · intro hi1 hs1 hi2 hs2
    have hp := UdpPublisher.publish_open d.primary message sent1 err1 hi1 hs1
    have hs := UdpPublisher.publish_open d.secondary message sent2 err2 hi2 hs2
    refine ⟨hp.1, hs.1, ?_⟩
    simp only [DualUdpPublisher.publish, Bool.or_eq_true]
    rw [hp.2, hs.2]
  · simp only [DualAeronPublisher.publish, Bool.or_eq_true]
  · intro h1 h2
    simp only [DualAeronPublisher.publish, h1, h2, Bool.false_or]
  · intro h1 h2
    simp only [DualAeronPublisher.publish, h1, h2, Bool.false_or]

/-- Witness for `dual_publish_redundant`: two open UDP endpoints, the primary's
`sendto` returning -1 and the secondary's 528: both datagrams are issued and the
call returns true. -/
theorem dual_publish_redundant_witness :
    (openDualPublisher.publish (TextMessage.createHeartbeat 7) (-1) "unreachable" 528
        "").primarySendto.isSome = true ∧
    (openDualPublisher.publish (TextMessage.createHeartbeat 7) (-1) "unreachable" 528
        "").secondarySendto.isSome = true ∧
    ((openDualPublisher.publish (TextMessage.createHeartbeat 7) (-1) "unreachable" 528
        "").result = true ↔ ((0 : Int) ≤ -1 ∨ (0 : Int) ≤ 528)) :=
  (dual_publish_redundant openDualPublisher
    { primary := {}, secondary := {} } (TextMessage.createHeartbeat 7) (-1) "unreachable" 528 ""
    true (OfferOutcome.returned 1) true (OfferOutcome.returned 1)).2.2.2.2.2.1
    rfl (by decide) rfl (by decide)

/-- The loop of `updateActiveFeed` leaves `(bestFeed, bestTime)` alone when no
remaining feed is connected with a later time. -/
theorem updateActiveFeedLoop_noop (l : List FeedInfo) :
    ∀ (k b : Nat) (bt : Int),
      (∀ f ∈ l, ¬ (f.stats.connected = true ∧ f.lastMessage > bt)) →
      updateActiveFeedLoop l k (b, bt) = (b, bt) := by
  induction l with
  | nil => intro k b bt _; rfl
  | cons h t ih =>
    intro k b bt hall
    have hh := hall h (List.mem_cons_self _ _)
    have hc : (h.stats.connected && decide (h.lastMessage > bt)) = false := by
      cases hcon : h.stats.connected
      · rfl
      · have : ¬ h.lastMessage > bt := fun hgt => hh ⟨hcon, hgt⟩
        simp [this]
    unfold updateActiveFeedLoop
    simp only [hc, Bool.false_eq_true, if_false]
    exact ih (k + 1) b bt (fun f hf => hall f (List.mem_cons_of_mem _ hf))

/-- The loop of `updateActiveFeed` ends on the connected feed whose time is
strictly above the starting `bestTime` and above every other feed's time. -/
theorem updateActiveFeedLoop_latest (l : List FeedInfo) :
    ∀ (k b : Nat) (bt : Int) (j : Nat) (f : FeedInfo),
      l[j]? = some f → f.stats.connected = true → bt < f.lastMessage →
      (∀ j' g, j' ≠ j → l[j']? = some g → g.lastMessage < f.lastMessage) →
      updateActiveFeedLoop l k (b, bt) = (k + j, f.lastMessage) := by
  induction l with
  | nil => intro k b bt j f hj; simp at hj
  | cons h t ih =>
    intro k b bt j f hj hcon hbt hmax
    cases j with
    | zero =>
      have hhf : h = f := by simpa using hj
      subst hhf
      have hc : (h.stats.connected && decide (h.lastMessage > bt)) = true := by
        rw [hcon]; simp; exact hbt
      unfold updateActiveFeedLoop
      simp only [hc, if_true]
      rw [updateActiveFeedLoop_noop t (k + 1) k h.lastMessage]
      · rfl
      · intro g hg hcg
        obtain ⟨n, hn⟩ := List.mem_iff_getElem?.mp hg
        have := hmax (n + 1) g (Nat.succ_ne_zero n) (by simpa using hn)
        omega
    | succ j0 =>
      have htj : t[j0]? = some f := by simpa using hj
      have hh : h.lastMessage < f.lastMessage :=
        hmax 0 h (Nat.succ_ne_zero j0).symm (by simp)
      have hmax' : ∀ j' g, j' ≠ j0 → t[j']? = some g → g.lastMessage < f.lastMessage := by
        intro j' g hne hg
        exact hmax (j' + 1) g (by omega) (by simpa using hg)
      have hidx : k + 1 + j0 = k + (j0 + 1) := by omega
      unfold updateActiveFeedLoop
      by_cases hc : (h.stats.connected && decide (h.lastMessage > bt)) = true
      · rw [if_pos hc, ih (k + 1) k h.lastMessage j0 f htj hcon hh hmax', hidx]
      · rw [if_neg hc, ih (k + 1) b bt j0 f htj hcon hbt hmax', hidx]

/-- The member `updateActiveFeed` with a valid `activeFeed_` returns, and selects
the connected feed whose time is strictly later than every other feed's. -/
theorem updateActiveFeed_latest (s : UdpSubscriber) (i : Nat) (f : FeedInfo)
    (hf : s.feeds[i]? = some f) (hc : f.stats.connected = true)
    (ha : s.activeFeed < s.feeds.length)
    (hmax : ∀ j g, j ≠ i → s.feeds[j]? = some g → g.lastMessage < f.lastMessage) :
    s.updateActiveFeed = some { s with activeFeed := i } := by
  have hg : s.feeds[s.activeFeed]? = some (s.feeds[s.activeFeed]) :=
    List.getElem?_eq_getElem ha
  unfold UdpSubscriber.updateActiveFeed
  simp only [hg]
  by_cases hai : s.activeFeed = i
  · subst hai
    have hfg : s.feeds[s.activeFeed] = f := by
      rw [hg] at hf; exact Option.some.inj hf
    rw [hfg, updateActiveFeedLoop_noop s.feeds 0 s.activeFeed f.lastMessage]
    intro g hgm hcg
    obtain ⟨n, hn⟩ := List.mem_iff_getElem?.mp hgm
    by_cases hni : n = s.activeFeed
    · rw [hni, hg, hfg] at hn
      have := Option.some.inj hn
      subst this
      exact absurd hcg.2 (lt_irrefl _)
    · have := hmax n g hni hn
      omega
  · have hlt := hmax s.activeFeed _ hai hg
    rw [updateActiveFeedLoop_latest s.feeds 0 s.activeFeed _ i f hf hc hlt hmax]
    simp

/-- The datagram branch of the receive loop: with a non-empty datagram and a
valid `activeFeed_`, the iteration updates the feed's counters and `lastMessage`,
decodes, calls the callback for every message that decodes (when one is
registered), and runs `updateActiveFeed`. -/
theorem receiveLoop_data (sub : UdpSubscriber) (i : Nat) (bytes : List Nat)
    (steadyNow : Int) (systemNow : Nat) (feed : FeedInfo)
    (hf : sub.feeds[i]? = some feed) (hpos : 0 < (bytes.take 1024).length) :
    ∃ feed' : FeedInfo,
      feed'.lastMessage = steadyNow ∧ feed'.stats.connected = feed.stats.connected ∧
      sub.receiveLoop i (RecvOutcome.data bytes) steadyNow systemNow =
        (match ({ sub with feeds := sub.feeds.set i feed' } : UdpSubscriber).updateActiveFeed with
          | none => none
          | some s => some (s,
              if ((TextMessage.ctor systemNow).deserialize (some (bytes.take 1024))
                  systemNow).1 = true
              then (if sub.messageCallback = true
                then [(((TextMessage.ctor systemNow).deserialize (some (bytes.take 1024))
                  systemNow).2, i)] else [])
              else [])) := by
  unfold UdpSubscriber.receiveLoop
  simp only [hf, gt_iff_lt, hpos, if_true]
  by_cases hd : ((TextMessage.ctor systemNow).deserialize (some (bytes.take 1024))
      systemNow).1 = true
  · refine ⟨{ feed with
        stats := { feed.stats with
          messagesReceived := u64add feed.stats.messagesReceived 1
          bytesReceived := u64add feed.stats.bytesReceived (bytes.take 1024).length }
        lastMessage := steadyNow }, rfl, rfl, ?_⟩
    simp only [hd, if_true]
  · refine ⟨{ feed with
        stats := { feed.stats with
          messagesReceived := u64add feed.stats.messagesReceived 1
          bytesReceived := u64add feed.stats.bytesReceived (bytes.take 1024).length
          errors := u64add feed.stats.errors 1 }
        lastMessage := steadyNow }, rfl, rfl, ?_⟩
    simp only [hd, if_false]
    rfl

theorem updateActiveFeed_some (s : UdpSubscriber) (ha : s.activeFeed < s.feeds.length) :
    ∃ a, s.updateActiveFeed = some { s with activeFeed := a } := by
  have hg : s.feeds[s.activeFeed]? = some (s.feeds[s.activeFeed]) :=
    List.getElem?_eq_getElem ha
  unfold UdpSubscriber.updateActiveFeed
  simp only [hg]
  exact ⟨_, rfl⟩

theorem deserialize_true_length (self : TextMessage) (buf : List Nat) (now : Nat)
    (h : (self.deserialize (some buf) now).1 = true) : getMaxSerializedSize ≤ buf.length := by
  by_contra hlt
  have hlt' : buf.length < getMaxSerializedSize := by omega
  unfold TextMessage.deserialize at h
  simp only [hlt', if_true] at h
  cases h

/-- A datagram that is the object representation of a well-formed message with a
valid type and a length below 512 decodes. -/
theorem deserialize_datagram (m fresh : TextMessage) (now : Nat)
    (hwf : m.WellFormed) (hlen : m.textLength ≤ 511)
    (htype : m.type = MessageType.TEXT_UPDATE ∨ m.type = MessageType.CLEAR_TEXT ∨
      m.type = MessageType.HEARTBEAT) :
    fresh.deserialize (some (m.toBytes.take 1024)) now =
      (true,
        { type := m.type
          size := if m.size ≠ TextSize.SMALL ∧ m.size ≠ TextSize.BIG then TextSize.SMALL
            else m.size
          textLength := m.textLength
          timestamp := if m.timestamp = 0 then now else m.timestamp
          text := m.text.set m.textLength 0 }) := by
  rw [List.take_of_length_le (by rw [toBytes_length]; decide)]
  exact deserialize_record m fresh now hwf hlen htype

/-- Claim C7, the behaviour of the UDP subscriber.  With a callback registered,
one iteration of `UdpSubscriber::receiveLoop` on a datagram that decodes to a
HEARTBEAT message sets the feed's `lastMessage` to the receive time and calls the
message callback with that heartbeat. -/
theorem udp_receive_forwards_heartbeat (sub : UdpSubscriber) (i : Nat) (bytes : List Nat)
    (steadyNow : Int) (systemNow : Nat) (feed : FeedInfo)
    (hf : sub.feeds[i]? = some feed) (ha : sub.activeFeed < sub.feeds.length)
    (hcb : sub.messageCallback = true)
    (hd : ((TextMessage.ctor systemNow).deserialize (some (bytes.take 1024)) systemNow).1
      = true)
    (_hhb : ((TextMessage.ctor systemNow).deserialize (some (bytes.take 1024)) systemNow).2.type
      = MessageType.HEARTBEAT) :
    ∃ s' f', sub.receiveLoop i (RecvOutcome.data bytes) steadyNow systemNow =
        some (s', [(((TextMessage.ctor systemNow).deserialize (some (bytes.take 1024))
          systemNow).2, i)]) ∧
      s'.feeds[i]? = some f' ∧ f'.lastMessage = steadyNow := by
  have hlen := deserialize_true_length _ _ _ hd
  have hpos : 0 < (bytes.take 1024).length := by
    simp only [getMaxSerializedSize] at hlen; omega
  obtain ⟨feed', hlm, _, heq⟩ := receiveLoop_data sub i bytes steadyNow systemNow feed hf hpos
  have hi : i < sub.feeds.length := (List.getElem?_eq_some.mp hf).1
  obtain ⟨a, hu⟩ := updateActiveFeed_some
    ({ sub with feeds := sub.feeds.set i feed' } : UdpSubscriber)
    (by simp only [List.length_set]; exact ha)
  rw [hu] at heq
  simp only [hd, hcb, if_true] at heq
  exact ⟨_, feed', heq, List.getElem?_set_self hi, hlm⟩

/-- Claim C8.  When a datagram arrives on a connected feed `i` at a time strictly
later than the `lastMessage` of every other feed, the receive step returns and
leaves `getActiveFeed() == i`, for any valid previous active feed and any position
of `i` in the feed list. -/
theorem receive_makes_latest_feed_active (sub : UdpSubscriber) (i : Nat) (bytes : List Nat)
    (steadyNow : Int) (systemNow : Nat) (feed : FeedInfo)
    (hf : sub.feeds[i]? = some feed) (hc : feed.stats.connected = true)
    (ha : sub.activeFeed < sub.feeds.length) (hne : bytes ≠ [])
    (hmax : ∀ j g, j ≠ i → sub.feeds[j]? = some g → g.lastMessage < steadyNow) :
    ∃ s' calls, sub.receiveLoop i (RecvOutcome.data bytes) steadyNow systemNow =
        some (s', calls) ∧ s'.getActiveFeed = i := by
  have hpos : 0 < (bytes.take 1024).length := by
    cases bytes with
    | nil => exact absurd rfl hne
    | cons b t => simp
  obtain ⟨feed', hlm, hcon, heq⟩ := receiveLoop_data sub i bytes steadyNow systemNow feed hf hpos
  have hi : i < sub.feeds.length := (List.getElem?_eq_some.mp hf).1
  have hu := updateActiveFeed_latest
    ({ sub with feeds := sub.feeds.set i feed' } : UdpSubscriber) i feed'
    (List.getElem?_set_self hi) (by rw [hcon]; exact hc)
    (by simp only [List.length_set]; exact ha)
    (by
      intro j g hj hg
      rw [hlm]
      have hg' : sub.feeds[j]? = some g := by
        rw [← hg]; exact (List.getElem?_set_ne (Ne.symm hj)).symm
      exact hmax j g hj hg')
  rw [hu] at heq
  exact ⟨_, _, heq, rfl⟩

/-- Witness for `udp_receive_forwards_heartbeat`: a heartbeat datagram arriving on
the only feed of a subscriber with a callback. -/
theorem udp_receive_forwards_heartbeat_witness :
    ∃ s' f', oneFeedSubscriber.receiveLoop 0 (RecvOutcome.data heartbeatDatagram) 50 9 =
        some (s', [(((TextMessage.ctor 9).deserialize (some (heartbeatDatagram.take 1024))
          9).2, 0)]) ∧
      s'.feeds[0]? = some f' ∧ f'.lastMessage = 50 :=
  udp_receive_forwards_heartbeat oneFeedSubscriber 0 heartbeatDatagram 50 9
    { address := "127.0.0.1", socket := 3, stats := { connected := true }, lastMessage := 0 }
    rfl (by decide) rfl
    (congrArg Prod.fst (deserialize_datagram (TextMessage.createHeartbeat 7) (TextMessage.ctor 9) 9
      (wellFormed_zeros 3 0 0 7 (by decide) (by decide) (by decide) (by decide))
      (by decide) (by decide)))
    (congrArg (fun r => r.2.type) (deserialize_datagram (TextMessage.createHeartbeat 7)
      (TextMessage.ctor 9) 9
      (wellFormed_zeros 3 0 0 7 (by decide) (by decide) (by decide) (by decide))
      (by decide) (by decide)))

theorem threeFeedSubscriber_step :
    threeFeedSubscriber.receiveLoop 0 (RecvOutcome.data heartbeatDatagram) 50 9 =
      some (threeFeedSubscriberAfterFeed0, []) := by
  rfl

/-- Witness for `receive_makes_latest_feed_active`: three feeds, feed 0 received
at t = 50, then feed 2 receives at t = 100 and becomes the active feed. -/
theorem receive_makes_latest_feed_active_witness :
    threeFeedSubscriber.receiveLoop 0 (RecvOutcome.data heartbeatDatagram) 50 9 =
      some (threeFeedSubscriberAfterFeed0, []) ∧
    ∃ s' calls, threeFeedSubscriberAfterFeed0.receiveLoop 2 (RecvOutcome.data heartbeatDatagram)
        100 9 = some (s', calls) ∧ s'.getActiveFeed = 2 :=
  ⟨threeFeedSubscriber_step,
   receive_makes_latest_feed_active threeFeedSubscriberAfterFeed0 2 heartbeatDatagram 100 9
    { address := "127.0.0.3", socket := 5, stats := { connected := true }, lastMessage := 0 }
    rfl rfl (by decide) (List.cons_ne_nil _ _)
    (by
      intro j g hj hg
      match j, hj, hg with
      | 0, _, hg => cases hg; decide
      | 1, _, hg => cases hg; decide
      | 2, hj, _ => exact absurd rfl hj
      | (n + 3), _, hg => cases hg)⟩

/-- The loop of `UdpSubscriber::initialize` ends with `allSuccess` true exactly
when it started true and every remaining feed's `setupSocket` succeeded. -/
theorem initializeLoop_true_iff (env : Nat → SetupEnv) (l : List FeedInfo) :
    ∀ (i : Nat) (allSuccess : Bool),
      (initializeLoop env l i allSuccess).1 = true ↔
        (allSuccess = true ∧
          ∀ j f, l[j]? = some f → (setupSocket f (env (i + j))).1 = true) := by
  induction l with
  | nil =>
    intro i allSuccess
    simp [initializeLoop]
  | cons h t ih =>
    intro i allSuccess
    unfold initializeLoop
    by_cases hr : (setupSocket h (env i)).1 = true
    · simp only [hr, Bool.not_true, Bool.false_eq_true, if_false]
      rw [ih (i + 1) allSuccess]
      constructor
      · rintro ⟨ha, hall⟩
        refine ⟨ha, ?_⟩
        intro j f hj
        cases j with
        | zero =>
          have : h = f := by simpa using hj
          subst this; exact hr
        | succ j0 =>
          have := hall j0 f (by simpa using hj)
          have hidx : i + 1 + j0 = i + (j0 + 1) := by omega
          rwa [hidx] at this
      · rintro ⟨ha, hall⟩
        refine ⟨ha, ?_⟩
        intro j f hj
        have := hall (j + 1) f (by simpa using hj)
        have hidx : i + 1 + j = i + (j + 1) := by omega
        rwa [hidx]
    · have hr' : (setupSocket h (env i)).1 = false := by
        cases hb : (setupSocket h (env i)).1
        · rfl
        · exact absurd hb hr
      simp only [hr', Bool.not_false, if_true]
      rw [ih (i + 1) false]
      constructor
      · rintro ⟨hf, _⟩; cases hf
      · rintro ⟨_, hall⟩
        have := hall 0 h (by simp)
        rw [Nat.add_zero, hr'] at this
        cases this

/-- The member `UdpSubscriber::initialize` returns true exactly when every
configured feed's `setupSocket` succeeded. -/
theorem UdpSubscriber.initialize_true_iff_all (sub : UdpSubscriber) (env : Nat → SetupEnv) :
    ( UdpSubscriber.initialize sub env).1 = true ↔
      ∀ j f, sub.feeds[j]? = some f → (setupSocket f (env j)).1 = true := by
  unfold UdpSubscriber.initialize
  simp only
  rw [initializeLoop_true_iff env sub.feeds 0 true]
  simp

/-- The loop of `AeronSubscriber::initialize` ends with `activeFeed_ >= 0` exactly
when it started so or some remaining channel connected. -/
theorem AeronSubscriber.initializeLoop_nonneg_iff (connected : Nat → Bool)
    (l : List ConnectionStats) :
    ∀ (i : Nat) (a : Int), -1 ≤ a →
      (0 ≤ (AeronSubscriber.initializeLoop connected l i a).2 ↔
        (0 ≤ a ∨ ∃ j, j < l.length ∧ connected (i + j) = true)) := by
  induction l with
  | nil =>
    intro i a _
    simp [AeronSubscriber.initializeLoop]
  | cons h t ih =>
    intro i a ha
    unfold AeronSubscriber.initializeLoop
    by_cases hc : connected i = true
    · simp only [hc, if_true]
      rw [ih (i + 1) _ (by split <;> omega)]
      constructor
      · intro _
        exact Or.inr ⟨0, by simp, by simpa using hc⟩
      · intro _
        left
        split <;> omega
    · simp only [hc, Bool.false_eq_true, if_false]
      rw [ih (i + 1) a ha]
      constructor
      · rintro (h0 | ⟨j, hj, hcj⟩)
        · exact Or.inl h0
        · refine Or.inr ⟨j + 1, by simpa using hj, ?_⟩
          have hidx : i + (j + 1) = i + 1 + j := by omega
          rwa [hidx]
      · rintro (h0 | ⟨j, hj, hcj⟩)
        · exact Or.inl h0
        · cases j with
          | zero => exact absurd (by simpa using hcj) hc
          | succ j0 =>
            refine Or.inr ⟨j0, by simpa using hj, ?_⟩
            have hidx : i + 1 + j0 = i + (j0 + 1) := by omega
            rwa [hidx]

/-- The sibling `AeronSubscriber::initialize`, started from `activeFeed_ == -1`,
returns true exactly when at least one channel connected. -/
theorem AeronSubscriber.initialize_true_iff_any (sub : AeronSubscriber)
    (connected : Nat → Bool) (ha : sub.activeFeed = -1) :
    ( AeronSubscriber.initialize sub connected).1 = true ↔
      ∃ j, j < sub.stats.length ∧ connected j = true := by
  unfold AeronSubscriber.initialize
  simp only [decide_eq_true_eq, ge_iff_le]
  rw [AeronSubscriber.initializeLoop_nonneg_iff connected sub.stats 0 sub.activeFeed
    (by rw [ha])]
  rw [ha]
  simp

/-- Claim C9, the behaviour of the code.  With two configured feeds of which
feed 0 opens and feed 1 does not, `UdpSubscriber::initialize` marks feed 0 as
connected and returns false; with no feed configured, so that no socket opens, it
returns true. -/
theorem udp_initialize_requires_every_feed :
    (setupSocket { address := "127.0.0.1", lastMessage := 0 } (onlyFeed0Opens 0)).1 = true ∧
    ( UdpSubscriber.initialize twoFeedSubscriber onlyFeed0Opens).1 = false ∧
    ( UdpSubscriber.initialize twoFeedSubscriber onlyFeed0Opens).2.feeds.map (fun f => f.stats.connected)
      = [true, false] ∧
    ( UdpSubscriber.initialize noFeedSubscriber onlyFeed0Opens).1 = true := by
  decide

/-- The sibling `AeronSubscriber::handleFragment` does suppress heartbeats: on a
fragment that decodes to a HEARTBEAT message it records `lastHeartbeat` for the
feed and makes no call to the message callback. -/
theorem AeronSubscriber.handleFragment_heartbeat (sub : AeronSubscriber)
    (fragment : List Nat) (feedId systemNow : Nat) (stat : ConnectionStats)
    (hcb : sub.messageCallback = true) (hs : sub.stats[feedId]? = some stat)
    (hd : ((TextMessage.ctor systemNow).deserialize (some fragment) systemNow).1 = true)
    (hhb : ((TextMessage.ctor systemNow).deserialize (some fragment) systemNow).2.type
      = MessageType.HEARTBEAT) :
    ∃ s' stat', sub.handleFragment fragment feedId systemNow = some (s', []) ∧
      s'.stats[feedId]? = some stat' ∧ stat'.lastHeartbeat = systemNow := by
  have hi : feedId < sub.stats.length := (List.getElem?_eq_some.mp hs).1
  unfold AeronSubscriber.handleFragment
  simp only [hcb, hd, hs, hhb, if_true]
  exact ⟨_, _, rfl, List.getElem?_set_self hi, rfl⟩

theorem HealthStatus.max_disconnected_left (x : HealthStatus) :
    HealthStatus.max HealthStatus.DISCONNECTED x = HealthStatus.DISCONNECTED := by
  cases x <;> rfl

theorem HealthStatus.max_critical_left (x : HealthStatus) :
    HealthStatus.max HealthStatus.CRITICAL x = HealthStatus.CRITICAL ∨
    HealthStatus.max HealthStatus.CRITICAL x = HealthStatus.DISCONNECTED := by
  cases x
  · exact Or.inl rfl
  · exact Or.inl rfl
  · exact Or.inl rfl
  · exact Or.inr rfl

theorem HealthStatus.max_ne_disconnected (a x : HealthStatus)
    (ha : a ≠ HealthStatus.DISCONNECTED) (hx : x ≠ HealthStatus.DISCONNECTED) :
    HealthStatus.max a x ≠ HealthStatus.DISCONNECTED := by
  cases a <;> cases x <;> first | exact absurd rfl ha | exact absurd rfl hx | decide

theorem foldl_max_disconnected (l : List HealthStatus) :
    l.foldl HealthStatus.max HealthStatus.DISCONNECTED = HealthStatus.DISCONNECTED := by
  induction l with
  | nil => rfl
  | cons x t ih => rw [List.foldl_cons, HealthStatus.max_disconnected_left, ih]

theorem foldl_max_critical (l : List HealthStatus) :
    l.foldl HealthStatus.max HealthStatus.CRITICAL = HealthStatus.CRITICAL ∨
    l.foldl HealthStatus.max HealthStatus.CRITICAL = HealthStatus.DISCONNECTED := by
  induction l with
  | nil => exact Or.inl rfl
  | cons x t ih =>
    rw [List.foldl_cons]
    rcases HealthStatus.max_critical_left x with h | h
    · rw [h]; exact ih
    · rw [h]; exact Or.inr (foldl_max_disconnected t)

theorem foldl_max_ne_disconnected (l : List HealthStatus) :
    ∀ a, a ≠ HealthStatus.DISCONNECTED → (∀ x ∈ l, x ≠ HealthStatus.DISCONNECTED) →
      l.foldl HealthStatus.max a ≠ HealthStatus.DISCONNECTED := by
  induction l with
  | nil => intro a ha _; exact ha
  | cons x t ih =>
    intro a ha hall
    rw [List.foldl_cons]
    exact ih _ (HealthStatus.max_ne_disconnected a x ha (hall x (List.mem_cons_self _ _)))
      (fun y hy => hall y (List.mem_cons_of_mem _ hy))

/-- One step of the loop of `getOverallStatus` folds in the effective severity. -/
theorem getOverallStatusLoop_cons (now : Nat) (metric : HealthMetric)
    (rest : List HealthMetric) (overall : HealthStatus) :
    getOverallStatusLoop now (metric :: rest) overall =
      if HealthStatus.max overall (effectiveSeverity now metric) = HealthStatus.CRITICAL
      then HealthStatus.CRITICAL
      else getOverallStatusLoop now rest
        (HealthStatus.max overall (effectiveSeverity now metric)) := by
  rw [getOverallStatusLoop]
  unfold effectiveSeverity
  by_cases hage : metricAge now metric > 10000
  · simp only [hage, if_true]
    by_cases hc : HealthStatus.max overall HealthStatus.WARNING = HealthStatus.CRITICAL
    · rw [if_pos hc, if_pos hc, hc]
    · rw [if_neg hc, if_neg hc]
  · simp only [hage, if_false]
    by_cases hc : HealthStatus.max overall metric.status = HealthStatus.CRITICAL
    · rw [if_pos hc, if_pos hc, hc]
    · rw [if_neg hc, if_neg hc]

/-- The loop of `getOverallStatus` returns the fold of `max` over the effective
severities, or Critical where that fold is Disconnected. -/
theorem getOverallStatusLoop_spec (now : Nat) (l : List HealthMetric) :
    ∀ overall,
      getOverallStatusLoop now l overall =
          (l.map (effectiveSeverity now)).foldl HealthStatus.max overall ∨
        (getOverallStatusLoop now l overall = HealthStatus.CRITICAL ∧
          (l.map (effectiveSeverity now)).foldl HealthStatus.max overall =
            HealthStatus.DISCONNECTED) := by
  induction l with
  | nil => intro overall; exact Or.inl rfl
  | cons m t ih =>
    intro overall
    rw [getOverallStatusLoop_cons, List.map_cons, List.foldl_cons]
    by_cases hc : HealthStatus.max overall (effectiveSeverity now m) = HealthStatus.CRITICAL
    · rw [if_pos hc, hc]
      rcases foldl_max_critical (t.map (effectiveSeverity now)) with h | h
      · exact Or.inl h.symm
      · exact Or.inr ⟨rfl, h⟩
    · rw [if_neg hc]
      exact ih _

/-- Claim C10, as it holds.  For a non-empty metrics table `getOverallStatus`
returns the maximum effective severity of all metrics whenever no metric that is
not stale has the stored status Disconnected, and the early exit at Critical does
not change the result then; in general it returns that maximum, or Critical where
the maximum is Disconnected. -/
theorem getOverallStatus_max_effective (h : HealthMonitor) (now : Nat)
    (hne : h.metrics ≠ []) :
    (h.getOverallStatus now = maxEffectiveSeverity now h.metrics ∨
      (h.getOverallStatus now = HealthStatus.CRITICAL ∧
        maxEffectiveSeverity now h.metrics = HealthStatus.DISCONNECTED)) ∧
    ((∀ m ∈ h.metrics, metricAge now m ≤ 10000 → m.status ≠ HealthStatus.DISCONNECTED) →
      h.getOverallStatus now = maxEffectiveSeverity now h.metrics) := by
  have hempty : h.metrics.isEmpty = false := by
    cases hm : h.metrics with
    | nil => exact absurd hm hne
    | cons _ _ => rfl
  have hget : h.getOverallStatus now =
      getOverallStatusLoop now h.metrics HealthStatus.HEALTHY := by
    unfold HealthMonitor.getOverallStatus
    rw [hempty]; rfl
  have hspec := getOverallStatusLoop_spec now h.metrics HealthStatus.HEALTHY
  rw [hget]
  refine ⟨hspec, ?_⟩
  intro hfresh
  rcases hspec with heq | ⟨_, hdis⟩
  · exact heq
  · exfalso
    refine foldl_max_ne_disconnected (h.metrics.map (effectiveSeverity now))
      HealthStatus.HEALTHY (by decide) ?_ hdis
    intro x hx
    obtain ⟨m, hm, rfl⟩ := List.mem_map.mp hx
    unfold effectiveSeverity
    by_cases hage : metricAge now m > 10000
    · rw [if_pos hage]; decide
    · rw [if_neg hage]; exact hfresh m hm (by omega)

/-- Witness for `getOverallStatus_max_effective`: a fresh Healthy and a fresh
Warning metric, queried at time 5. -/
theorem getOverallStatus_max_effective_witness :
    healthyAndWarning.metrics ≠ [] ∧
    healthyAndWarning.getOverallStatus 5 =
      maxEffectiveSeverity 5 healthyAndWarning.metrics :=
  ⟨by decide, (getOverallStatus_max_effective healthyAndWarning 5 (by decide)).2 (by decide)⟩

/-- Claim C10 as stated fails.  On the non-empty table of a fresh Critical metric
followed by a fresh Disconnected one, `getOverallStatus` stops at the first metric
and returns Critical, while the maximum effective severity is Disconnected. -/
theorem getOverallStatus_early_exit_below_max :
    criticalThenDisconnected.metrics ≠ [] ∧
    criticalThenDisconnected.getOverallStatus 5 = HealthStatus.CRITICAL ∧
    maxEffectiveSeverity 5 criticalThenDisconnected.metrics = HealthStatus.DISCONNECTED ∧
    criticalThenDisconnected.getOverallStatus 5 ≠
      maxEffectiveSeverity 5 criticalThenDisconnected.metrics := by
  decide

/-- Once `overall` is Disconnected the loop of `getOverallStatus` returns
Disconnected. -/
theorem getOverallStatusLoop_disconnected (now : Nat) (l : List HealthMetric) :
    getOverallStatusLoop now l HealthStatus.DISCONNECTED = HealthStatus.DISCONNECTED := by
  induction l with
  | nil => rfl
  | cons m t ih =>
    rw [getOverallStatusLoop_cons, HealthStatus.max_disconnected_left,
      if_neg (by decide), ih]

/-- Started below Critical, the loop of `getOverallStatus` returns Disconnected
exactly when the first effective severity that is Critical or Disconnected is
Disconnected. -/
theorem getOverallStatusLoop_disconnected_iff (now : Nat) (l : List HealthMetric) :
    ∀ overall, (overall = HealthStatus.HEALTHY ∨ overall = HealthStatus.WARNING) →
      (getOverallStatusLoop now l overall = HealthStatus.DISCONNECTED ↔
        (l.map (effectiveSeverity now)).find? HealthStatus.atLeastCritical =
          some HealthStatus.DISCONNECTED) := by
  induction l with
  | nil =>
    intro overall h
    rcases h with rfl | rfl <;> simp [getOverallStatusLoop]
  | cons m t ih =>
    intro overall h
    rw [getOverallStatusLoop_cons, List.map_cons, List.find?_cons]
    generalize effectiveSeverity now m = e
    cases e
    · have hm : HealthStatus.max overall HealthStatus.HEALTHY = overall := by
        rcases h with rfl | rfl <;> rfl
      rw [hm, if_neg (by rcases h with rfl | rfl <;> decide)]
      exact ih overall h
    · have hm : HealthStatus.max overall HealthStatus.WARNING = HealthStatus.WARNING := by
        rcases h with rfl | rfl <;> rfl
      rw [hm, if_neg (by decide)]
      exact ih HealthStatus.WARNING (Or.inr rfl)
    · have hm : HealthStatus.max overall HealthStatus.CRITICAL = HealthStatus.CRITICAL := by
        rcases h with rfl | rfl <;> rfl
      rw [hm, if_pos rfl]
      simp [HealthStatus.atLeastCritical]
    · have hm : HealthStatus.max overall HealthStatus.DISCONNECTED
          = HealthStatus.DISCONNECTED := by
        rcases h with rfl | rfl <;> rfl
      rw [hm, if_neg (by decide), getOverallStatusLoop_disconnected]
      simp [HealthStatus.atLeastCritical]

theorem getOverallStatus_nonempty (h : HealthMonitor) (now : Nat) (hne : h.metrics ≠ []) :
    h.getOverallStatus now = getOverallStatusLoop now h.metrics HealthStatus.HEALTHY := by
  have hempty : h.metrics.isEmpty = false := by
    cases hm : h.metrics with
    | nil => exact absurd hm hne
    | cons _ _ => rfl
  unfold HealthMonitor.getOverallStatus
  rw [hempty]; rfl

/-- Claim C11, as it holds.  `getOverallStatus` returns Disconnected for the empty
table; for a non-empty table it returns Disconnected exactly when the first metric,
in table order, whose effective severity is Critical or Disconnected is a metric
that is not stale and is stored as Disconnected; so when no metric that is not
stale is stored as Disconnected the result is one of Healthy, Warning, Critical. -/
theorem getOverallStatus_disconnected_iff (h : HealthMonitor) (now : Nat) :
    (h.metrics = [] → h.getOverallStatus now = HealthStatus.DISCONNECTED) ∧
    (h.metrics ≠ [] →
      (h.getOverallStatus now = HealthStatus.DISCONNECTED ↔
        (h.metrics.map (effectiveSeverity now)).find? HealthStatus.atLeastCritical =
          some HealthStatus.DISCONNECTED)) ∧
    (h.metrics ≠ [] →
      (∀ m ∈ h.metrics, metricAge now m ≤ 10000 → m.status ≠ HealthStatus.DISCONNECTED) →
      (h.getOverallStatus now = HealthStatus.HEALTHY ∨
        h.getOverallStatus now = HealthStatus.WARNING ∨
        h.getOverallStatus now = HealthStatus.CRITICAL)) := by
  refine ⟨?_, ?_, ?_⟩
  · intro hnil
    unfold HealthMonitor.getOverallStatus
    rw [hnil]; rfl
  · intro hne
    rw [getOverallStatus_nonempty h now hne]
    exact getOverallStatusLoop_disconnected_iff now h.metrics _ (Or.inl rfl)
  · intro hne hfresh
    have hiff := getOverallStatusLoop_disconnected_iff now h.metrics HealthStatus.HEALTHY
      (Or.inl rfl)
    rw [getOverallStatus_nonempty h now hne]
    have hnd : getOverallStatusLoop now h.metrics HealthStatus.HEALTHY
        ≠ HealthStatus.DISCONNECTED := by
      intro hd
      have hfind := hiff.mp hd
      have hmem := List.mem_of_find?_eq_some hfind
      obtain ⟨m, hm, hme⟩ := List.mem_map.mp hmem
      unfold effectiveSeverity at hme
      by_cases hage : metricAge now m > 10000
      · rw [if_pos hage] at hme; cases hme
      · rw [if_neg hage] at hme
        exact hfresh m hm (by omega) hme
    cases hr : getOverallStatusLoop now h.metrics HealthStatus.HEALTHY
    · exact Or.inl rfl
    · exact Or.inr (Or.inl rfl)
    · exact Or.inr (Or.inr rfl)
    · exact absurd hr hnd

/-- Witness for `getOverallStatus_disconnected_iff`: the table of a fresh Healthy
and a fresh Warning metric, queried at time 5, does not report Disconnected. -/
theorem getOverallStatus_disconnected_iff_witness :
    healthyAndWarning.metrics ≠ [] ∧
    (healthyAndWarning.getOverallStatus 5 = HealthStatus.HEALTHY ∨
      healthyAndWarning.getOverallStatus 5 = HealthStatus.WARNING ∨
      healthyAndWarning.getOverallStatus 5 = HealthStatus.CRITICAL) :=
  ⟨by decide,
   (getOverallStatus_disconnected_iff healthyAndWarning 5).2.2 (by decide) (by decide)⟩

/-- Claim C11 as stated fails.  After the single call
`updateMetric("feed", 0, DISCONNECTED, "")` at time 0 the table is not empty and
`getOverallStatus`, queried at time 5, returns Disconnected. -/
theorem getOverallStatus_disconnected_nonempty :
    oneDisconnectedMetric.metrics ≠ [] ∧
    oneDisconnectedMetric.getOverallStatus 5 = HealthStatus.DISCONNECTED := by
  decide

theorem HealthStatus.max_ne_healthy_left (a x : HealthStatus) (ha : a ≠ HealthStatus.HEALTHY) :
    HealthStatus.max a x ≠ HealthStatus.HEALTHY := by
  cases a <;> cases x <;> first | exact absurd rfl ha | decide

theorem HealthStatus.max_warning_ne_healthy (a : HealthStatus) :
    HealthStatus.max a HealthStatus.WARNING ≠ HealthStatus.HEALTHY := by
  cases a <;> decide

/-- Once `overall` is above Healthy the loop of `getOverallStatus` does not return
Healthy. -/
theorem getOverallStatusLoop_ne_healthy (now : Nat) (l : List HealthMetric) :
    ∀ overall, overall ≠ HealthStatus.HEALTHY →
      getOverallStatusLoop now l overall ≠ HealthStatus.HEALTHY := by
  induction l with
  | nil => intro overall h; exact h
  | cons m t ih =>
    intro overall h
    rw [getOverallStatusLoop_cons]
    by_cases hc : HealthStatus.max overall (effectiveSeverity now m) = HealthStatus.CRITICAL
    · rw [if_pos hc]; decide
    · rw [if_neg hc]
      exact ih _ (HealthStatus.max_ne_healthy_left overall _ h)

/-- With a stale metric among those that remain, the loop of `getOverallStatus`
does not return Healthy. -/
theorem getOverallStatusLoop_stale (now : Nat) (l : List HealthMetric) :
    ∀ overall, (∃ m ∈ l, metricAge now m > 10000) →
      getOverallStatusLoop now l overall ≠ HealthStatus.HEALTHY := by
  induction l with
  | nil => intro overall h; obtain ⟨m, hm, _⟩ := h; cases hm
  | cons m t ih =>
    intro overall h
    rw [getOverallStatusLoop_cons]
    by_cases hc : HealthStatus.max overall (effectiveSeverity now m) = HealthStatus.CRITICAL
    · rw [if_pos hc]; decide
    · rw [if_neg hc]
      obtain ⟨m', hm', hstale⟩ := h
      rcases List.mem_cons.mp hm' with rfl | htail
      · apply getOverallStatusLoop_ne_healthy
        unfold effectiveSeverity
        rw [if_pos hstale]
        exact HealthStatus.max_warning_ne_healthy overall
      · exact ih _ ⟨m', htail, hstale⟩

theorem metricAge_eq_sub (now : Nat) (m : HealthMetric) (h0 : m.lastUpdate ≤ now)
    (hn : now < 2 ^ 64) : metricAge now m = now - m.lastUpdate := by
  unfold metricAge
  omega

/-- The table of a freshly constructed monitor after one `updateMetric`. -/
theorem updateMetric_empty (name : String) (value : Rat) (status : HealthStatus)
    (details : String) (now : Nat) :
    (({} : HealthMonitor).updateMetric name value status details now).metrics =
      [HealthMetric.mk name status details now value 0] := rfl

/-- Claim C12.  For the table whose only metric was set to Healthy at time `t0`,
`getOverallStatus` queried at time `t` returns Healthy when `t - t0 <= 10000` and
Warning when `t - t0 > 10000`; and a table containing any metric older than
10000 ms never reports Healthy. -/
theorem health_staleness (name : String) (value : Rat) (details : String) (t0 t : Nat)
    (h0 : t0 ≤ t) (ht : t < 2 ^ 64) :
    (t - t0 ≤ 10000 →
      (({} : HealthMonitor).updateMetric name value HealthStatus.HEALTHY details
        t0).getOverallStatus t = HealthStatus.HEALTHY) ∧
    (t - t0 > 10000 →
      (({} : HealthMonitor).updateMetric name value HealthStatus.HEALTHY details
        t0).getOverallStatus t = HealthStatus.WARNING) ∧
    (∀ (h : HealthMonitor) (now : Nat), (∃ m ∈ h.metrics, metricAge now m > 10000) →
      h.getOverallStatus now ≠ HealthStatus.HEALTHY ∧
      HealthStatus.WARNING.toNat ≤ (h.getOverallStatus now).toNat) := by
  have hage : metricAge t (HealthMetric.mk name HealthStatus.HEALTHY details t0 value 0)
      = t - t0 := metricAge_eq_sub t _ h0 ht
  refine ⟨?_, ?_, ?_⟩
  · intro hle
    have heff : effectiveSeverity t (HealthMetric.mk name HealthStatus.HEALTHY details t0 value 0)
        = HealthStatus.HEALTHY := by
      unfold effectiveSeverity
      rw [hage, if_neg (by omega)]
    rw [getOverallStatus_nonempty _ _ (by rw [updateMetric_empty]; exact List.cons_ne_nil _ _),
      updateMetric_empty, getOverallStatusLoop_cons, heff]
    rfl
  · intro hgt
    have heff : effectiveSeverity t (HealthMetric.mk name HealthStatus.HEALTHY details t0 value 0)
        = HealthStatus.WARNING := by
      unfold effectiveSeverity
      rw [hage, if_pos hgt]
    rw [getOverallStatus_nonempty _ _ (by rw [updateMetric_empty]; exact List.cons_ne_nil _ _),
      updateMetric_empty, getOverallStatusLoop_cons, heff]
    rfl
  · intro h now hstale
    have hne : h.metrics ≠ [] := by
      obtain ⟨m, hm, _⟩ := hstale
      exact List.ne_nil_of_mem hm
    have hnh : h.getOverallStatus now ≠ HealthStatus.HEALTHY := by
      rw [getOverallStatus_nonempty h now hne]
      exact getOverallStatusLoop_stale now h.metrics _ hstale
    refine ⟨hnh, ?_⟩
    cases hr : h.getOverallStatus now
    · exact absurd hr hnh
    · decide
    · decide
    · decide

/-- Witness for `health_staleness`: a metric set to Healthy at time 0, queried at
5000 ms and at 11000 ms. -/
theorem health_staleness_witness :
    (({} : HealthMonitor).updateMetric "feed" 1 HealthStatus.HEALTHY "Connected"
        0).getOverallStatus 5000 = HealthStatus.HEALTHY ∧
    (({} : HealthMonitor).updateMetric "feed" 1 HealthStatus.HEALTHY "Connected"
        0).getOverallStatus 11000 = HealthStatus.WARNING :=
  ⟨(health_staleness "feed" 1 "Connected" 0 5000 (by decide) (by decide)).1 (by decide),
   (health_staleness "feed" 1 "Connected" 0 11000 (by decide) (by decide)).2.1 (by decide)⟩

/-- The record `updateMetric` writes over a metric. -/
theorem updateMetric_cons (m : HealthMetric) (rest : List HealthMetric) (name : String)
    (value : Rat) (status : HealthStatus) (details : String) (now : Nat) :
    (HealthMonitor.updateMetric ⟨m :: rest⟩ name value status details now).metrics =
      if m.name = name then
        { m with value := value, status := status, details := details, lastUpdate := now }
          :: rest
      else m :: (HealthMonitor.updateMetric ⟨rest⟩ name value status details now).metrics := by
  by_cases hn : m.name = name
  · rw [if_pos hn]
    simp [HealthMonitor.updateMetric, findMetric, hn]
  · rw [if_neg hn]
    unfold HealthMonitor.updateMetric
    simp only [findMetric, if_neg hn]
    cases hf : findMetric rest name with
    | none => simp
    | some i =>
      simp only [Option.map_some', List.getElem?_cons_succ]
      cases hg : rest[i]? with
      | none => simp
      | some k => simp

theorem updateMetric_nil (name : String) (value : Rat) (status : HealthStatus)
    (details : String) (now : Nat) :
    (HealthMonitor.updateMetric ⟨[]⟩ name value status details now).metrics =
      [HealthMetric.mk name status details now value 0] := rfl

/-- The names in the table after `updateMetric`: unchanged when the name was
present, the name appended otherwise. -/
theorem updateMetric_names (l : List HealthMetric) (name : String) (value : Rat)
    (status : HealthStatus) (details : String) (now : Nat) :
    (HealthMonitor.updateMetric ⟨l⟩ name value status details now).metrics.map (fun m => m.name)
      = if name ∈ l.map (fun m => m.name) then l.map (fun m => m.name)
        else l.map (fun m => m.name) ++ [name] := by
  induction l with
  | nil => rw [updateMetric_nil]; simp
  | cons m t ih =>
    rw [updateMetric_cons]
    by_cases hn : m.name = name
    · rw [if_pos hn]
      simp [hn]
    · rw [if_neg hn, List.map_cons, ih]
      have hn' : ¬ name = m.name := fun e => hn e.symm
      by_cases hmem : name ∈ t.map (fun m => m.name)
      · simp [hmem]
      · simp [hmem, hn']

theorem updateMetric_nodup (l : List HealthMetric) (name : String) (value : Rat)
    (status : HealthStatus) (details : String) (now : Nat)
    (hnd : (l.map (fun m => m.name)).Nodup) :
    ((HealthMonitor.updateMetric ⟨l⟩ name value status details now).metrics.map
      (fun m => m.name)).Nodup := by
  rw [updateMetric_names]
  by_cases hmem : name ∈ l.map (fun m => m.name)
  · rw [if_pos hmem]; exact hnd
  · rw [if_neg hmem]
    exact List.Nodup.append hnd (List.nodup_singleton _) (by simpa using hmem)

theorem updateMetric_mem_name (l : List HealthMetric) (name : String) (value : Rat)
    (status : HealthStatus) (details : String) (now : Nat) :
    name ∈ (HealthMonitor.updateMetric ⟨l⟩ name value status details now).metrics.map
      (fun m => m.name) := by
  rw [updateMetric_names]
  by_cases hmem : name ∈ l.map (fun m => m.name)
  · rw [if_pos hmem]; exact hmem
  · rw [if_neg hmem]; simp

theorem updateMetric_written (l : List HealthMetric) (name : String) (value : Rat)
    (status : HealthStatus) (details : String) (now : Nat)
    (hnd : (l.map (fun m => m.name)).Nodup) :
    ∀ m ∈ (HealthMonitor.updateMetric ⟨l⟩ name value status details now).metrics,
      m.name = name →
      m.value = value ∧ m.status = status ∧ m.details = details ∧ m.lastUpdate = now := by
  induction l with
  | nil =>
    intro m hm _
    rw [updateMetric_nil] at hm
    rw [List.mem_singleton.mp hm]
    exact ⟨rfl, rfl, rfl, rfl⟩
  | cons h t ih =>
    intro m hm hname
    rw [updateMetric_cons] at hm
    rw [List.map_cons, List.nodup_cons] at hnd
    by_cases hn : h.name = name
    · rw [if_pos hn] at hm
      rcases List.mem_cons.mp hm with rfl | hmt
      · exact ⟨rfl, rfl, rfl, rfl⟩
      · exfalso
        apply hnd.1
        rw [hn, ← hname]
        exact List.mem_map_of_mem _ hmt
    · rw [if_neg hn] at hm
      rcases List.mem_cons.mp hm with rfl | hmt
      · exact absurd hname hn
      · exact ih hnd.2 m hmt hname

theorem updateMetric_others (l : List HealthMetric) (name : String) (value : Rat)
    (status : HealthStatus) (details : String) (now : Nat) :
    ∀ (i : Nat) (m : HealthMetric), l[i]? = some m → m.name ≠ name →
      (HealthMonitor.updateMetric ⟨l⟩ name value status details now).metrics[i]? = some m := by
  induction l with
  | nil => intro i m h; simp at h
  | cons h t ih =>
    intro i m hi hname
    rw [updateMetric_cons]
    by_cases hn : h.name = name
    · rw [if_pos hn]
      cases i with
      | zero =>
        have : h = m := by simpa using hi
        subst this; exact absurd hn hname
      | succ j => simpa using hi
    · rw [if_neg hn]
      cases i with
      | zero => simpa using hi
      | succ j =>
        rw [List.getElem?_cons_succ] at hi ⊢
        exact ih j m hi hname

theorem updateConnectionStatus_eq (h : HealthMonitor) (connectionName : String)
    (connected : Bool) (error : String) (now : Nat) :
    h.updateConnectionStatus connectionName connected error now =
      h.updateMetric connectionName (if connected then 1 else 0)
        (if connected then HealthStatus.HEALTHY else HealthStatus.CRITICAL)
        (if connected then "Connected" else "Disconnected: " ++ error) now := rfl

/-- The names in the table stay pairwise distinct along any sequence of calls. -/
theorem call_nodup (h : HealthMonitor) (c : HealthCall)
    (hnd : (h.metrics.map (fun m => m.name)).Nodup) :
    ((h.call c).metrics.map (fun m => m.name)).Nodup := by
  cases c with
  | updateMetric name value status details now =>
    exact updateMetric_nodup h.metrics name value status details now hnd
  | updateConnectionStatus name connected error now =>
    show ((h.updateConnectionStatus name connected error now).metrics.map _).Nodup
    rw [updateConnectionStatus_eq]
    exact updateMetric_nodup h.metrics name _ _ _ now hnd

theorem foldl_call_nodup (calls : List HealthCall) :
    ∀ h : HealthMonitor, (h.metrics.map (fun m => m.name)).Nodup →
      ((calls.foldl HealthMonitor.call h).metrics.map (fun m => m.name)).Nodup := by
  induction calls with
  | nil => intro h hnd; exact hnd
  | cons c t ih =>
    intro h hnd
    rw [List.foldl_cons]
    exact ih _ (call_nodup h c hnd)

theorem afterCalls_nodup (calls : List HealthCall) :
    ((HealthMonitor.afterCalls calls).metrics.map (fun m => m.name)).Nodup :=
  foldl_call_nodup calls {} List.nodup_nil

/-- Claim C16.  On the table reached by any sequence of `updateMetric` and
`updateConnectionStatus` calls, `updateMetric(name, value, status, details)` leaves
exactly one metric with that name, carrying the given value, status and details and
the current time; every metric with another name is unchanged at its position; the
table grows by one entry if the name was absent and keeps its size otherwise; the
names are pairwise distinct before and after. -/
theorem updateMetric_insert_or_overwrite (calls : List HealthCall) (name : String)
    (value : Rat) (status : HealthStatus) (details : String) (now : Nat) :
    (((HealthMonitor.afterCalls calls).updateMetric name value status details now).metrics.map
        (fun m => m.name)).count name = 1 ∧
    (∀ m ∈ ((HealthMonitor.afterCalls calls).updateMetric name value status details
        now).metrics, m.name = name →
      m.value = value ∧ m.status = status ∧ m.details = details ∧ m.lastUpdate = now) ∧
    (∀ (i : Nat) (m : HealthMetric),
      (HealthMonitor.afterCalls calls).metrics[i]? = some m → m.name ≠ name →
      ((HealthMonitor.afterCalls calls).updateMetric name value status details
        now).metrics[i]? = some m) ∧
    (((HealthMonitor.afterCalls calls).updateMetric name value status details
        now).metrics.length =
      if name ∈ (HealthMonitor.afterCalls calls).metrics.map (fun m => m.name)
      then (HealthMonitor.afterCalls calls).metrics.length
      else (HealthMonitor.afterCalls calls).metrics.length + 1) ∧
    ((HealthMonitor.afterCalls calls).metrics.map (fun m => m.name)).Nodup ∧
    (((HealthMonitor.afterCalls calls).updateMetric name value status details
        now).metrics.map (fun m => m.name)).Nodup := by
  have hnd := afterCalls_nodup calls
  have hnd' := updateMetric_nodup (HealthMonitor.afterCalls calls).metrics name value status
    details now hnd
  refine ⟨?_, ?_, ?_, ?_, hnd, hnd'⟩
  · exact List.count_eq_one_of_mem hnd'
      (updateMetric_mem_name (HealthMonitor.afterCalls calls).metrics name value status
        details now)
  · exact updateMetric_written (HealthMonitor.afterCalls calls).metrics name value status
      details now hnd
  · exact updateMetric_others (HealthMonitor.afterCalls calls).metrics name value status
      details now
  · have hlen := congrArg List.length
      (updateMetric_names (HealthMonitor.afterCalls calls).metrics name value status details now)
    rw [List.length_map] at hlen
    show (HealthMonitor.updateMetric ⟨(HealthMonitor.afterCalls calls).metrics⟩ name value
      status details now).metrics.length = _
    rw [hlen]
    by_cases hmem : name ∈ (HealthMonitor.afterCalls calls).metrics.map (fun m => m.name)
    · rw [if_pos hmem, if_pos hmem, List.length_map]
    · rw [if_neg hmem, if_neg hmem, List.length_append, List.length_map]
      rfl

/-- What `deserialize` rejects: a region shorter than the record size, or one
whose kind byte is not 1, 2 or 3. -/
theorem deserialize_rejects (self : TextMessage) (buf : List Nat) (now : Nat)
    (h : buf.length < getMaxSerializedSize ∨
      ¬ (buf.getD 0 0 % 256 = 1 ∨ buf.getD 0 0 % 256 = 2 ∨ buf.getD 0 0 % 256 = 3)) :
    (self.deserialize (some buf) now).1 = false := by
  by_cases hlen : buf.length < getMaxSerializedSize
  · unfold TextMessage.deserialize
    simp only [hlen, if_true]
  · have hk : ¬ (buf.getD 0 0 % 256 = 1 ∨ buf.getD 0 0 % 256 = 2 ∨ buf.getD 0 0 % 256 = 3) := by
      rcases h with h | h
      · exact absurd h hlen
      · exact h
    have ht : (TextMessage.fromBytes buf).type = buf.getD 0 0 % 256 := rfl
    rw [deserialize_some self buf now (by omega), if_pos]
    rw [ht]
    exact ⟨fun e => hk (Or.inl e), fun e => hk (Or.inr (Or.inl e)),
      fun e => hk (Or.inr (Or.inr e))⟩

/-- The datagram branch of the receive loop on a datagram that does not decode:
the feed's counters and `lastMessage` are updated, its error counter is
incremented, and no call is made to the callback. -/
theorem receiveLoop_rejected (sub : UdpSubscriber) (i : Nat) (bytes : List Nat)
    (steadyNow : Int) (systemNow : Nat) (feed : FeedInfo)
    (hf : sub.feeds[i]? = some feed) (ha : sub.activeFeed < sub.feeds.length)
    (hpos : 0 < (bytes.take 1024).length)
    (hd : ((TextMessage.ctor systemNow).deserialize (some (bytes.take 1024)) systemNow).1
      = false) :
    ∃ a, sub.receiveLoop i (RecvOutcome.data bytes) steadyNow systemNow =
      some ({ sub with
        feeds := sub.feeds.set i ({ feed with
            stats := { feed.stats with
              messagesReceived := u64add feed.stats.messagesReceived 1
              bytesReceived := u64add feed.stats.bytesReceived (bytes.take 1024).length
              errors := u64add feed.stats.errors 1 }
            lastMessage := steadyNow } : FeedInfo)
        activeFeed := a }, []) := by
  obtain ⟨a, hu⟩ := updateActiveFeed_some
    ({ sub with feeds := sub.feeds.set i ({ feed with
          stats := { feed.stats with
            messagesReceived := u64add feed.stats.messagesReceived 1
            bytesReceived := u64add feed.stats.bytesReceived (bytes.take 1024).length
            errors := u64add feed.stats.errors 1 }
          lastMessage := steadyNow } : FeedInfo) } : UdpSubscriber)
    (by simp only [List.length_set]; exact ha)
  refine ⟨a, ?_⟩
  unfold UdpSubscriber.receiveLoop
  simp only [hf, gt_iff_lt, hpos, if_true, hd, Bool.false_eq_true, if_false]
  rw [hu]

/-- Claim C13, as it holds.  When the receive step of feed `i` gets a non-empty
datagram that `deserialize` rejects (shorter than the record size, or kind byte
outside {1,2,3}), it returns with no call to the message callback, the error
counter of feed `i` incremented by one, and every other feed unchanged. -/
theorem receive_drops_rejected_datagram (sub : UdpSubscriber) (i : Nat) (bytes : List Nat)
    (steadyNow : Int) (systemNow : Nat) (feed : FeedInfo)
    (hf : sub.feeds[i]? = some feed) (ha : sub.activeFeed < sub.feeds.length)
    (hne : bytes ≠ [])
    (hrej : (bytes.take 1024).length < getMaxSerializedSize ∨
      ¬ ((bytes.take 1024).getD 0 0 % 256 = 1 ∨ (bytes.take 1024).getD 0 0 % 256 = 2 ∨
        (bytes.take 1024).getD 0 0 % 256 = 3)) :
    ∃ s' f', sub.receiveLoop i (RecvOutcome.data bytes) steadyNow systemNow = some (s', []) ∧
      s'.feeds[i]? = some f' ∧
      f'.stats.errors = u64add feed.stats.errors 1 ∧
      (feed.stats.errors + 1 < 2 ^ 64 → f'.stats.errors = feed.stats.errors + 1) ∧
      s'.feeds.length = sub.feeds.length ∧
      ∀ j, j ≠ i → s'.feeds[j]? = sub.feeds[j]? := by
  have hpos : 0 < (bytes.take 1024).length := by
    cases bytes with
    | nil => exact absurd rfl hne
    | cons b t => simp
  have hd := deserialize_rejects (TextMessage.ctor systemNow) (bytes.take 1024) systemNow hrej
  obtain ⟨a, heq⟩ := receiveLoop_rejected sub i bytes steadyNow systemNow feed hf ha hpos hd
  have hi : i < sub.feeds.length := (List.getElem?_eq_some.mp hf).1
  refine ⟨_, _, heq, List.getElem?_set_self hi, rfl, ?_, List.length_set _ _ _, ?_⟩
  · intro hlt
    show u64add feed.stats.errors 1 = feed.stats.errors + 1
    unfold u64add
    exact Nat.mod_eq_of_lt hlt
  · intro j hj
    exact List.getElem?_set_ne (Ne.symm hj)

/-- Witness for `receive_drops_rejected_datagram`: the three-byte datagram
`[9, 9, 9]` arriving on the only feed of a subscriber with a callback. -/
theorem receive_drops_rejected_datagram_witness :
    ∃ s' f', oneFeedSubscriber.receiveLoop 0 (RecvOutcome.data [9, 9, 9]) 50 9 = some (s', []) ∧
      s'.feeds[0]? = some f' ∧
      f'.stats.errors = u64add 0 1 ∧
      ((0 : Nat) + 1 < 2 ^ 64 → f'.stats.errors = 0 + 1) ∧
      s'.feeds.length = oneFeedSubscriber.feeds.length ∧
      ∀ j, j ≠ 0 → s'.feeds[j]? = oneFeedSubscriber.feeds[j]? :=
  receive_drops_rejected_datagram oneFeedSubscriber 0 [9, 9, 9] 50 9
    { address := "127.0.0.1", socket := 3, stats := { connected := true }, lastMessage := 0 }
    rfl (by decide) (by decide) (Or.inl (by decide))

/-- Claim C13 as stated fails.  A zero-length datagram is shorter than the record
size and `deserialize` rejects it, but the receive loop takes `received == 0` as
no data: the subscriber is left as it was and the feed's error counter stays 0. -/
theorem empty_datagram_not_counted :
    ((TextMessage.ctor 9).deserialize (some (([] : List Nat).take 1024)) 9).1 = false ∧
    oneFeedSubscriber.receiveLoop 0 (RecvOutcome.data []) 50 9
      = some (oneFeedSubscriber, []) ∧
    oneFeedSubscriber.feeds.map (fun feed => feed.stats.errors) = [0] := by
  decide

/-- The member `UdpSubscriber::isHealthy` returns true exactly when some feed has
its connected flag set. -/
theorem UdpSubscriber.isHealthy_iff (sub : UdpSubscriber) :
    sub.isHealthy = true ↔ ∃ feed ∈ sub.feeds, feed.stats.connected = true := by
  unfold UdpSubscriber.isHealthy
  rw [List.any_eq_true]

/-- The sibling `AeronSubscriber::isHealthy` of the stub requires a feed that is
connected and has no errors. -/
theorem AeronSubscriber.isHealthyStub_iff (sub : AeronSubscriber) :
    sub.isHealthyStub = true ↔
      ∃ stat ∈ sub.stats, stat.isConnected = true ∧ stat.hasErrors = false := by
  unfold AeronSubscriber.isHealthyStub
  rw [List.any_eq_true]
  constructor
  · rintro ⟨stat, hm, h⟩
    refine ⟨stat, hm, ?_⟩
    simpa using h
  · rintro ⟨stat, hm, h1, h2⟩
    exact ⟨stat, hm, by simp [h1, h2]⟩

/-- Claim C14, the behaviour of the code.  On a subscriber whose only feed is
connected and has an error count of 1, `UdpSubscriber::isHealthy` returns true
although no feed is connected and error-free. -/
theorem udp_isHealthy_ignores_errors :
    erroredFeedSubscriber.isHealthy = true ∧
    ¬ ∃ feed ∈ erroredFeedSubscriber.feeds,
      feed.stats.connected = true ∧ feed.stats.errors = 0 := by
  decide

/-- Claim C20.  For every region that `deserialize` accepts, the decoded size is
SMALL when the size byte (byte 1) is neither 0 nor 1 and is that byte otherwise,
and the decoded timestamp is the current time when the stored timestamp (bytes
8..15) is 0 and is the stored timestamp otherwise. -/
theorem deserialize_sanitizes_size_and_timestamp (self : TextMessage) (buf : List Nat)
    (now : Nat) (h : (self.deserialize (some buf) now).1 = true) :
    (self.deserialize (some buf) now).2.size =
      (if buf.getD 1 0 % 256 ≠ TextSize.SMALL ∧ buf.getD 1 0 % 256 ≠ TextSize.BIG
        then TextSize.SMALL else buf.getD 1 0 % 256) ∧
    (self.deserialize (some buf) now).2.timestamp =
      (if (TextMessage.fromBytes buf).timestamp = 0 then now
        else (TextMessage.fromBytes buf).timestamp) := by
  have hlen := deserialize_true_length self buf now h
  rw [deserialize_some self buf now hlen] at h ⊢
  by_cases ht : (TextMessage.fromBytes buf).type ≠ MessageType.TEXT_UPDATE ∧
      (TextMessage.fromBytes buf).type ≠ MessageType.CLEAR_TEXT ∧
      (TextMessage.fromBytes buf).type ≠ MessageType.HEARTBEAT
  · rw [if_pos ht] at h; cases h
  · rw [if_neg ht]
    exact ⟨rfl, rfl⟩

/-- Witness for `deserialize_sanitizes_size_and_timestamp`: the record of a
TEXT_UPDATE message with size byte 7 and timestamp 1. -/
theorem deserialize_sanitizes_size_and_timestamp_witness :
    ((TextMessage.ctor 0).deserialize (some oddSizeMessage.toBytes) 9).2.size =
      (if oddSizeMessage.toBytes.getD 1 0 % 256 ≠ TextSize.SMALL ∧
          oddSizeMessage.toBytes.getD 1 0 % 256 ≠ TextSize.BIG
        then TextSize.SMALL else oddSizeMessage.toBytes.getD 1 0 % 256) ∧
    ((TextMessage.ctor 0).deserialize (some oddSizeMessage.toBytes) 9).2.timestamp =
      (if (TextMessage.fromBytes oddSizeMessage.toBytes).timestamp = 0 then 9
        else (TextMessage.fromBytes oddSizeMessage.toBytes).timestamp) :=
  deserialize_sanitizes_size_and_timestamp (TextMessage.ctor 0) oddSizeMessage.toBytes 9
    (congrArg Prod.fst (deserialize_record oddSizeMessage (TextMessage.ctor 0) 9
      (wellFormed_zeros 1 7 0 1 (by decide) (by decide) (by decide) (by decide))
      (by decide) (by decide)))

theorem setText_text_length (m : TextMessage) (s : List Nat)
    (hlen : m.text.length = sizeofText) : (m.setText s).text.length = sizeofText := by
  simp only [TextMessage.setText, List.length_set, List.length_append, List.length_take,
    List.length_drop, hlen, sizeofText]
  omega

theorem setText_getText (m : TextMessage) (s : List Nat) :
    (m.setText s).getText = s.take (min s.length 511) := by
  simp only [TextMessage.getText, TextMessage.setText]
  have hl : (List.take (min s.length (sizeofText - 1)) s).length
      = min s.length (sizeofText - 1) := by
    rw [List.length_take]; omega
  rw [List.set_take, List.set_eq_of_length_le (by rw [List.length_take]; omega),
    List.take_append_of_le_length (by omega), List.take_take, Nat.min_self]
  rfl

theorem setText_terminated (m : TextMessage) (s : List Nat)
    (hlen : m.text.length = sizeofText) :
    (m.setText s).text.getD (m.setText s).textLength 1 = 0 := by
  simp only [TextMessage.setText]
  apply getD_set_self_zero
  simp only [List.length_append, List.length_take, List.length_drop, hlen, sizeofText]
  omega

/-- The member `setText` leaves the bytes after the terminator as they were. -/
theorem setText_beyond (m : TextMessage) (s : List Nat) (i : Nat)
    (hi : (m.setText s).textLength < i) : (m.setText s).text[i]? = m.text[i]? := by
  simp only [TextMessage.setText] at hi ⊢
  have hl : (List.take (min s.length (sizeofText - 1)) s).length
      = min s.length (sizeofText - 1) := by
    rw [List.length_take]; omega
  rw [List.getElem?_set_ne (by omega), List.getElem?_append_right (by omega), hl,
    List.getElem?_drop]
  congr 1
  omega

theorem setText_nulPadded (m : TextMessage) (s : List Nat)
    (hlen : m.text.length = sizeofText) (hp : m.NulPadded)
    (hle : m.textLength ≤ (m.setText s).textLength) : (m.setText s).NulPadded := by
  intro i hi hlt
  by_cases heq : i = (m.setText s).textLength
  · rw [heq]; exact setText_terminated m s hlen
  · have hgt : (m.setText s).textLength < i := by omega
    have := hp i (by omega) hlt
    rw [List.getD_eq_getElem?_getD] at this ⊢
    rw [setText_beyond m s i hgt]
    exact this

theorem ctor_nulPadded (now : Nat) : (TextMessage.ctor now).NulPadded := by
  intro i _ hlt
  exact getD_replicate_zero _ _ hlt

/-- Claim C19, as it holds.  For every message with its 512-byte text field,
`setText(s)` sets `textLength` to `min(length, 511)`, writes the terminator at
index `textLength`, makes `getText` return exactly the first `min(length, 511)`
bytes of `s`, and leaves every byte after the terminator as it was; so the field
is NUL from `textLength` on when it was before the call and the new text is not
shorter than the old, as after one `setText` on a default-constructed, clear or
heartbeat message, whose field is all NUL. -/
theorem setText_terminates_and_keeps_tail (m : TextMessage) (s : List Nat)
    (hlen : m.text.length = sizeofText) :
    (m.setText s).text.length = sizeofText ∧
    (m.setText s).textLength = min s.length 511 ∧
    (m.setText s).getText = s.take (min s.length 511) ∧
    (m.setText s).text.getD (m.setText s).textLength 1 = 0 ∧
    (∀ i, (m.setText s).textLength < i → (m.setText s).text[i]? = m.text[i]?) ∧
    (m.NulPadded → m.textLength ≤ (m.setText s).textLength → (m.setText s).NulPadded) ∧
    (∀ now, (TextMessage.ctor now).NulPadded ∧ (TextMessage.createClearMessage now).NulPadded ∧
      (TextMessage.createHeartbeat now).NulPadded ∧
      ((TextMessage.ctor now).setText s).NulPadded) :=
  ⟨setText_text_length m s hlen, rfl, setText_getText m s, setText_terminated m s hlen,
   fun i hi => setText_beyond m s i hi,
   fun hp hle => setText_nulPadded m s hlen hp hle,
   fun now => ⟨ctor_nulPadded now, ctor_nulPadded now, ctor_nulPadded now,
     setText_nulPadded _ s (List.length_replicate _ _) (ctor_nulPadded now) (Nat.zero_le _)⟩⟩

/-- Witness for `setText_terminates_and_keeps_tail`: `setText("Hi")` on a
default-constructed message. -/
theorem setText_terminates_and_keeps_tail_witness :
    ((TextMessage.ctor 0).setText [72, 105]).getText = [72, 105] ∧
    ((TextMessage.ctor 0).setText [72, 105]).NulPadded :=
  ⟨(setText_terminates_and_keeps_tail (TextMessage.ctor 0) [72, 105]
      (List.length_replicate _ _)).2.2.1,
   (setText_terminates_and_keeps_tail (TextMessage.ctor 0) [72, 105]
      (List.length_replicate _ _)).2.2.2.2.2.1 (ctor_nulPadded 0) (Nat.zero_le _)⟩

/-- Claim C19 as stated fails.  After `setText("Hello")` and then `setText("Hi")`
on a default-constructed message, `textLength` is 2 and the byte at index 3 of the
text field is still the letter l (108), not NUL. -/
theorem setText_leaves_stale_bytes :
    helloThenHi.textLength = 2 ∧ helloThenHi.text.getD 3 0 = 108 ∧
    ¬ helloThenHi.NulPadded := by
  have h2 : helloThenHi.textLength = 2 := rfl
  have h3 : helloThenHi.text.getD 3 0 = 108 := by
    rw [List.getD_eq_getElem?_getD]
    show (((TextMessage.ctor 0).setText [72, 101, 108, 108, 111]).setText [72, 105]).text[3]?.getD 0
      = 108
    rw [setText_beyond _ _ 3 (by decide)]
    rfl
  refine ⟨h2, h3, ?_⟩
  intro hp
  have := hp 3 (by decide) (by decide)
  rw [List.getD_eq_getElem?_getD] at this h3
  cases hv : helloThenHi.text[3]? with
  | none => rw [hv] at this; cases this
  | some v =>
    rw [hv] at this h3
    simp only [Option.getD_some] at this h3
    omega

theorem TextRenderer.updateText_idem (r : TextRenderer) (text : List Nat) (size : Nat) :
    (r.updateText text size).updateText text size = r.updateText text size := by
  unfold TextRenderer.updateText
  by_cases h : r.currentText ≠ text ∨ r.currentSize ≠ size
  · simp [h]
  · have h1 : r.currentText = text := by
      by_contra hc; exact h (Or.inl hc)
    have h2 : r.currentSize = size := by
      by_contra hc; exact h (Or.inr hc)
    simp [h1, h2]

/-- Claim C15.  For every receiver state and every TEXT_UPDATE message, applying
`ReceiverApp::onMessageReceived` to the message a second time, with any feed id,
leaves the application state and the renderer's state as they are after the
first application. -/
theorem onMessageReceived_idempotent (s : ReceiverApp) (m : TextMessage) (feed1 feed2 : Int)
    (t1 t2 : Int) (hm : m.type = MessageType.TEXT_UPDATE) :
    (s.onMessageReceived m feed1 t1).onMessageReceived m feed2 t2 =
      s.onMessageReceived m feed1 t1 := by
  unfold ReceiverApp.onMessageReceived
  simp only [hm, if_true]
  by_cases h : s.currentSize ≠ m.size
  · simp [h, TextRenderer.updateText_idem]
  · simp [h, TextRenderer.updateText_idem]

/-- Witness for `onMessageReceived_idempotent`: the big text "Yo" delivered on
feed 0 and again on feed 1 to a receiver showing the small text "Hi". -/
theorem onMessageReceived_idempotent_witness :
    ((receiverShowingHi.onMessageReceived
        bigYoMessage 0 10).onMessageReceived
        bigYoMessage 1 11) =
      receiverShowingHi.onMessageReceived bigYoMessage 0 10 :=
  onMessageReceived_idempotent receiverShowingHi bigYoMessage 0 1
    10 11 rfl

theorem endpointLiteral_data :
    "endpoint=".data = ['e', 'n', 'd', 'p', 'o', 'i', 'n', 't', '='] := rfl

theorem matchLiteral_append (p s : List Char) : matchLiteral p (p ++ s) = some s := by
  induction p with
  | nil => cases s <;> rfl
  | cons c cs ih => simp [matchLiteral, ih]

theorem matchLiteral_sound (p : List Char) :
    ∀ s rest, matchLiteral p s = some rest → s = p ++ rest := by
  induction p with
  | nil =>
    intro s rest h
    cases s <;> simp [matchLiteral] at h <;> simp [h]
  | cons c cs ih =>
    intro s rest h
    cases s with
    | nil => simp [matchLiteral] at h
    | cons d ds =>
      simp only [matchLiteral] at h
      by_cases hcd : c = d
      · rw [if_pos hcd] at h
        rw [hcd, ih ds rest h]
        rfl
      · rw [if_neg hcd] at h; cases h

theorem takeWhile_noColon (a rest : List Char) (h : ∀ c ∈ a, c ≠ ':') :
    (a ++ ':' :: rest).takeWhile (fun c => decide (c ≠ ':')) = a := by
  induction a with
  | nil => simp [List.takeWhile]
  | cons c cs ih =>
    have hc : c ≠ ':' := h c (List.mem_cons_self _ _)
    simp only [List.cons_append, List.takeWhile_cons, hc, ne_eq, not_false_eq_true,
      decide_True, if_true]
    rw [ih (fun d hd => h d (List.mem_cons_of_mem _ hd))]

theorem dropWhile_noColon (a rest : List Char) (h : ∀ c ∈ a, c ≠ ':') :
    (a ++ ':' :: rest).dropWhile (fun c => decide (c ≠ ':')) = ':' :: rest := by
  induction a with
  | nil => simp [List.dropWhile]
  | cons c cs ih =>
    have hc : c ≠ ':' := h c (List.mem_cons_self _ _)
    simp only [List.cons_append, List.dropWhile_cons, hc, ne_eq, not_false_eq_true,
      decide_True, if_true]
    exact ih (fun d hd => h d (List.mem_cons_of_mem _ hd))

theorem takeWhile_digits (p : List Char) (h : ∀ c ∈ p, c.isDigit = true) :
    p.takeWhile Char.isDigit = p := by
  induction p with
  | nil => rfl
  | cons c cs ih =>
    rw [List.takeWhile_cons, h c (List.mem_cons_self _ _)]
    simp only [if_true]
    rw [ih (fun d hd => h d (List.mem_cons_of_mem _ hd))]

/-- The pattern matches at the start of `endpoint=A:P`, capturing `A` and `P`. -/
theorem matchEndpointHere_descriptor (a p : List Char) (ha : a ≠ [])
    (hc : ∀ c ∈ a, c ≠ ':') (hp : p ≠ []) (hd : ∀ c ∈ p, c.isDigit = true) :
    matchEndpointHere ("endpoint=".data ++ (a ++ ':' :: p)) = some (a, p) := by
  unfold matchEndpointHere
  rw [matchLiteral_append]
  simp only [takeWhile_noColon a p hc, dropWhile_noColon a p hc, takeWhile_digits p hd]
  rw [if_pos ⟨ha, hp⟩]

/-- The search skips `aeron:udp?` and matches at `endpoint=`. -/
theorem regexSearchEndpoint_descriptor (a p : List Char) (ha : a ≠ [])
    (hc : ∀ c ∈ a, c ≠ ':') (hp : p ≠ []) (hd : ∀ c ∈ p, c.isDigit = true) :
    regexSearchEndpoint ("aeron:udp?endpoint=".data ++ a ++ ':' :: p) = some (a, p) := by
  have hm := matchEndpointHere_descriptor a p ha hc hp hd
  rw [endpointLiteral_data] at hm
  have hs : "aeron:udp?endpoint=".data ++ a ++ ':' :: p =
      'a' :: 'e' :: 'r' :: 'o' :: 'n' :: ':' :: 'u' :: 'd' :: 'p' :: '?' ::
        (['e', 'n', 'd', 'p', 'o', 'i', 'n', 't', '='] ++ (a ++ ':' :: p)) := by
    have : "aeron:udp?endpoint=".data = ['a', 'e', 'r', 'o', 'n', ':', 'u', 'd', 'p', '?',
        'e', 'n', 'd', 'p', 'o', 'i', 'n', 't', '='] := rfl
    rw [this]; simp
  rw [hs]
  have skip : ∀ (c : Char) (rest : List Char), matchEndpointHere (c :: rest) = none →
      regexSearchEndpoint (c :: rest) = regexSearchEndpoint rest := by
    intro c rest h
    rw [regexSearchEndpoint, h]
  rw [skip _ _ (by simp [matchEndpointHere, matchLiteral, endpointLiteral_data])]
  rw [skip _ _ (by simp [matchEndpointHere, matchLiteral, endpointLiteral_data])]
  rw [skip _ _ (by simp [matchEndpointHere, matchLiteral, endpointLiteral_data])]
  rw [skip _ _ (by simp [matchEndpointHere, matchLiteral, endpointLiteral_data])]
  rw [skip _ _ (by simp [matchEndpointHere, matchLiteral, endpointLiteral_data])]
  rw [skip _ _ (by simp [matchEndpointHere, matchLiteral, endpointLiteral_data])]
  rw [skip _ _ (by simp [matchEndpointHere, matchLiteral, endpointLiteral_data])]
  rw [skip _ _ (by simp [matchEndpointHere, matchLiteral, endpointLiteral_data])]
  rw [skip _ _ (by simp [matchEndpointHere, matchLiteral, endpointLiteral_data])]
  rw [skip _ _ (by simp [matchEndpointHere, matchLiteral, endpointLiteral_data])]
  show regexSearchEndpoint ('e' :: (['n', 'd', 'p', 'o', 'i', 'n', 't', '='] ++ (a ++ ':' :: p)))
    = some (a, p)
  rw [regexSearchEndpoint]
  have hm' : matchEndpointHere
      ('e' :: (['n', 'd', 'p', 'o', 'i', 'n', 't', '='] ++ (a ++ ':' :: p))) = some (a, p) := hm
  rw [hm']

/-- A match found at the start of `s` is a match of the pattern. -/
theorem matchEndpointHere_sound (s a p : List Char)
    (h : matchEndpointHere s = some (a, p)) :
    ∃ after, s = "endpoint=".data ++ a ++ ':' :: p ++ after ∧
      a ≠ [] ∧ (∀ c ∈ a, c ≠ ':') ∧ p ≠ [] ∧ ∀ c ∈ p, c.isDigit = true := by
  unfold matchEndpointHere at h
  cases hl : matchLiteral "endpoint=".data s with
  | none => rw [hl] at h; cases h
  | some rest =>
    rw [hl] at h
    simp only at h
    have hs := matchLiteral_sound _ s rest hl
    have hsplit := List.takeWhile_append_dropWhile (fun c => decide (c ≠ ':')) rest
    cases hdw : rest.dropWhile (fun c => decide (c ≠ ':')) with
    | nil => rw [hdw] at h; cases h
    | cons colon afterColon =>
      rw [hdw] at h hsplit
      simp only at h
      by_cases hne : rest.takeWhile (fun c => decide (c ≠ ':')) ≠ [] ∧
          afterColon.takeWhile Char.isDigit ≠ []
      · rw [if_pos hne] at h
        have hap := Option.some.inj h
        have ha : rest.takeWhile (fun c => decide (c ≠ ':')) = a := congrArg Prod.fst hap
        have hp : afterColon.takeWhile Char.isDigit = p := congrArg Prod.snd hap
        have hcolon : colon = ':' := by
          have hhead := List.head_dropWhile_not (fun c => decide (c ≠ ':')) rest
            (by rw [hdw]; exact List.cons_ne_nil _ _)
          simp only [hdw, List.head_cons] at hhead
          simpa using hhead
        have hpsplit := List.takeWhile_append_dropWhile Char.isDigit afterColon
        refine ⟨afterColon.dropWhile Char.isDigit, ?_, ?_, ?_, ?_, ?_⟩
        · rw [hs, ← hsplit, ha, hcolon]
          rw [hp] at hpsplit
          conv_lhs => rw [← hpsplit]
          simp
        · rw [← ha]; exact hne.1
        · intro c hcmem
          rw [← ha] at hcmem
          have := List.mem_takeWhile_imp hcmem
          simpa using this
        · rw [← hp]; exact hne.2
        · intro c hcmem
          rw [← hp] at hcmem
          exact List.mem_takeWhile_imp hcmem
      · rw [if_neg hne] at h; cases h

/-- A match found by the search is a match contained in the string. -/
theorem regexSearchEndpoint_sound (s : List Char) :
    ∀ a p, regexSearchEndpoint s = some (a, p) → ContainsEndpoint s := by
  induction s with
  | nil => intro a p h; simp [regexSearchEndpoint] at h
  | cons c cs ih =>
    intro a p h
    rw [regexSearchEndpoint] at h
    cases hm : matchEndpointHere (c :: cs) with
    | some groups =>
      rw [hm] at h
      obtain ⟨after, hs, h1, h2, h3, h4⟩ := matchEndpointHere_sound (c :: cs) groups.1 groups.2 hm
      exact ⟨[], groups.1, groups.2, after, by simpa using hs, h1, h2, h3, h4⟩
    | none =>
      rw [hm] at h
      obtain ⟨before, a', p', after, hs, h1, h2, h3, h4⟩ := ih a p h
      exact ⟨c :: before, a', p', after, by rw [hs]; simp, h1, h2, h3, h4⟩

theorem regexSearchEndpoint_none (s : List Char) (h : ¬ ContainsEndpoint s) :
    regexSearchEndpoint s = none := by
  cases hr : regexSearchEndpoint s with
  | none => rfl
  | some groups => exact absurd (regexSearchEndpoint_sound s groups.1 groups.2 hr) h

/-- Claim C17.  For the descriptor `aeron:udp?endpoint=A:P` with `A` non-empty and
free of `:` and `P` a non-empty string of decimal digits whose value fits in an
`int`, `extractAddress` returns `A` and `extractPort` returns the value of `P`; for
a descriptor that contains no match of `endpoint=<non-colon chars>:<digits>`,
`extractAddress` returns "224.0.1.1" and `extractPort` returns 9999. -/
theorem extract_address_and_port (a p : List Char) (ha : a ≠ [])
    (hc : ∀ c ∈ a, c ≠ ':') (hp : p ≠ []) (hd : ∀ c ∈ p, c.isDigit = true)
    (hfit : digitsValue p ≤ 2147483647) :
    extractAddress (String.mk ("aeron:udp?endpoint=".data ++ a ++ ':' :: p)) = String.mk a ∧
    extractPort (String.mk ("aeron:udp?endpoint=".data ++ a ++ ':' :: p)) =
      some (digitsValue p : Int) ∧
    (∀ channel : String, ¬ ContainsEndpoint channel.data →
      extractAddress channel = "224.0.1.1" ∧ extractPort channel = some 9999) := by
  have hs := regexSearchEndpoint_descriptor a p ha hc hp hd
  refine ⟨?_, ?_, ?_⟩
  · unfold extractAddress
    simp only [hs]
  · unfold extractPort stoi
    simp only [hs]
    rw [if_pos hfit]
  · intro channel hno
    have hn := regexSearchEndpoint_none channel.data hno
    refine ⟨?_, ?_⟩
    · unfold extractAddress
      rw [hn]
    · unfold extractPort
      rw [hn]

/-- Witness for `extract_address_and_port`: address `10.0.0.7`, port `4242`. -/
theorem extract_address_and_port_witness :
    extractAddress (String.mk ("aeron:udp?endpoint=".data ++ "10.0.0.7".data ++
      ':' :: "4242".data)) = String.mk "10.0.0.7".data ∧
    extractPort (String.mk ("aeron:udp?endpoint=".data ++ "10.0.0.7".data ++
      ':' :: "4242".data)) = some (digitsValue "4242".data : Int) ∧
    (∀ channel : String, ¬ ContainsEndpoint channel.data →
      extractAddress channel = "224.0.1.1" ∧ extractPort channel = some 9999) :=
  extract_address_and_port "10.0.0.7".data "4242".data (by decide) (by decide) (by decide)
    (by decide) (by decide)

/-- Claim C18 as stated fails.  For the descriptors `...127.0.0.1:9999` and
`...127.0.0.1:9998` the port extracted from the secondary descriptor is 9998, and
the single-endpoint `UdpAeronPublisher` takes it, but `UdpDualAeronPublisher`
gives the secondary endpoint the port 9999 of the primary descriptor. -/
theorem dual_adapter_secondary_port_from_primary :
    extractPort SECONDARY_CHANNEL = some 9998 ∧
    (UdpDualAeronPublisher.ctor PRIMARY_CHANNEL SECONDARY_CHANNEL 1001).map
      (fun d => (d.dualUdpPublisher.primary.multicastAddress,
        d.dualUdpPublisher.primary.port)) = some ("127.0.0.1", 9999) ∧
    (UdpDualAeronPublisher.ctor PRIMARY_CHANNEL SECONDARY_CHANNEL 1001).map
      (fun d => (d.dualUdpPublisher.secondary.multicastAddress,
        d.dualUdpPublisher.secondary.port)) = some ("127.0.0.1", 9999) ∧
    (UdpAeronPublisher.ctor SECONDARY_CHANNEL 1001).map
      (fun u => (u.udpPublisher.multicastAddress, u.udpPublisher.port))
      = some ("127.0.0.1", 9998) := by
  decide

/-- Claim C18, as it holds.  For every pair of descriptors,
`UdpDualAeronPublisher` is constructed exactly when `extractPort` returns on the
primary descriptor; it gives the primary endpoint the address and port extracted
from the primary descriptor, and the secondary endpoint the address extracted from
the secondary descriptor with the port extracted from the primary one.
`DualAeronPublisher`, which the sender constructs, is built exactly when
`extractPort` returns on both descriptors, and gives each endpoint the address and
port extracted from its own descriptor. -/
theorem dual_adapter_endpoint_configuration (primaryChannel secondaryChannel : String)
    (streamId : Int) :
    (UdpDualAeronPublisher.ctor primaryChannel secondaryChannel streamId).map
        (fun d => ((d.dualUdpPublisher.primary.multicastAddress,
            d.dualUdpPublisher.primary.port),
          (d.dualUdpPublisher.secondary.multicastAddress,
            d.dualUdpPublisher.secondary.port)))
      = (extractPort primaryChannel).map
        (fun port => ((extractAddress primaryChannel, port),
          (extractAddress secondaryChannel, port))) ∧
    (AeronStub.DualAeronPublisher.ctor primaryChannel secondaryChannel streamId).map
        (fun d => ((d.primary.realPublisher.udpPublisher.multicastAddress,
            d.primary.realPublisher.udpPublisher.port),
          (d.secondary.realPublisher.udpPublisher.multicastAddress,
            d.secondary.realPublisher.udpPublisher.port)))
      = (extractPort primaryChannel).bind
        (fun port1 => (extractPort secondaryChannel).map
          (fun port2 => ((extractAddress primaryChannel, port1),
            (extractAddress secondaryChannel, port2)))) := by
  refine ⟨?_, ?_⟩
  · unfold UdpDualAeronPublisher.ctor
    cases extractPort primaryChannel with
    | none => rfl
    | some port => rfl
  · unfold AeronStub.DualAeronPublisher.ctor AeronStub.AeronPublisher.ctor
      UdpAeronPublisher.ctor
    cases extractPort primaryChannel with
    | none => rfl
    | some port1 =>
      cases extractPort secondaryChannel with
      | none => rfl
      | some port2 => rfl

/-- A publisher that is not yet initialised opens exactly when `socket` returns a
descriptor and `inet_aton` accepts the address. -/
theorem UdpPublisher.initialize_fresh (p : UdpPublisher) (env : PublisherEnv)
    (hp : p.initialized = false) :
    ( UdpPublisher.initialize p env).1 = true ↔ (0 ≤ env.socket ∧ env.inetAton ≠ 0) := by
  unfold UdpPublisher.initialize
  simp only [hp, Bool.false_eq_true, if_false]
  by_cases hs : env.socket < 0
  · rw [if_pos hs]
    constructor
    · intro h; cases h
    · intro h; omega
  · rw [if_neg hs]
    by_cases ha : env.inetAton = 0
    · rw [if_pos ha]
      constructor
      · intro h; cases h
      · intro h; exact absurd ha h.2
    · rw [if_neg ha]
      constructor
      · intro _; exact ⟨by omega, ha⟩
      · intro _; rfl

/-- Claim C21.  `DualUdpPublisher::initialize` calls `initialize` on the primary
and on the secondary endpoint, whatever the primary's outcome, and returns true
exactly when at least one of the two calls returned true; for two endpoints not yet
initialised that is exactly when at least one of them opened. -/
theorem dual_initialize_redundant (d : DualUdpPublisher) (env1 env2 : PublisherEnv) :
    ( DualUdpPublisher.initialize d env1 env2).2.primary
      = ( UdpPublisher.initialize d.primary env1).2 ∧
    ( DualUdpPublisher.initialize d env1 env2).2.secondary
      = ( UdpPublisher.initialize d.secondary env2).2 ∧
    (( DualUdpPublisher.initialize d env1 env2).1 = true ↔
      (( UdpPublisher.initialize d.primary env1).1 = true ∨
        ( UdpPublisher.initialize d.secondary env2).1 = true)) ∧
    (d.primary.initialized = false → d.secondary.initialized = false →
      (( DualUdpPublisher.initialize d env1 env2).1 = true ↔
        ((0 ≤ env1.socket ∧ env1.inetAton ≠ 0) ∨ (0 ≤ env2.socket ∧ env2.inetAton ≠ 0)))) := by
  refine ⟨rfl, rfl, ?_, ?_⟩
  · simp only [ DualUdpPublisher.initialize, Bool.or_eq_true]
  · intro h1 h2
    simp only [ DualUdpPublisher.initialize, Bool.or_eq_true]
    rw [UdpPublisher.initialize_fresh d.primary env1 h1,
      UdpPublisher.initialize_fresh d.secondary env2 h2]

/-- Witness for `dual_initialize_redundant`: the primary's `socket()` fails and
the secondary opens, and the call returns true. -/
theorem dual_initialize_redundant_witness :
    ( DualUdpPublisher.initialize freshDualPublisher socketFails opensOn3).1 = true ∧
    ( DualUdpPublisher.initialize freshDualPublisher socketFails opensOn3).2.secondary.initialized
      = true :=
  ⟨((dual_initialize_redundant freshDualPublisher socketFails opensOn3).2.2.2 rfl rfl).2
      (Or.inr (by decide)),
   by decide⟩

/-- Claim C22, the behaviour of the code.  Take an endpoint that its constructor
built and `initialize` opened, and let it send its last heartbeat, created at time
`hb`, with `sendto` succeeding.  At any later time `now` with `now - hb` at least
5000 ms (on `uint64_t`) `UdpPublisher::isHealthy` still returns true, and so does
`DualUdpPublisher::isHealthy` of every redundant publisher that has it as primary
endpoint, while the sibling `AeronPublisher::isHealthy` of an endpoint whose last
heartbeat was at `hb` returns false at that time. -/
theorem udp_isHealthy_ignores_heartbeat (address : String) (port : Int) (env : PublisherEnv)
    (sent : Int) (strerror : String) (a : AeronPublisher) (hb now : Nat)
    (hs : 0 ≤ env.socket) (ha : env.inetAton ≠ 0) (hsent : 0 ≤ sent)
    (hlast : a.stats.lastHeartbeat = hb)
    (hstale : 5000 ≤ (now + 2 ^ 64 - hb % 2 ^ 64) % 2 ^ 64) :
    (( UdpPublisher.initialize (UdpPublisher.ctor address port) env).2.publish
      (TextMessage.createHeartbeat hb) sent strerror).result = true ∧
    ((( UdpPublisher.initialize (UdpPublisher.ctor address port) env).2.publish
      (TextMessage.createHeartbeat hb) sent strerror).publisher.isHealthy = true) ∧
    (∀ d : DualUdpPublisher,
      d.primary = (( UdpPublisher.initialize (UdpPublisher.ctor address port) env).2.publish
        (TextMessage.createHeartbeat hb) sent strerror).publisher → d.isHealthy = true) ∧
    a.isHealthy now = false := by
  have hopen : ( UdpPublisher.initialize (UdpPublisher.ctor address port) env).2
      = UdpPublisher.mk address port env.socket (NetworkStats.mk 0 0 0 0 0 0 true "") true := by
    unfold UdpPublisher.initialize UdpPublisher.ctor
    simp only [Bool.false_eq_true, if_false]
    rw [if_neg (by omega), if_neg ha]
  have hpub : (( UdpPublisher.initialize (UdpPublisher.ctor address port) env).2.publish
      (TextMessage.createHeartbeat hb) sent strerror).result = true ∧
      (( UdpPublisher.initialize (UdpPublisher.ctor address port) env).2.publish
      (TextMessage.createHeartbeat hb) sent strerror).publisher.isHealthy = true := by
    rw [hopen]
    have hc : (!true || decide (env.socket < 0)) = false := by
      simp only [Bool.not_true, Bool.false_or, decide_eq_false_iff_not]
      omega
    unfold UdpPublisher.publish
    simp only [hc, Bool.false_eq_true, if_false]
    rw [if_neg (by omega)]
    exact ⟨rfl, rfl⟩
  refine ⟨hpub.1, hpub.2, ?_, ?_⟩
  · intro d hd
    unfold DualUdpPublisher.isHealthy
    rw [hd, hpub.2]
    rfl
  · unfold AeronPublisher.isHealthy
    rw [hlast]
    have : decide ((now + 2 ^ 64 - hb % 2 ^ 64) % 2 ^ 64 < 5000) = false := by
      rw [decide_eq_false_iff_not]; omega
    rw [this, Bool.and_false]

/-- Witness for `udp_isHealthy_ignores_heartbeat`: the endpoint 127.0.0.1:9999
opens on descriptor 3 and sends a heartbeat created at time 1000; at time 61000 it
reports healthy, and the Aeron endpoint with its last heartbeat at 1000 does not. -/
theorem udp_isHealthy_ignores_heartbeat_witness :
    ((( UdpPublisher.initialize (UdpPublisher.ctor "127.0.0.1" 9999) opensOn3).2.publish
      (TextMessage.createHeartbeat 1000) 528 "").publisher.isHealthy = true) ∧
    aeronHeartbeatAt1000.isHealthy 61000 = false :=
  ⟨(udp_isHealthy_ignores_heartbeat "127.0.0.1" 9999 opensOn3 528 "" aeronHeartbeatAt1000
      1000 61000 (by decide) (by decide) (by decide) rfl (by decide)).2.1,
   (udp_isHealthy_ignores_heartbeat "127.0.0.1" 9999 opensOn3 528 "" aeronHeartbeatAt1000
      1000 61000 (by decide) (by decide) (by decide) rfl (by decide)).2.2.2⟩

theorem UdpPublisher.shutdown_closed (p : UdpPublisher) : p.shutdown.1.socket < 0 := by
  unfold UdpPublisher.shutdown
  by_cases h : p.socket ≥ 0
  · simp only [h, if_true]; decide
  · simp only [h, if_false]; omega

theorem UdpPublisher.shutdown_of_closed (p : UdpPublisher) (hs : p.socket < 0)
    (hi : p.initialized = false) (hc : p.stats.connected = false) :
    p.shutdown = (p, []) := by
  have h : ¬ p.socket ≥ 0 := by omega
  unfold UdpPublisher.shutdown
  simp only [h, if_false]
  cases p with
  | mk addr port socket stats initialized =>
    cases stats
    simp only at hi hc
    subst hi; subst hc
    rfl

/-- The change `UdpSubscriber::shutdown` makes to one feed. -/
theorem shutdown_feed_idem (feed : FeedInfo) :
    (fun f : FeedInfo =>
      ({ f with socket := if f.socket ≥ 0 then -1 else f.socket
                stats := { f.stats with connected := false } } : FeedInfo))
      ({ feed with socket := if feed.socket ≥ 0 then -1 else feed.socket
                   stats := { feed.stats with connected := false } } : FeedInfo) =
    ({ feed with socket := if feed.socket ≥ 0 then -1 else feed.socket
                 stats := { feed.stats with connected := false } } : FeedInfo) := by
  by_cases h : feed.socket ≥ 0
  · simp [h]
  · simp [h]

/-- Claim C23.  A second `UdpPublisher::shutdown` leaves the state of the first
(socket closed, not initialised, not connected) and closes no socket; a second
`UdpSubscriber::shutdown` leaves the state of the first (every feed without a
socket and not connected), joins no thread and closes no socket. -/
theorem shutdown_idempotent (p : UdpPublisher) (s : UdpSubscriber) :
    p.shutdown.1.shutdown = (p.shutdown.1, []) ∧
    p.shutdown.1.socket < 0 ∧ (-1 ≤ p.socket → p.shutdown.1.socket = -1) ∧
    p.shutdown.1.initialized = false ∧ p.shutdown.1.stats.connected = false ∧
    s.shutdown.subscriber.shutdown =
      { subscriber := s.shutdown.subscriber, joined := [], closed := [] } ∧
    (∀ feed ∈ s.shutdown.subscriber.feeds, feed.socket < 0 ∧ feed.stats.connected = false) ∧
    ((∀ feed ∈ s.feeds, -1 ≤ feed.socket) →
      ∀ feed ∈ s.shutdown.subscriber.feeds, feed.socket = -1) := by
  have hfeeds : ∀ feed ∈ s.shutdown.subscriber.feeds,
      feed.socket < 0 ∧ feed.stats.connected = false := by
    intro feed hf
    simp only [UdpSubscriber.shutdown, List.mem_map] at hf
    obtain ⟨g, _, rfl⟩ := hf
    refine ⟨?_, rfl⟩
    by_cases h : g.socket ≥ 0
    · simp only [h, if_true]; decide
    · simp only [h, if_false]; omega
  refine ⟨?_, UdpPublisher.shutdown_closed p, ?_, rfl, rfl, ?_, hfeeds, ?_⟩
  · exact UdpPublisher.shutdown_of_closed _ (UdpPublisher.shutdown_closed p) rfl rfl
  · intro hp
    unfold UdpPublisher.shutdown
    by_cases h : p.socket ≥ 0
    · simp only [h, if_true]
    · simp only [h, if_false]; omega
  · have hmap : s.shutdown.subscriber.feeds.map (fun f : FeedInfo =>
          ({ f with socket := if f.socket ≥ 0 then -1 else f.socket
                    stats := { f.stats with connected := false } } : FeedInfo))
        = s.shutdown.subscriber.feeds := by
      simp only [UdpSubscriber.shutdown, List.map_map]
      apply List.map_congr_left
      intro feed _
      exact shutdown_feed_idem feed
    have hfilter : s.shutdown.subscriber.feeds.filter (fun feed => decide (feed.socket ≥ 0))
        = [] := by
      rw [List.filter_eq_nil_iff]
      intro feed hf
      have := (hfeeds feed hf).1
      simp only [decide_eq_true_eq]; omega
    show UdpSubscriber.shutdown s.shutdown.subscriber = _
    unfold UdpSubscriber.shutdown at hmap hfilter ⊢
    simp only at hmap hfilter ⊢
    rw [hmap, hfilter]
    rfl
  · intro hall feed hf
    simp only [UdpSubscriber.shutdown, List.mem_map] at hf
    obtain ⟨g, hg, rfl⟩ := hf
    have := hall g hg
    by_cases h : g.socket ≥ 0
    · simp only [h, if_true]
    · simp only [h, if_false]; omega

/-- Witness for `shutdown_idempotent`: an open endpoint and a started subscriber
with three open feeds; the first shutdown joins three threads and closes three
sockets, the second none. -/
theorem shutdown_idempotent_witness :
    openDualPublisher.primary.shutdown.2 = [3] ∧
    openDualPublisher.primary.shutdown.1.shutdown = (openDualPublisher.primary.shutdown.1, []) ∧
    startedThreeFeedSubscriber.shutdown.joined = [0, 1, 2] ∧
    startedThreeFeedSubscriber.shutdown.closed = [3, 4, 5] ∧
    startedThreeFeedSubscriber.shutdown.subscriber.shutdown =
      { subscriber := startedThreeFeedSubscriber.shutdown.subscriber, joined := [],
        closed := [] } :=
  ⟨by decide, (shutdown_idempotent openDualPublisher.primary startedThreeFeedSubscriber).1,
   by decide, by decide,
   (shutdown_idempotent openDualPublisher.primary startedThreeFeedSubscriber).2.2.2.2.2.1⟩

/-- Claim C25, as it holds.  When `deserialize` returns false on a null region or
a region shorter than the record size, the message is exactly what it was before
the call; when it returns false on a region of at least the record size (an invalid
kind byte), the message holds the copied record, with `textLength` capped at 511. -/
theorem deserialize_failure_state (self : TextMessage) (buffer : Option (List Nat))
    (now : Nat) (hfail : (self.deserialize buffer now).1 = false) :
    ((buffer = none ∨ ∃ buf, buffer = some buf ∧ buf.length < getMaxSerializedSize) →
      (self.deserialize buffer now).2 = self) ∧
    (∀ buf, buffer = some buf → getMaxSerializedSize ≤ buf.length →
      (self.deserialize buffer now).2 =
        { TextMessage.fromBytes buf with
          textLength := min (TextMessage.fromBytes buf).textLength 511 }) := by
  constructor
  · rintro (rfl | ⟨buf, rfl, hlen⟩)
    · rfl
    · unfold TextMessage.deserialize
      simp only [hlen, if_true]
  · intro buf hb hlen
    subst hb
    rw [deserialize_some self buf now hlen] at hfail ⊢
    by_cases ht : (TextMessage.fromBytes buf).type ≠ MessageType.TEXT_UPDATE ∧
        (TextMessage.fromBytes buf).type ≠ MessageType.CLEAR_TEXT ∧
        (TextMessage.fromBytes buf).type ≠ MessageType.HEARTBEAT
    · rw [if_pos ht]
    · rw [if_neg ht] at hfail; cases hfail

/-- Witness for `deserialize_failure_state`: a three-byte region leaves a
default-constructed message as it was. -/
theorem deserialize_failure_state_witness :
    ((TextMessage.ctor 7).deserialize (some [9, 9, 9]) 9).2 = TextMessage.ctor 7 :=
  (deserialize_failure_state (TextMessage.ctor 7) (some [9, 9, 9]) 9
    (deserialize_rejects _ _ _ (Or.inl (by decide)))).1
    (Or.inr ⟨[9, 9, 9], rfl, by decide⟩)

/-- Claim C25 as stated fails.  On a zeroed region of 528 bytes (kind byte 0)
`deserialize` returns false and leaves the type of a default-constructed message at
0 where it was TEXT_UPDATE. -/
theorem deserialize_failure_overwrites :
    ((TextMessage.ctor 7).deserialize (some (List.replicate 528 0)) 9).1 = false ∧
    ((TextMessage.ctor 7).deserialize (some (List.replicate 528 0)) 9).2.type = 0 ∧
    (TextMessage.ctor 7).type = 1 := by
  have hlen : getMaxSerializedSize ≤ (List.replicate 528 0).length := by
    rw [List.length_replicate]
  have ht : (TextMessage.fromBytes (List.replicate 528 0)).type = 0 := rfl
  have hbad : (TextMessage.fromBytes (List.replicate 528 0)).type ≠ MessageType.TEXT_UPDATE ∧
      (TextMessage.fromBytes (List.replicate 528 0)).type ≠ MessageType.CLEAR_TEXT ∧
      (TextMessage.fromBytes (List.replicate 528 0)).type ≠ MessageType.HEARTBEAT := by
    rw [ht]; decide
  rw [deserialize_some _ _ _ hlen, if_pos hbad]
  exact ⟨rfl, ht, rfl⟩

/-- What `serialize` rejects on a buffer that is large enough. -/
theorem serialize_rejects (m : TextMessage) (buf : List Nat)
    (h : m.textLength ≥ sizeofText ∨
      (m.type ≠ MessageType.TEXT_UPDATE ∧ m.type ≠ MessageType.CLEAR_TEXT ∧
        m.type ≠ MessageType.HEARTBEAT)) :
    m.serialize (some buf) = (0, some buf) := by
  unfold TextMessage.serialize
  simp only
  by_cases h1 : buf.length < getMaxSerializedSize
  · rw [if_pos h1]
  · rw [if_neg h1]
    by_cases h2 : m.textLength ≥ sizeofText
    · rw [if_pos h2]
    · rw [if_neg h2]
      rcases h with h | h
      · exact absurd h h2
      · rw [if_pos h]

/-- The sibling `AeronPublisher::publish` returns false for a message that
`serialize` rejects, without a call to `offer`: the publisher is left as it was. -/
theorem AeronPublisher.publish_rejected (a : AeronPublisher) (m : TextMessage)
    (connected : Bool) (offer : OfferOutcome)
    (h : m.textLength ≥ sizeofText ∨
      (m.type ≠ MessageType.TEXT_UPDATE ∧ m.type ≠ MessageType.CLEAR_TEXT ∧
        m.type ≠ MessageType.HEARTBEAT)) :
    a.publish m connected offer = (false, a) := by
  unfold AeronPublisher.publish
  by_cases hc : (!a.hasPublication || !connected) = true
  · rw [if_pos hc]
  · rw [if_neg hc]
    simp only [serialize_rejects m _ h, if_true]

/-- Claim C26, the behaviour of the code.  For an open `UdpPublisher` and a
message that `serialize` rejects, `publish` still calls `sendto`, with a payload of
zero bytes; when that call does not fail, `publish` returns true and counts one
message sent. -/
theorem udp_publish_sends_rejected_message (p : UdpPublisher) (m : TextMessage) (sent : Int)
    (strerror : String) (hi : p.initialized = true) (hs : 0 ≤ p.socket)
    (hrej : m.textLength ≥ sizeofText ∨
      (m.type ≠ MessageType.TEXT_UPDATE ∧ m.type ≠ MessageType.CLEAR_TEXT ∧
        m.type ≠ MessageType.HEARTBEAT))
    (hsent : 0 ≤ sent) :
    (m.serialize (some (List.replicate 1024 0))).1 = 0 ∧
    (p.publish m sent strerror).result = true ∧
    (p.publish m sent strerror).sendto = some [] ∧
    (p.publish m sent strerror).publisher.stats.messagesSent
      = u64add p.stats.messagesSent 1 := by
  have hser := serialize_rejects m (List.replicate 1024 0) hrej
  have hc : (!p.initialized || decide (p.socket < 0)) = false := by
    rw [hi]; simp; exact hs
  have hns : ¬ sent < 0 := by omega
  unfold UdpPublisher.publish
  rw [hc]
  simp only [Bool.false_eq_true, if_false, hser, hns]
  exact ⟨trivial, trivial, rfl, trivial⟩

/-- Witness for `udp_publish_sends_rejected_message`: a message whose
`textLength` is 600, published on an open endpoint whose `sendto` returns 0. -/
theorem udp_publish_sends_rejected_message_witness :
    (oversizeLengthMessage.serialize (some (List.replicate 1024 0))).1 = 0 ∧
    (openDualPublisher.primary.publish oversizeLengthMessage 0 "").result = true ∧
    (openDualPublisher.primary.publish oversizeLengthMessage 0 "").sendto = some [] ∧
    (openDualPublisher.primary.publish oversizeLengthMessage 0 "").publisher.stats.messagesSent
      = u64add openDualPublisher.primary.stats.messagesSent 1 :=
  udp_publish_sends_rejected_message openDualPublisher.primary oversizeLengthMessage 0 ""
    rfl (by decide) (Or.inl (by decide)) (by decide)

/-- Claim C27, the behaviour of the code.  `HealthMonitor::getDetailedReport`,
called with the lock free, takes `metricsMutex_` and then, through
`getStatusString` and `getOverallStatus`, tries to take it again while it owns it:
the call never returns a report.  The other members take the lock once and return. -/
theorem getDetailedReport_relocks (h : HealthMonitor) (now : Nat) (showValue : Rat → String)
    (name : String) (value : Rat) (status : HealthStatus) (details : String)
    (connected : Bool) (error : String) :
    h.getDetailedReportLocking false now showValue = none ∧
    h.getStatusStringLocking true now = none ∧
    h.getOverallStatusLocking false now = some (h.getOverallStatus now) ∧
    h.getStatusStringLocking false now
      = some (HealthStatus.statusString (h.getOverallStatus now)) ∧
    h.isHealthyLocking false now
      = some (decide (h.getOverallStatus now = HealthStatus.HEALTHY)) ∧
    h.updateMetricLocking false name value status details now
      = some (h.updateMetric name value status details now) ∧
    h.updateConnectionStatusLocking false name connected error now
      = some (h.updateConnectionStatus name connected error now) ∧
    h.getAllMetricsLocking false = some h.metrics ∧
    (h.getMetricLocking false name).isSome = true := by
  refine ⟨rfl, rfl, rfl, rfl, rfl, rfl, rfl, rfl, ?_⟩
  unfold HealthMonitor.getMetricLocking
  simp only [Bool.false_eq_true, if_false]
  cases findMetric h.metrics name <;> rfl

/-- The loop of `updateActiveFeed` never lowers `bestTime`, ends with a
`bestTime` at least the time of every connected feed it passed, and ends either on
the pair it started with or on a feed of the list with that feed's time. -/
theorem updateActiveFeedLoop_spec (l : List FeedInfo) :
    ∀ (k b : Nat) (bt : Int),
      bt ≤ (updateActiveFeedLoop l k (b, bt)).2 ∧
      (∀ f ∈ l, f.stats.connected = true →
        f.lastMessage ≤ (updateActiveFeedLoop l k (b, bt)).2) ∧
      (updateActiveFeedLoop l k (b, bt) = (b, bt) ∨
        ∃ j f, l[j]? = some f ∧ updateActiveFeedLoop l k (b, bt) = (k + j, f.lastMessage)) := by
  induction l with
  | nil =>
    intro k b bt
    refine ⟨le_refl _, ?_, Or.inl rfl⟩
    intro f hf; cases hf
  | cons h t ih =>
    intro k b bt
    unfold updateActiveFeedLoop
    by_cases hc : (h.stats.connected && decide (h.lastMessage > bt)) = true
    · rw [if_pos hc]
      obtain ⟨h1, h2, h3⟩ := ih (k + 1) k h.lastMessage
      have hgt : h.lastMessage > bt := by
        simp only [Bool.and_eq_true, decide_eq_true_eq] at hc; exact hc.2
      refine ⟨by omega, ?_, ?_⟩
      · intro f hf hcon
        rcases List.mem_cons.mp hf with rfl | hft
        · exact h1
        · exact h2 f hft hcon
      · right
        rcases h3 with h3 | ⟨j, f, hj, h3⟩
        · exact ⟨0, h, by simp, by rw [h3]; rfl⟩
        · refine ⟨j + 1, f, by simpa using hj, ?_⟩
          rw [h3]
          have : k + 1 + j = k + (j + 1) := by omega
          rw [this]
    · rw [if_neg hc]
      obtain ⟨h1, h2, h3⟩ := ih (k + 1) b bt
      refine ⟨h1, ?_, ?_⟩
      · intro f hf hcon
        rcases List.mem_cons.mp hf with rfl | hft
        · have hle : ¬ f.lastMessage > bt := by
            intro hgt
            apply hc
            simp only [Bool.and_eq_true, decide_eq_true_eq]
            exact ⟨hcon, hgt⟩
          omega
        · exact h2 f hft hcon
      · rcases h3 with h3 | ⟨j, f, hj, h3⟩
        · exact Or.inl h3
        · right
          refine ⟨j + 1, f, by simpa using hj, ?_⟩
          rw [h3]
          have : k + 1 + j = k + (j + 1) := by omega
          rw [this]

/-- The member `updateActiveFeed` run on its own result changes nothing, when the
active feed's time is at least the time of every connected feed. -/
theorem updateActiveFeed_fixed (s : UdpSubscriber) (f : FeedInfo)
    (hf : s.feeds[s.activeFeed]? = some f)
    (hmax : ∀ g ∈ s.feeds, g.stats.connected = true → g.lastMessage ≤ f.lastMessage) :
    s.updateActiveFeed = some s := by
  unfold UdpSubscriber.updateActiveFeed
  simp only [hf]
  rw [updateActiveFeedLoop_noop s.feeds 0 s.activeFeed f.lastMessage]
  intro g hg hcg
  have := hmax g hg hcg.1
  omega

/-- The member `updateActiveFeed` with a valid `activeFeed_` returns, keeps the
feeds, and selects a feed of the list whose time is at least the time of every
connected feed. -/
theorem updateActiveFeed_spec (s : UdpSubscriber) (ha : s.activeFeed < s.feeds.length) :
    ∃ a f, s.updateActiveFeed = some { s with activeFeed := a } ∧
      s.feeds[a]? = some f ∧
      ∀ g ∈ s.feeds, g.stats.connected = true → g.lastMessage ≤ f.lastMessage := by
  have hg : s.feeds[s.activeFeed]? = some (s.feeds[s.activeFeed]) :=
    List.getElem?_eq_getElem ha
  obtain ⟨h1, h2, h3⟩ := updateActiveFeedLoop_spec s.feeds 0 s.activeFeed
    (s.feeds[s.activeFeed]).lastMessage
  unfold UdpSubscriber.updateActiveFeed
  simp only [hg]
  rcases h3 with h3 | ⟨j, f, hj, h3⟩
  · refine ⟨s.activeFeed, s.feeds[s.activeFeed], ?_, hg, ?_⟩
    · rw [h3]
    · intro g hgm hcon
      have := h2 g hgm hcon
      rw [h3] at this
      exact this
  · refine ⟨j, f, ?_, hj, ?_⟩
    · rw [h3]; simp
    · intro g hgm hcon
      have := h2 g hgm hcon
      rw [h3] at this
      exact this

/-- The datagram-free branches and the datagram branch of the receive loop keep
the number of feeds and keep `activeFeed_` a valid index. -/
theorem receiveLoop_keeps_bounds (sub : UdpSubscriber) (i : Nat) (recv : RecvOutcome)
    (steadyNow : Int) (systemNow : Nat) (s' : UdpSubscriber) (calls : List (TextMessage × Nat))
    (ha : sub.activeFeed < sub.feeds.length)
    (h : sub.receiveLoop i recv steadyNow systemNow = some (s', calls)) :
    s'.feeds.length = sub.feeds.length ∧ s'.activeFeed < s'.feeds.length := by
  cases hfeed : sub.feeds[i]? with
  | none =>
    unfold UdpSubscriber.receiveLoop at h
    simp only [hfeed] at h
    cases h
  | some feed =>
    cases recv with
    | wouldBlock =>
      unfold UdpSubscriber.receiveLoop at h
      simp only [hfeed] at h
      have := (Prod.mk.inj (Option.some.inj h)).1
      subst this
      exact ⟨rfl, ha⟩
    | error strerror =>
      unfold UdpSubscriber.receiveLoop at h
      simp only [hfeed] at h
      have := (Prod.mk.inj (Option.some.inj h)).1
      subst this
      exact ⟨List.length_set _ _ _, by simp only [List.length_set]; exact ha⟩
    | data bytes =>
      by_cases hpos : 0 < (bytes.take 1024).length
      · obtain ⟨feed', _, _, heq⟩ :=
          receiveLoop_data sub i bytes steadyNow systemNow feed hfeed hpos
        obtain ⟨a, f, hu, hfa, _⟩ := updateActiveFeed_spec
          ({ sub with feeds := sub.feeds.set i feed' } : UdpSubscriber)
          (by simp only [List.length_set]; exact ha)
        rw [h, hu] at heq
        have hs := (Prod.mk.inj (Option.some.inj heq)).1
        subst hs
        have hlt := (List.getElem?_eq_some.mp hfa).1
        exact ⟨List.length_set _ _ _, hlt⟩
      · unfold UdpSubscriber.receiveLoop at h
        simp only [hfeed, gt_iff_lt, hpos, if_false] at h
        have := (Prod.mk.inj (Option.some.inj h)).1
        subst this
        exact ⟨rfl, ha⟩

/-- Claim C28.  A subscriber constructed with at least one feed starts with
`activeFeed_ = 0` inside the feed list, and the receive step keeps the number of
feeds and keeps `activeFeed_` inside it.  From any such state `updateActiveFeed`
indexes `feeds_` within bounds (it returns), leaves `activeFeed_` inside the feed
list, pointing at a feed whose `lastMessage` is at least that of every connected
feed, and a second call changes nothing. -/
theorem updateActiveFeed_in_bounds (s : UdpSubscriber) (ha : s.activeFeed < s.feeds.length) :
    (∃ s' f, s.updateActiveFeed = some s' ∧ s'.feeds = s.feeds ∧
      s'.activeFeed < s'.feeds.length ∧
      s'.feeds[s'.activeFeed]? = some f ∧
      (∀ g ∈ s'.feeds, g.stats.connected = true → g.lastMessage ≤ f.lastMessage) ∧
      s'.updateActiveFeed = some s') ∧
    (∀ (addresses : List String) (port : Int) (now : Nat → Int), addresses ≠ [] →
      (UdpSubscriber.ctor addresses port now).activeFeed = 0 ∧
      (UdpSubscriber.ctor addresses port now).activeFeed
        < (UdpSubscriber.ctor addresses port now).feeds.length) ∧
    (∀ (i : Nat) (recv : RecvOutcome) (steadyNow : Int) (systemNow : Nat)
      (s' : UdpSubscriber) (calls : List (TextMessage × Nat)),
      s.receiveLoop i recv steadyNow systemNow = some (s', calls) →
      s'.feeds.length = s.feeds.length ∧ s'.activeFeed < s'.feeds.length) := by
  refine ⟨?_, ?_, ?_⟩
  · obtain ⟨a, f, hu, hfa, hmax⟩ := updateActiveFeed_spec s ha
    refine ⟨{ s with activeFeed := a }, f, hu, rfl, (List.getElem?_eq_some.mp hfa).1, hfa,
      hmax, ?_⟩
    exact updateActiveFeed_fixed { s with activeFeed := a } f hfa hmax
  · intro addresses port now hne
    refine ⟨rfl, ?_⟩
    simp only [UdpSubscriber.ctor, List.length_map, List.length_range]
    exact List.length_pos.mpr hne
  · intro i recv steadyNow systemNow s' calls h
    exact receiveLoop_keeps_bounds s i recv steadyNow systemNow s' calls ha h

/-- Witness for `updateActiveFeed_in_bounds`: three feeds of which feed 0
received at time 50 while feed 0 was active. -/
theorem updateActiveFeed_in_bounds_witness :
    ∃ s' f, threeFeedSubscriberAfterFeed0.updateActiveFeed = some s' ∧
      s'.feeds = threeFeedSubscriberAfterFeed0.feeds ∧
      s'.activeFeed < s'.feeds.length ∧
      s'.feeds[s'.activeFeed]? = some f ∧
      (∀ g ∈ s'.feeds, g.stats.connected = true → g.lastMessage ≤ f.lastMessage) ∧
      s'.updateActiveFeed = some s' :=
  (updateActiveFeed_in_bounds threeFeedSubscriberAfterFeed0 (by decide)).1

/-- The shared insert-and-resize puts the new entry first and keeps at most 99 of
the previous entries, in their order. -/
theorem insertEntry_eq (entries : List TextMemoryEntry) (entry : TextMemoryEntry) :
    insertEntry entries entry = entry :: entries.take 99 := by
  unfold insertEntry
  by_cases h : (entry :: entries).length > 100
  · simp only [h, if_true]
    rfl
  · simp only [h, if_false]
    rw [List.take_of_length_le]
    simp only [List.length_cons] at h
    omega

theorem insertEntry_length (entries : List TextMemoryEntry) (entry : TextMemoryEntry) :
    (insertEntry entries entry).length ≤ 100 := by
  rw [insertEntry_eq, List.length_cons, List.length_take]
  omega

/-- Claim C30, the behaviour of the code.  After `recordText("Hello")` at time
1000 and `checkForStaticText()` at time 5000 the text is stored and marked as
added; `onTextCleared()` at time 6000, and likewise `recordText("World")` at time
6000, then stores a second entry with the same text and the same `displayedAt`. -/
theorem textMemory_stores_duplicate :
    helloChecked.currentTextAddedToMemory = true ∧
    helloChecked.entries = [⟨"Hello", 1000, 4000⟩] ∧
    helloCheckedThenCleared.entries = [⟨"Hello", 1000, 5000⟩, ⟨"Hello", 1000, 4000⟩] ∧
    helloCheckedThenReplaced.entries = [⟨"Hello", 1000, 5000⟩, ⟨"Hello", 1000, 4000⟩] := by
  decide

end LiveText
